import Mathlib

/-!
# SGX quote verification library: chain and collateral verifiers

A shallow embedding of `PckCertVerifier` and `EnclaveIdentityVerifier`
(`Src/AttestationLibrary/src/Verifiers`), of `printStatus` (`StatusPrinter.cpp`) and of
`ProcessorPckCertificate` (`Src/AttestationParsers/src/X509`), together with the value
types they read, followed by theorems about what they return.

Conventions of the embedding:

* `Status` is the C enumeration, carried as its integer value; the numbering is the
  position of each name in the table of `StatusPrinter.cpp`.
* `std::time_t` is `Int`; byte vectors are lists of naturals.
* A `std::shared_ptr` returned by a chain accessor is an `Option`; dereferencing an
  empty pointer is the failure value `none` of a function returning `Option Status`.
* Injected collaborators (`CommonVerifier`, `PckCrlVerifier`, `TCBSigningChain`) and the
  virtual operations of `CrlStore` are records of functions, so that every theorem
  quantifies over all of their behaviours.
* Logging has no influence on a verdict and is left out of the verdict functions;
  `PckCertVerifier.verifyTraced` is `PckCertVerifier::verify` once more, with every
  pointer dereference and every log record.
* A C++ function that throws returns an `Except`; an object under construction is
  passed to and returned from the member functions that set its fields.
-/

namespace intel.sgx.dcap

/-! ## Status -/

/-- Integer value of the C enumeration `Status`. The header that declares the
enumeration is not in the sources; the enumerators below are numbered by their position
in the name table of `printStatus` (StatusPrinter.cpp, lines 41-141). -/
abbrev Status := Nat

abbrev STATUS_OK : Status := 0
abbrev STATUS_UNSUPPORTED_CERT_FORMAT : Status := 1
abbrev STATUS_SGX_ROOT_CA_MISSING : Status := 2
abbrev STATUS_SGX_ROOT_CA_INVALID : Status := 3
abbrev STATUS_SGX_ROOT_CA_INVALID_EXTENSIONS : Status := 4
abbrev STATUS_SGX_ROOT_CA_INVALID_ISSUER : Status := 5
abbrev STATUS_SGX_ROOT_CA_UNTRUSTED : Status := 6
abbrev STATUS_SGX_INTERMEDIATE_CA_MISSING : Status := 7
abbrev STATUS_SGX_INTERMEDIATE_CA_INVALID : Status := 8
abbrev STATUS_SGX_INTERMEDIATE_CA_INVALID_EXTENSIONS : Status := 9
abbrev STATUS_SGX_INTERMEDIATE_CA_INVALID_ISSUER : Status := 10
abbrev STATUS_SGX_INTERMEDIATE_CA_REVOKED : Status := 11
abbrev STATUS_SGX_PCK_MISSING : Status := 12
abbrev STATUS_SGX_PCK_INVALID : Status := 13
abbrev STATUS_SGX_PCK_INVALID_EXTENSIONS : Status := 14
abbrev STATUS_SGX_PCK_INVALID_ISSUER : Status := 15
abbrev STATUS_SGX_PCK_REVOKED : Status := 16
abbrev STATUS_TRUSTED_ROOT_CA_INVALID : Status := 17
abbrev STATUS_SGX_PCK_CERT_CHAIN_UNTRUSTED : Status := 18
abbrev STATUS_SGX_TCB_INFO_UNSUPPORTED_FORMAT : Status := 19
abbrev STATUS_SGX_TCB_INFO_INVALID : Status := 20
abbrev STATUS_TCB_INFO_INVALID_SIGNATURE : Status := 21
abbrev STATUS_SGX_TCB_SIGNING_CERT_MISSING : Status := 22
abbrev STATUS_SGX_TCB_SIGNING_CERT_INVALID : Status := 23
abbrev STATUS_SGX_TCB_SIGNING_CERT_INVALID_EXTENSIONS : Status := 24
abbrev STATUS_SGX_TCB_SIGNING_CERT_INVALID_ISSUER : Status := 25
abbrev STATUS_SGX_TCB_SIGNING_CERT_CHAIN_UNTRUSTED : Status := 26
abbrev STATUS_SGX_TCB_SIGNING_CERT_REVOKED : Status := 27
abbrev STATUS_SGX_CRL_UNSUPPORTED_FORMAT : Status := 28
abbrev STATUS_SGX_CRL_UNKNOWN_ISSUER : Status := 29
abbrev STATUS_SGX_CRL_INVALID : Status := 30
abbrev STATUS_SGX_CRL_INVALID_EXTENSIONS : Status := 31
abbrev STATUS_SGX_CRL_INVALID_SIGNATURE : Status := 32
abbrev STATUS_SGX_CA_CERT_UNSUPPORTED_FORMAT : Status := 33
abbrev STATUS_SGX_CA_CERT_INVALID : Status := 34
abbrev STATUS_TRUSTED_ROOT_CA_UNSUPPORTED_FORMAT : Status := 35
abbrev STATUS_MISSING_PARAMETERS : Status := 36
abbrev STATUS_UNSUPPORTED_QUOTE_FORMAT : Status := 37
abbrev STATUS_UNSUPPORTED_PCK_CERT_FORMAT : Status := 38
abbrev STATUS_INVALID_PCK_CERT : Status := 39
abbrev STATUS_UNSUPPORTED_PCK_RL_FORMAT : Status := 40
abbrev STATUS_INVALID_PCK_CRL : Status := 41
abbrev STATUS_UNSUPPORTED_TCB_INFO_FORMAT : Status := 42
abbrev STATUS_PCK_REVOKED : Status := 43
abbrev STATUS_TCB_INFO_MISMATCH : Status := 44
abbrev STATUS_TCB_OUT_OF_DATE : Status := 45
abbrev STATUS_TCB_REVOKED : Status := 46
abbrev STATUS_TCB_CONFIGURATION_NEEDED : Status := 47
abbrev STATUS_TCB_OUT_OF_DATE_CONFIGURATION_NEEDED : Status := 48
abbrev STATUS_TCB_NOT_SUPPORTED : Status := 49
abbrev STATUS_TCB_UNRECOGNIZED_STATUS : Status := 50
abbrev STATUS_UNSUPPORTED_QE_CERTIFICATION : Status := 51
abbrev STATUS_INVALID_QE_CERTIFICATION_DATA_SIZE : Status := 52
abbrev STATUS_UNSUPPORTED_QE_CERTIFICATION_DATA_TYPE : Status := 53
abbrev STATUS_PCK_CERT_MISMATCH : Status := 54
abbrev STATUS_INVALID_QE_REPORT_SIGNATURE : Status := 55
abbrev STATUS_INVALID_QE_REPORT_DATA : Status := 56
abbrev STATUS_INVALID_QUOTE_SIGNATURE : Status := 57
abbrev STATUS_SGX_QE_IDENTITY_UNSUPPORTED_FORMAT : Status := 58
abbrev STATUS_SGX_QE_IDENTITY_INVALID : Status := 59
abbrev STATUS_SGX_QE_IDENTITY_INVALID_SIGNATURE : Status := 60
abbrev STATUS_SGX_ENCLAVE_REPORT_UNSUPPORTED_FORMAT : Status := 61
abbrev STATUS_SGX_ENCLAVE_IDENTITY_UNSUPPORTED_FORMAT : Status := 62
abbrev STATUS_SGX_ENCLAVE_IDENTITY_INVALID : Status := 63
abbrev STATUS_SGX_ENCLAVE_IDENTITY_UNSUPPORTED_VERSION : Status := 64
abbrev STATUS_SGX_ENCLAVE_IDENTITY_OUT_OF_DATE : Status := 65
abbrev STATUS_SGX_ENCLAVE_REPORT_MISCSELECT_MISMATCH : Status := 66
abbrev STATUS_SGX_ENCLAVE_REPORT_ATTRIBUTES_MISMATCH : Status := 67
abbrev STATUS_SGX_ENCLAVE_REPORT_MRENCLAVE_MISMATCH : Status := 68
abbrev STATUS_SGX_ENCLAVE_REPORT_MRSIGNER_MISMATCH : Status := 69
abbrev STATUS_SGX_ENCLAVE_REPORT_ISVPRODID_MISMATCH : Status := 70
abbrev STATUS_SGX_ENCLAVE_REPORT_ISVSVN_OUT_OF_DATE : Status := 71
abbrev STATUS_UNSUPPORTED_QE_IDENTITY_FORMAT : Status := 72
abbrev STATUS_QE_IDENTITY_OUT_OF_DATE : Status := 73
abbrev STATUS_QE_IDENTITY_MISMATCH : Status := 74
abbrev STATUS_SGX_TCB_INFO_EXPIRED : Status := 75
abbrev STATUS_SGX_ENCLAVE_IDENTITY_INVALID_SIGNATURE : Status := 76
abbrev STATUS_INVALID_PARAMETER : Status := 77
abbrev STATUS_SGX_PCK_CERT_CHAIN_EXPIRED : Status := 78
abbrev STATUS_SGX_CRL_EXPIRED : Status := 79
abbrev STATUS_SGX_SIGNING_CERT_CHAIN_EXPIRED : Status := 80
abbrev STATUS_SGX_ENCLAVE_IDENTITY_EXPIRED : Status := 81
abbrev STATUS_TCB_SW_HARDENING_NEEDED : Status := 82
abbrev STATUS_TCB_CONFIGURATION_AND_SW_HARDENING_NEEDED : Status := 83
abbrev STATUS_SGX_ENCLAVE_REPORT_ISVSVN_REVOKED : Status := 84

/-! ## Value types read by the verifiers -/

/-- Value of a `std::time_t`. -/
abbrev time_t := Int

/-- Contents of a `std::vector<uint8_t>`. -/
abbrev Bytes := List Nat

/-- Modelled from the spec: the declaration of `x509::DistinguishedName` is not in the
sources; a name is its distinguished-name components and two names are equal when
their components are. -/
structure DistinguishedName where
  getCommonName : String
  getCountryName : String
  getOrganizationName : String
  getLocationName : String
  getStateName : String
deriving DecidableEq, Repr

/-- Modelled from the spec: the declaration of `x509::Validity` is not in the sources;
it is the validity window of a certificate. -/
structure Validity where
  getNotBeforeTime : time_t
  getNotAfterTime : time_t
deriving DecidableEq, Repr

/-- Modelled from the spec: the declaration of `x509::Signature` is not in the sources;
the verifiers read only the raw DER bytes. -/
structure Signature where
  getRawDer : Bytes
  getR : Bytes
  getS : Bytes
deriving DecidableEq, Repr

/-- Modelled from the spec: the declaration of `x509::Extension` is not in the sources. -/
structure Extension where
  getNid : Int
  getName : String
  getValue : Bytes
deriving DecidableEq, Repr

/-- Modelled from the spec: the declaration of `x509::Certificate` is not in the sources;
the fields are the ones listed in the data model and read by the unit tests. -/
structure Certificate where
  getVersion : Nat
  getSerialNumber : Bytes
  getSubject : DistinguishedName
  getIssuer : DistinguishedName
  getValidity : Validity
  getExtensions : List Extension
  getSignature : Signature
  getPubKey : Bytes
deriving DecidableEq, Repr

/-- Values of `x509::SgxType`. -/
inductive SgxType where
  | Standard
  | Scalable
deriving DecidableEq, Repr

/-- Modelled from the spec: the declaration of `x509::Tcb` is not in the sources. -/
structure Tcb where
  getCpuSvn : Bytes
  getPceSvn : Nat
deriving DecidableEq, Repr

/-- Modelled from the spec: the declaration of `x509::PckCertificate` is not in the
sources; it is a certificate together with the values of the SGX extension. -/
structure PckCertificate extends Certificate where
  getPpid : Bytes
  getPceId : Bytes
  getFmspc : Bytes
  getTcb : Tcb
  getSgxType : SgxType
deriving DecidableEq, Repr

/-- Modelled from the spec: the declaration of `CertificateChain` is not in the sources;
each accessor returns a shared pointer that is empty when the slot is absent. -/
structure CertificateChain where
  getRootCert : Option Certificate
  getIntermediateCert : Option Certificate
  getPckCert : Option PckCertificate
  getTopmostCert : Option Certificate

/-- Validity window of a certificate revocation list (`pckparser::Validity`). -/
structure CrlValidity where
  notBeforeTime : time_t
  notAfterTime : time_t
deriving DecidableEq, Repr

/-- Modelled from the spec: the declaration of `pckparser::CrlStore` is not in the
sources; `expired` and `isRevoked` are its two operations, whose bodies are not in
the sources either and are therefore arbitrary functions here. -/
structure CrlStore where
  getIssuer : DistinguishedName
  getValidity : CrlValidity
  expired : time_t → Bool
  isRevoked : Certificate → Bool

/-- Modelled from the spec: the declaration of `EnclaveIdentityV2` is not in the sources;
a signed JSON document split into the verbatim signed body and the detached
signature, with an issue time and a next-update time. -/
structure EnclaveIdentityV2 where
  getSignature : Bytes
  getBody : Bytes
  getIssueDate : time_t
  getNextUpdate : time_t
  getVersion : Nat
deriving DecidableEq, Repr

/-! ## Constants of `CertVerification/X509Constants.h`

The header is not in the sources; the three phrases are quoted by the error messages
of `PckCertVerifier::verify`. -/

namespace constants

def SGX_ROOT_CA_CN_PHRASE : String := "SGX Root CA"
def SGX_INTERMEDIATE_CN_PHRASE : String := "CA"
def SGX_PCK_CN_PHRASE : String := "SGX PCK Certificate"

end constants

/-! ## Collaborators -/

/-- Tells whether `phrase` occurs in the given text, as
`text.find(phrase) != std::string::npos` does. -/
def containsPhrase (phrase : List Char) : List Char → Bool
  | [] => phrase.isPrefixOf []
  | c :: cs => phrase.isPrefixOf (c :: cs) || containsPhrase phrase cs

namespace BaseVerifier

/-- Modelled from the spec: `BaseVerifier::commonNameContains` is not in the sources;
the CN-phrase match holds when the common name of `name` contains `phrase`. -/
def commonNameContains (name : DistinguishedName) (phrase : String) : Bool :=
  containsPhrase phrase.data name.getCommonName.data

end BaseVerifier

/-- Operations of the injected `CommonVerifier`. -/
structure CommonVerifier where
  verifyRootCACert : Certificate → Status
  verifyIntermediate : Certificate → Certificate → Status
  checkSignature : Certificate → Certificate → Bool
  checkSha256EcdsaSignature : Bytes → Bytes → Bytes → Bool

/-- Operation of the injected `PckCrlVerifier`. -/
structure PckCrlVerifier where
  verify : CrlStore → Certificate → Status

/-- Operation of the injected `TCBSigningChain`. -/
structure TCBSigningChain where
  verify : CertificateChain → CrlStore → Certificate → Status

/-! ## `PckCertVerifier` -/

/-- Members of `PckCertVerifier` set by its second constructor. -/
structure PckCertVerifier where
  _commonVerifier : CommonVerifier
  _crlVerifier : PckCrlVerifier

namespace PckCertVerifier

/-- Embedding of `PckCertVerifier::verifyPCKCert` (PckCertVerifier.cpp, lines 205-221). -/
def verifyPCKCert (self : PckCertVerifier) (pckCert : PckCertificate)
    (intermediate : Certificate) : Status :=
  if pckCert.getIssuer ≠ intermediate.getSubject then
    STATUS_SGX_PCK_INVALID_ISSUER
  else if !self._commonVerifier.checkSignature pckCert.toCertificate intermediate then
    STATUS_SGX_PCK_INVALID_ISSUER
  else
    STATUS_OK

/-- Embedding of `PckCertVerifier::verify` (PckCertVerifier.cpp, lines 53-203). -/
def verify (self : PckCertVerifier) (chain : CertificateChain)
    (rootCaCrl intermediateCrl : CrlStore) (rootCa : Certificate)
    (expirationDate : time_t) : Status :=
  match chain.getRootCert with
  | none => STATUS_SGX_ROOT_CA_MISSING
  | some x509InChainRootCa =>
  if !BaseVerifier.commonNameContains x509InChainRootCa.getSubject
      constants.SGX_ROOT_CA_CN_PHRASE then
    STATUS_SGX_ROOT_CA_MISSING
  else
  match chain.getIntermediateCert with
  | none => STATUS_SGX_INTERMEDIATE_CA_MISSING
  | some x509InChainIntermediateCa =>
  if !BaseVerifier.commonNameContains x509InChainIntermediateCa.getSubject
      constants.SGX_INTERMEDIATE_CN_PHRASE then
    STATUS_SGX_INTERMEDIATE_CA_MISSING
  else
  match chain.getPckCert with
  | none => STATUS_SGX_PCK_MISSING
  | some x509InChainPckCert =>
  if !BaseVerifier.commonNameContains x509InChainPckCert.getSubject
      constants.SGX_PCK_CN_PHRASE then
    STATUS_SGX_PCK_MISSING
  else
  let rootVerificationStatus := self._commonVerifier.verifyRootCACert x509InChainRootCa
  if rootVerificationStatus ≠ STATUS_OK then
    rootVerificationStatus
  else
  let intermediateVerificationStatus :=
    self._commonVerifier.verifyIntermediate x509InChainIntermediateCa x509InChainRootCa
  if intermediateVerificationStatus ≠ STATUS_OK then
    intermediateVerificationStatus
  else
  let pckVerificationStatus := self.verifyPCKCert x509InChainPckCert x509InChainIntermediateCa
  if pckVerificationStatus ≠ STATUS_OK then
    pckVerificationStatus
  else
  if rootCa.getSubject ≠ rootCa.getIssuer then
    STATUS_TRUSTED_ROOT_CA_INVALID
  else
  if x509InChainRootCa.getSignature.getRawDer ≠ rootCa.getSignature.getRawDer then
    STATUS_SGX_PCK_CERT_CHAIN_UNTRUSTED
  else
  let checkRootCaCrlCorrectness := self._crlVerifier.verify rootCaCrl x509InChainRootCa
  if checkRootCaCrlCorrectness ≠ STATUS_OK then
    checkRootCaCrlCorrectness
  else
  let checkIntermediateCrlCorrectness :=
    self._crlVerifier.verify intermediateCrl x509InChainIntermediateCa
  if checkIntermediateCrlCorrectness ≠ STATUS_OK then
    checkIntermediateCrlCorrectness
  else
  if rootCaCrl.isRevoked x509InChainIntermediateCa then
    STATUS_SGX_INTERMEDIATE_CA_REVOKED
  else
  if intermediateCrl.isRevoked x509InChainPckCert.toCertificate then
    STATUS_SGX_PCK_REVOKED
  else
  let validityDateRootCA := x509InChainRootCa.getValidity.getNotAfterTime
  if expirationDate > validityDateRootCA then
    STATUS_SGX_PCK_CERT_CHAIN_EXPIRED
  else
  let validityDateIntermediateCA := x509InChainIntermediateCa.getValidity.getNotAfterTime
  if expirationDate > validityDateIntermediateCA then
    STATUS_SGX_PCK_CERT_CHAIN_EXPIRED
  else
  let validityDatePCK := x509InChainPckCert.getValidity.getNotAfterTime
  if expirationDate > validityDatePCK then
    STATUS_SGX_PCK_CERT_CHAIN_EXPIRED
  else
  if rootCaCrl.expired expirationDate then
    STATUS_SGX_CRL_EXPIRED
  else
  if intermediateCrl.expired expirationDate then
    STATUS_SGX_CRL_EXPIRED
  else
    STATUS_OK

end PckCertVerifier

/-! ## `PckCertVerifier` with its dereferences and its log

The same function as `PckCertVerifier.verify`, written with what the verdict function
leaves out: every dereference of a pointer returned by a chain accessor, which fails on
an empty pointer, and every `LOG_ERROR` record. -/

/-- An argument of a log record: an instant, passed through `logger::timeToString`, or a
status. -/
inductive LogArg where
  | time (instant : time_t)
  | status (status : Status)
deriving DecidableEq, Repr

/-- A `LOG_ERROR` record: the format string and its arguments. -/
structure LogRecord where
  format : String
  args : List LogArg
deriving DecidableEq, Repr

/-- Dereference of a shared pointer: the rest of the function runs on the object pointed
to; the result is `none` when the pointer is empty. -/
def deref {α β : Type} (pointer : Option α) (rest : α → Option β) : Option β :=
  match pointer with
  | none => none
  | some object => rest object

namespace PckCertVerifier

/-- Embedding of `PckCertVerifier::verifyPCKCert` (PckCertVerifier.cpp, lines 205-221)
with its log. -/
def verifyPCKCertTraced (self : PckCertVerifier) (pckCert : PckCertificate)
    (intermediate : Certificate) : Status × List LogRecord :=
  if pckCert.getIssuer ≠ intermediate.getSubject then
    (STATUS_SGX_PCK_INVALID_ISSUER, [⟨"PCK Cert is not signed by Intermediate CA", []⟩])
  else if !self._commonVerifier.checkSignature pckCert.toCertificate intermediate then
    (STATUS_SGX_PCK_INVALID_ISSUER, [⟨"PCK Cert signature is invalid", []⟩])
  else
    (STATUS_OK, [])

/-- Embedding of `PckCertVerifier::verify` (PckCertVerifier.cpp, lines 53-203) with its
dereferences and its log: the status returned and the records logged, or `none` when an
empty pointer is dereferenced. -/
def verifyTraced (self : PckCertVerifier) (chain : CertificateChain)
    (rootCaCrl intermediateCrl : CrlStore) (rootCa : Certificate)
    (expirationDate : time_t) : Option (Status × List LogRecord) :=
  let x509InChainRootCa := chain.getRootCert
  if x509InChainRootCa.isNone then
    some (STATUS_SGX_ROOT_CA_MISSING, [⟨"ROOT CA is missing", []⟩])
  else
  deref x509InChainRootCa fun root =>
  if !BaseVerifier.commonNameContains root.getSubject constants.SGX_ROOT_CA_CN_PHRASE then
    some (STATUS_SGX_ROOT_CA_MISSING,
      [⟨"RootCa from chain. CN in Subject field does not contain \"SGX Root CA\" phrase",
        []⟩])
  else
  let x509InChainIntermediateCa := chain.getIntermediateCert
  if x509InChainIntermediateCa.isNone then
    some (STATUS_SGX_INTERMEDIATE_CA_MISSING, [⟨"Intermediate CA is missing", []⟩])
  else
  deref x509InChainIntermediateCa fun intermediate =>
  if !BaseVerifier.commonNameContains intermediate.getSubject
      constants.SGX_INTERMEDIATE_CN_PHRASE then
    some (STATUS_SGX_INTERMEDIATE_CA_MISSING,
      [⟨"IntermediateCa from chain. CN in Subject field does not contain \"CA\" phrase",
        []⟩])
  else
  let x509InChainPckCert := chain.getPckCert
  if x509InChainPckCert.isNone then
    some (STATUS_SGX_PCK_MISSING, [⟨"PCK cert is missing", []⟩])
  else
  deref x509InChainPckCert fun pck =>
  if !BaseVerifier.commonNameContains pck.getSubject constants.SGX_PCK_CN_PHRASE then
    some (STATUS_SGX_PCK_MISSING,
      [⟨"PCK Cert from chain. CN in Subject field does not contain \"SGX PCK Certificate\" phrase",
        []⟩])
  else
  deref x509InChainRootCa fun root =>
  let rootVerificationStatus := self._commonVerifier.verifyRootCACert root
  if rootVerificationStatus ≠ STATUS_OK then
    some (rootVerificationStatus,
      [⟨"Root CA verification failed: \x7b\x7d", [LogArg.status rootVerificationStatus]⟩])
  else
  deref x509InChainIntermediateCa fun intermediate =>
  deref x509InChainRootCa fun root =>
  let intermediateVerificationStatus :=
    self._commonVerifier.verifyIntermediate intermediate root
  if intermediateVerificationStatus ≠ STATUS_OK then
    some (intermediateVerificationStatus,
      [⟨"Intermediate CA verification failed: \x7b\x7d",
        [LogArg.status intermediateVerificationStatus]⟩])
  else
  deref x509InChainPckCert fun pck =>
  deref x509InChainIntermediateCa fun intermediate =>
  let pckVerification := self.verifyPCKCertTraced pck intermediate
  let pckVerificationStatus := pckVerification.1
  if pckVerificationStatus ≠ STATUS_OK then
    some (pckVerificationStatus,
      pckVerification.2 ++
        [⟨"PCK Certificate verification failed: \x7b\x7d",
          [LogArg.status pckVerificationStatus]⟩])
  else
  if rootCa.getSubject ≠ rootCa.getIssuer then
    some (STATUS_TRUSTED_ROOT_CA_INVALID, [⟨"PCK RootCA is not self signed", []⟩])
  else
  deref x509InChainRootCa fun root =>
  if root.getSignature.getRawDer ≠ rootCa.getSignature.getRawDer then
    some (STATUS_SGX_PCK_CERT_CHAIN_UNTRUSTED,
      [⟨"Signature of trusted root doesn't match signature of root cert from PCK Cert Chain. Chain is not trusted.",
        []⟩])
  else
  deref x509InChainRootCa fun root =>
  let checkRootCaCrlCorrectness := self._crlVerifier.verify rootCaCrl root
  if checkRootCaCrlCorrectness ≠ STATUS_OK then
    some (checkRootCaCrlCorrectness,
      [⟨"PCK Revocation lists - RootCaCrl verification failed: \x7b\x7d",
        [LogArg.status checkRootCaCrlCorrectness]⟩])
  else
  deref x509InChainIntermediateCa fun intermediate =>
  let checkIntermediateCrlCorrectness := self._crlVerifier.verify intermediateCrl intermediate
  if checkIntermediateCrlCorrectness ≠ STATUS_OK then
    some (checkIntermediateCrlCorrectness,
      [⟨"PCK Revocation lists - IntermediateCaCrl verification failed: \x7b\x7d",
        [LogArg.status checkIntermediateCrlCorrectness]⟩])
  else
  deref x509InChainIntermediateCa fun intermediate =>
  if rootCaCrl.isRevoked intermediate then
    some (STATUS_SGX_INTERMEDIATE_CA_REVOKED,
      [⟨"Intermediate CA Cert is revoked by Root CA", []⟩])
  else
  deref x509InChainPckCert fun pck =>
  if intermediateCrl.isRevoked pck.toCertificate then
    some (STATUS_SGX_PCK_REVOKED, [⟨"PCK Cert is revoked by Intermediate CA", []⟩])
  else
  deref x509InChainRootCa fun root =>
  let validityDateRootCA := root.getValidity.getNotAfterTime
  if expirationDate > validityDateRootCA then
    some (STATUS_SGX_PCK_CERT_CHAIN_EXPIRED,
      [⟨"PCK Cert Chain Root CA is expired. Expiration date: \x7b\x7d, validity: \x7b\x7d",
        [LogArg.time expirationDate, LogArg.time validityDateRootCA]⟩])
  else
  deref x509InChainIntermediateCa fun intermediate =>
  let validityDateIntermediateCA := intermediate.getValidity.getNotAfterTime
  if expirationDate > validityDateIntermediateCA then
    some (STATUS_SGX_PCK_CERT_CHAIN_EXPIRED,
      [⟨"PCK Cert Chain Intermediate CA is expired. Expiration date: \x7b\x7d, validity: \x7b\x7d",
        [LogArg.time expirationDate, LogArg.time validityDateIntermediateCA]⟩])
  else
  deref x509InChainPckCert fun pck =>
  let validityDatePCK := pck.getValidity.getNotAfterTime
  if expirationDate > validityDatePCK then
    some (STATUS_SGX_PCK_CERT_CHAIN_EXPIRED,
      [⟨"PCK Cert Chain PCK Cert is expired. Expiration date: \x7b\x7d, validity: \x7b\x7d",
        [LogArg.time expirationDate, LogArg.time validityDatePCK]⟩])
  else
  if rootCaCrl.expired expirationDate then
    some (STATUS_SGX_CRL_EXPIRED,
      [⟨"ROOT CA CRL is expired. Expiration date: \x7b\x7d, validity date range - from: \x7b\x7d to: \x7b\x7d",
        [LogArg.time expirationDate, LogArg.time rootCaCrl.getValidity.notBeforeTime,
          LogArg.time rootCaCrl.getValidity.notAfterTime]⟩])
  else
  if intermediateCrl.expired expirationDate then
    some (STATUS_SGX_CRL_EXPIRED,
      [⟨"Intermediate CA CRL is expired. Expiration date: \x7b\x7d, validity date range - from: \x7b\x7d to: \x7b\x7d",
        [LogArg.time expirationDate, LogArg.time rootCaCrl.getValidity.notBeforeTime,
          LogArg.time rootCaCrl.getValidity.notAfterTime]⟩])
  else
    some (STATUS_OK, [])

end PckCertVerifier

/-! ## `EnclaveIdentityVerifier` -/

/-- Members of `EnclaveIdentityVerifier` set by its second constructor. -/
structure EnclaveIdentityVerifier where
  _commonVerifier : CommonVerifier
  _tcbSigningChain : TCBSigningChain

namespace EnclaveIdentityVerifier

/-- Embedding of `EnclaveIdentityVerifier::verify` (EnclaveIdentityVerifier.cpp, lines
54-113). The function makes no presence check on the pointers returned by
`getTopmostCert` and `getRootCert`; the result is `none` when it dereferences an
empty one. -/
def verify (self : EnclaveIdentityVerifier) (enclaveIdentity : EnclaveIdentityV2)
    (chain : CertificateChain) (rootCaCrl : CrlStore) (trustedRoot : Certificate)
    (expirationDate : time_t) : Option Status :=
  let status := self._tcbSigningChain.verify chain rootCaCrl trustedRoot
  if status ≠ STATUS_OK then
    some status
  else
  match chain.getTopmostCert with
  | none => none
  | some tcbSigningCert =>
  if !self._commonVerifier.checkSha256EcdsaSignature enclaveIdentity.getSignature
      enclaveIdentity.getBody tcbSigningCert.getPubKey then
    some STATUS_SGX_ENCLAVE_IDENTITY_INVALID_SIGNATURE
  else
  let validityDateTcbSigCert := tcbSigningCert.getValidity.getNotAfterTime
  if expirationDate > validityDateTcbSigCert then
    some STATUS_SGX_SIGNING_CERT_CHAIN_EXPIRED
  else
  match chain.getRootCert with
  | none => none
  | some rootCA =>
  let validityDateRootCA := rootCA.getValidity.getNotAfterTime
  if expirationDate > validityDateRootCA then
    some STATUS_SGX_SIGNING_CERT_CHAIN_EXPIRED
  else
  if rootCaCrl.expired expirationDate then
    some STATUS_SGX_CRL_EXPIRED
  else
  let enclaveIdentityNextUpdate := enclaveIdentity.getNextUpdate
  if expirationDate > enclaveIdentityNextUpdate then
    some STATUS_SGX_ENCLAVE_IDENTITY_EXPIRED
  else
    some STATUS_OK

end EnclaveIdentityVerifier

/-! ## `StatusPrinter` -/

namespace StatusPrinter

/-- Value of `MAX_STATUS` in `printStatus` (StatusPrinter.cpp, line 40). -/
def MAX_STATUS : Status := STATUS_SGX_ENCLAVE_REPORT_ISVSVN_REVOKED

/-- Initialiser of the array `statusStrs` of `printStatus` (StatusPrinter.cpp, lines
41-141). -/
def statusStrs : List String :=
  ["STATUS_OK",
   "STATUS_UNSUPPORTED_CERT_FORMAT",
   "STATUS_SGX_ROOT_CA_MISSING",
   "STATUS_SGX_ROOT_CA_INVALID",
   "STATUS_SGX_ROOT_CA_INVALID_EXTENSIONS",
   "STATUS_SGX_ROOT_CA_INVALID_ISSUER",
   "STATUS_SGX_ROOT_CA_UNTRUSTED",
   "STATUS_SGX_INTERMEDIATE_CA_MISSING",
   "STATUS_SGX_INTERMEDIATE_CA_INVALID",
   "STATUS_SGX_INTERMEDIATE_CA_INVALID_EXTENSIONS",
   "STATUS_SGX_INTERMEDIATE_CA_INVALID_ISSUER",
   "STATUS_SGX_INTERMEDIATE_CA_REVOKED",
   "STATUS_SGX_PCK_MISSING",
   "STATUS_SGX_PCK_INVALID",
   "STATUS_SGX_PCK_INVALID_EXTENSIONS",
   "STATUS_SGX_PCK_INVALID_ISSUER",
   "STATUS_SGX_PCK_REVOKED",
   "STATUS_TRUSTED_ROOT_CA_INVALID",
   "STATUS_SGX_PCK_CERT_CHAIN_UNTRUSTED",
   "STATUS_SGX_TCB_INFO_UNSUPPORTED_FORMAT",
   "STATUS_SGX_TCB_INFO_INVALID",
   "STATUS_TCB_INFO_INVALID_SIGNATURE",
   "STATUS_SGX_TCB_SIGNING_CERT_MISSING",
   "STATUS_SGX_TCB_SIGNING_CERT_INVALID",
   "STATUS_SGX_TCB_SIGNING_CERT_INVALID_EXTENSIONS",
   "STATUS_SGX_TCB_SIGNING_CERT_INVALID_ISSUER",
   "STATUS_SGX_TCB_SIGNING_CERT_CHAIN_UNTRUSTED",
   "STATUS_SGX_TCB_SIGNING_CERT_REVOKED",
   "STATUS_SGX_CRL_UNSUPPORTED_FORMAT",
   "STATUS_SGX_CRL_UNKNOWN_ISSUER",
   "STATUS_SGX_CRL_INVALID",
   "STATUS_SGX_CRL_INVALID_EXTENSIONS",
   "STATUS_SGX_CRL_INVALID_SIGNATURE",
   "STATUS_SGX_CA_CERT_UNSUPPORTED_FORMAT",
   "STATUS_SGX_CA_CERT_INVALID",
   "STATUS_TRUSTED_ROOT_CA_UNSUPPORTED_FORMAT",
   "STATUS_MISSING_PARAMETERS",
   "STATUS_UNSUPPORTED_QUOTE_FORMAT",
   "STATUS_UNSUPPORTED_PCK_CERT_FORMAT",
   "STATUS_INVALID_PCK_CERT",
   "STATUS_UNSUPPORTED_PCK_RL_FORMAT",
   "STATUS_INVALID_PCK_CRL",
   "STATUS_UNSUPPORTED_TCB_INFO_FORMAT",
   "STATUS_PCK_REVOKED",
   "STATUS_TCB_INFO_MISMATCH",
   "STATUS_TCB_OUT_OF_DATE",
   "STATUS_TCB_REVOKED",
   "STATUS_TCB_CONFIGURATION_NEEDED",
   "STATUS_TCB_OUT_OF_DATE_CONFIGURATION_NEEDED",
   "STATUS_TCB_NOT_SUPPORTED",
   "STATUS_TCB_UNRECOGNIZED_STATUS",
   "STATUS_UNSUPPORTED_QE_CERTIFICATION",
   "STATUS_INVALID_QE_CERTIFICATION_DATA_SIZE",
   "STATUS_UNSUPPORTED_QE_CERTIFICATION_DATA_TYPE",
   "STATUS_PCK_CERT_MISMATCH",
   "STATUS_INVALID_QE_REPORT_SIGNATURE",
   "STATUS_INVALID_QE_REPORT_DATA",
   "STATUS_INVALID_QUOTE_SIGNATURE",
   "STATUS_SGX_QE_IDENTITY_UNSUPPORTED_FORMAT",
   "STATUS_SGX_QE_IDENTITY_INVALID",
   "STATUS_SGX_QE_IDENTITY_INVALID_SIGNATURE",
   "STATUS_SGX_ENCLAVE_REPORT_UNSUPPORTED_FORMAT",
   "STATUS_SGX_ENCLAVE_IDENTITY_UNSUPPORTED_FORMAT",
   "STATUS_SGX_ENCLAVE_IDENTITY_INVALID",
   "STATUS_SGX_ENCLAVE_IDENTITY_UNSUPPORTED_VERSION",
   "STATUS_SGX_ENCLAVE_IDENTITY_OUT_OF_DATE",
   "STATUS_SGX_ENCLAVE_REPORT_MISCSELECT_MISMATCH",
   "STATUS_SGX_ENCLAVE_REPORT_ATTRIBUTES_MISMATCH",
   "STATUS_SGX_ENCLAVE_REPORT_MRENCLAVE_MISMATCH",
   "STATUS_SGX_ENCLAVE_REPORT_MRSIGNER_MISMATCH",
   "STATUS_SGX_ENCLAVE_REPORT_ISVPRODID_MISMATCH",
   "STATUS_SGX_ENCLAVE_REPORT_ISVSVN_OUT_OF_DATE",
   "STATUS_UNSUPPORTED_QE_IDENTITY_FORMAT",
   "STATUS_QE_IDENTITY_OUT_OF_DATE",
   "STATUS_QE_IDENTITY_MISMATCH",
   "STATUS_SGX_TCB_INFO_EXPIRED",
   "STATUS_SGX_ENCLAVE_IDENTITY_INVALID_SIGNATURE",
   "STATUS_INVALID_PARAMETER",
   "STATUS_SGX_PCK_CERT_CHAIN_EXPIRED",
   "STATUS_SGX_CRL_EXPIRED",
   "STATUS_SGX_SIGNING_CERT_CHAIN_EXPIRED",
   "STATUS_SGX_ENCLAVE_IDENTITY_EXPIRED",
   "STATUS_TCB_SW_HARDENING_NEEDED",
   "STATUS_TCB_CONFIGURATION_AND_SW_HARDENING_NEEDED",
   "STATUS_SGX_ENCLAVE_REPORT_ISVSVN_REVOKED"]

/-- Embedding of `printStatus` (StatusPrinter.cpp, lines 38-149); `std::to_string` is the
decimal representation. The result is `none` when the array is read out of bounds. -/
def printStatus (s : Status) : Option String :=
  let statusNumberStr := "(" ++ Nat.repr s ++ ")"
  if s > MAX_STATUS then
    some ("Unknown status" ++ statusNumberStr)
  else
    match statusStrs.get? s with
    | none => none
    | some name => some (name ++ statusNumberStr)

/-- The enumerators of `Status` with their names, in the order of their values. -/
def enumerators : List (Status × String) :=
  [(STATUS_OK, "STATUS_OK"),
   (STATUS_UNSUPPORTED_CERT_FORMAT, "STATUS_UNSUPPORTED_CERT_FORMAT"),
   (STATUS_SGX_ROOT_CA_MISSING, "STATUS_SGX_ROOT_CA_MISSING"),
   (STATUS_SGX_ROOT_CA_INVALID, "STATUS_SGX_ROOT_CA_INVALID"),
   (STATUS_SGX_ROOT_CA_INVALID_EXTENSIONS, "STATUS_SGX_ROOT_CA_INVALID_EXTENSIONS"),
   (STATUS_SGX_ROOT_CA_INVALID_ISSUER, "STATUS_SGX_ROOT_CA_INVALID_ISSUER"),
   (STATUS_SGX_ROOT_CA_UNTRUSTED, "STATUS_SGX_ROOT_CA_UNTRUSTED"),
   (STATUS_SGX_INTERMEDIATE_CA_MISSING, "STATUS_SGX_INTERMEDIATE_CA_MISSING"),
   (STATUS_SGX_INTERMEDIATE_CA_INVALID, "STATUS_SGX_INTERMEDIATE_CA_INVALID"),
   (STATUS_SGX_INTERMEDIATE_CA_INVALID_EXTENSIONS, "STATUS_SGX_INTERMEDIATE_CA_INVALID_EXTENSIONS"),
   (STATUS_SGX_INTERMEDIATE_CA_INVALID_ISSUER, "STATUS_SGX_INTERMEDIATE_CA_INVALID_ISSUER"),
   (STATUS_SGX_INTERMEDIATE_CA_REVOKED, "STATUS_SGX_INTERMEDIATE_CA_REVOKED"),
   (STATUS_SGX_PCK_MISSING, "STATUS_SGX_PCK_MISSING"),
   (STATUS_SGX_PCK_INVALID, "STATUS_SGX_PCK_INVALID"),
   (STATUS_SGX_PCK_INVALID_EXTENSIONS, "STATUS_SGX_PCK_INVALID_EXTENSIONS"),
   (STATUS_SGX_PCK_INVALID_ISSUER, "STATUS_SGX_PCK_INVALID_ISSUER"),
   (STATUS_SGX_PCK_REVOKED, "STATUS_SGX_PCK_REVOKED"),
   (STATUS_TRUSTED_ROOT_CA_INVALID, "STATUS_TRUSTED_ROOT_CA_INVALID"),
   (STATUS_SGX_PCK_CERT_CHAIN_UNTRUSTED, "STATUS_SGX_PCK_CERT_CHAIN_UNTRUSTED"),
   (STATUS_SGX_TCB_INFO_UNSUPPORTED_FORMAT, "STATUS_SGX_TCB_INFO_UNSUPPORTED_FORMAT"),
   (STATUS_SGX_TCB_INFO_INVALID, "STATUS_SGX_TCB_INFO_INVALID"),
   (STATUS_TCB_INFO_INVALID_SIGNATURE, "STATUS_TCB_INFO_INVALID_SIGNATURE"),
   (STATUS_SGX_TCB_SIGNING_CERT_MISSING, "STATUS_SGX_TCB_SIGNING_CERT_MISSING"),
   (STATUS_SGX_TCB_SIGNING_CERT_INVALID, "STATUS_SGX_TCB_SIGNING_CERT_INVALID"),
   (STATUS_SGX_TCB_SIGNING_CERT_INVALID_EXTENSIONS, "STATUS_SGX_TCB_SIGNING_CERT_INVALID_EXTENSIONS"),
   (STATUS_SGX_TCB_SIGNING_CERT_INVALID_ISSUER, "STATUS_SGX_TCB_SIGNING_CERT_INVALID_ISSUER"),
   (STATUS_SGX_TCB_SIGNING_CERT_CHAIN_UNTRUSTED, "STATUS_SGX_TCB_SIGNING_CERT_CHAIN_UNTRUSTED"),
   (STATUS_SGX_TCB_SIGNING_CERT_REVOKED, "STATUS_SGX_TCB_SIGNING_CERT_REVOKED"),
   (STATUS_SGX_CRL_UNSUPPORTED_FORMAT, "STATUS_SGX_CRL_UNSUPPORTED_FORMAT"),
   (STATUS_SGX_CRL_UNKNOWN_ISSUER, "STATUS_SGX_CRL_UNKNOWN_ISSUER"),
   (STATUS_SGX_CRL_INVALID, "STATUS_SGX_CRL_INVALID"),
   (STATUS_SGX_CRL_INVALID_EXTENSIONS, "STATUS_SGX_CRL_INVALID_EXTENSIONS"),
   (STATUS_SGX_CRL_INVALID_SIGNATURE, "STATUS_SGX_CRL_INVALID_SIGNATURE"),
   (STATUS_SGX_CA_CERT_UNSUPPORTED_FORMAT, "STATUS_SGX_CA_CERT_UNSUPPORTED_FORMAT"),
   (STATUS_SGX_CA_CERT_INVALID, "STATUS_SGX_CA_CERT_INVALID"),
   (STATUS_TRUSTED_ROOT_CA_UNSUPPORTED_FORMAT, "STATUS_TRUSTED_ROOT_CA_UNSUPPORTED_FORMAT"),
   (STATUS_MISSING_PARAMETERS, "STATUS_MISSING_PARAMETERS"),
   (STATUS_UNSUPPORTED_QUOTE_FORMAT, "STATUS_UNSUPPORTED_QUOTE_FORMAT"),
   (STATUS_UNSUPPORTED_PCK_CERT_FORMAT, "STATUS_UNSUPPORTED_PCK_CERT_FORMAT"),
   (STATUS_INVALID_PCK_CERT, "STATUS_INVALID_PCK_CERT"),
   (STATUS_UNSUPPORTED_PCK_RL_FORMAT, "STATUS_UNSUPPORTED_PCK_RL_FORMAT"),
   (STATUS_INVALID_PCK_CRL, "STATUS_INVALID_PCK_CRL"),
   (STATUS_UNSUPPORTED_TCB_INFO_FORMAT, "STATUS_UNSUPPORTED_TCB_INFO_FORMAT"),
   (STATUS_PCK_REVOKED, "STATUS_PCK_REVOKED"),
   (STATUS_TCB_INFO_MISMATCH, "STATUS_TCB_INFO_MISMATCH"),
   (STATUS_TCB_OUT_OF_DATE, "STATUS_TCB_OUT_OF_DATE"),
   (STATUS_TCB_REVOKED, "STATUS_TCB_REVOKED"),
   (STATUS_TCB_CONFIGURATION_NEEDED, "STATUS_TCB_CONFIGURATION_NEEDED"),
   (STATUS_TCB_OUT_OF_DATE_CONFIGURATION_NEEDED, "STATUS_TCB_OUT_OF_DATE_CONFIGURATION_NEEDED"),
   (STATUS_TCB_NOT_SUPPORTED, "STATUS_TCB_NOT_SUPPORTED"),
   (STATUS_TCB_UNRECOGNIZED_STATUS, "STATUS_TCB_UNRECOGNIZED_STATUS"),
   (STATUS_UNSUPPORTED_QE_CERTIFICATION, "STATUS_UNSUPPORTED_QE_CERTIFICATION"),
   (STATUS_INVALID_QE_CERTIFICATION_DATA_SIZE, "STATUS_INVALID_QE_CERTIFICATION_DATA_SIZE"),
   (STATUS_UNSUPPORTED_QE_CERTIFICATION_DATA_TYPE, "STATUS_UNSUPPORTED_QE_CERTIFICATION_DATA_TYPE"),
   (STATUS_PCK_CERT_MISMATCH, "STATUS_PCK_CERT_MISMATCH"),
   (STATUS_INVALID_QE_REPORT_SIGNATURE, "STATUS_INVALID_QE_REPORT_SIGNATURE"),
   (STATUS_INVALID_QE_REPORT_DATA, "STATUS_INVALID_QE_REPORT_DATA"),
   (STATUS_INVALID_QUOTE_SIGNATURE, "STATUS_INVALID_QUOTE_SIGNATURE"),
   (STATUS_SGX_QE_IDENTITY_UNSUPPORTED_FORMAT, "STATUS_SGX_QE_IDENTITY_UNSUPPORTED_FORMAT"),
   (STATUS_SGX_QE_IDENTITY_INVALID, "STATUS_SGX_QE_IDENTITY_INVALID"),
   (STATUS_SGX_QE_IDENTITY_INVALID_SIGNATURE, "STATUS_SGX_QE_IDENTITY_INVALID_SIGNATURE"),
   (STATUS_SGX_ENCLAVE_REPORT_UNSUPPORTED_FORMAT, "STATUS_SGX_ENCLAVE_REPORT_UNSUPPORTED_FORMAT"),
   (STATUS_SGX_ENCLAVE_IDENTITY_UNSUPPORTED_FORMAT, "STATUS_SGX_ENCLAVE_IDENTITY_UNSUPPORTED_FORMAT"),
   (STATUS_SGX_ENCLAVE_IDENTITY_INVALID, "STATUS_SGX_ENCLAVE_IDENTITY_INVALID"),
   (STATUS_SGX_ENCLAVE_IDENTITY_UNSUPPORTED_VERSION, "STATUS_SGX_ENCLAVE_IDENTITY_UNSUPPORTED_VERSION"),
   (STATUS_SGX_ENCLAVE_IDENTITY_OUT_OF_DATE, "STATUS_SGX_ENCLAVE_IDENTITY_OUT_OF_DATE"),
   (STATUS_SGX_ENCLAVE_REPORT_MISCSELECT_MISMATCH, "STATUS_SGX_ENCLAVE_REPORT_MISCSELECT_MISMATCH"),
   (STATUS_SGX_ENCLAVE_REPORT_ATTRIBUTES_MISMATCH, "STATUS_SGX_ENCLAVE_REPORT_ATTRIBUTES_MISMATCH"),
   (STATUS_SGX_ENCLAVE_REPORT_MRENCLAVE_MISMATCH, "STATUS_SGX_ENCLAVE_REPORT_MRENCLAVE_MISMATCH"),
   (STATUS_SGX_ENCLAVE_REPORT_MRSIGNER_MISMATCH, "STATUS_SGX_ENCLAVE_REPORT_MRSIGNER_MISMATCH"),
   (STATUS_SGX_ENCLAVE_REPORT_ISVPRODID_MISMATCH, "STATUS_SGX_ENCLAVE_REPORT_ISVPRODID_MISMATCH"),
   (STATUS_SGX_ENCLAVE_REPORT_ISVSVN_OUT_OF_DATE, "STATUS_SGX_ENCLAVE_REPORT_ISVSVN_OUT_OF_DATE"),
   (STATUS_UNSUPPORTED_QE_IDENTITY_FORMAT, "STATUS_UNSUPPORTED_QE_IDENTITY_FORMAT"),
   (STATUS_QE_IDENTITY_OUT_OF_DATE, "STATUS_QE_IDENTITY_OUT_OF_DATE"),
   (STATUS_QE_IDENTITY_MISMATCH, "STATUS_QE_IDENTITY_MISMATCH"),
   (STATUS_SGX_TCB_INFO_EXPIRED, "STATUS_SGX_TCB_INFO_EXPIRED"),
   (STATUS_SGX_ENCLAVE_IDENTITY_INVALID_SIGNATURE, "STATUS_SGX_ENCLAVE_IDENTITY_INVALID_SIGNATURE"),
   (STATUS_INVALID_PARAMETER, "STATUS_INVALID_PARAMETER"),
   (STATUS_SGX_PCK_CERT_CHAIN_EXPIRED, "STATUS_SGX_PCK_CERT_CHAIN_EXPIRED"),
   (STATUS_SGX_CRL_EXPIRED, "STATUS_SGX_CRL_EXPIRED"),
   (STATUS_SGX_SIGNING_CERT_CHAIN_EXPIRED, "STATUS_SGX_SIGNING_CERT_CHAIN_EXPIRED"),
   (STATUS_SGX_ENCLAVE_IDENTITY_EXPIRED, "STATUS_SGX_ENCLAVE_IDENTITY_EXPIRED"),
   (STATUS_TCB_SW_HARDENING_NEEDED, "STATUS_TCB_SW_HARDENING_NEEDED"),
   (STATUS_TCB_CONFIGURATION_AND_SW_HARDENING_NEEDED, "STATUS_TCB_CONFIGURATION_AND_SW_HARDENING_NEEDED"),
   (STATUS_SGX_ENCLAVE_REPORT_ISVSVN_REVOKED, "STATUS_SGX_ENCLAVE_REPORT_ISVSVN_REVOKED")]

end StatusPrinter

/-! ## Certificate parsers (`AttestationParsers`)

`ProcessorPckCertificate.cpp` is embedded from the sources. `Certificate`,
`PckCertificate` and the X.509/ASN.1 codec below them are not in the sources; what
`ProcessorPckCertificate` calls of its base class is a record of functions, and the
definitions in the namespace `PckCertificate` are written from the specification. -/

/-- Exceptions thrown by the parsers: `InvalidExtensionException`, the one the sources
name, and `FormatException` for every other. -/
inductive ParserException where
  | InvalidExtensionException (what : String)
  | FormatException (what : String)
deriving DecidableEq, Repr

/-- An entry of an OpenSSL `stack_st_ASN1_TYPE`: its ASN.1 tag and its content. -/
structure ASN1_TYPE where
  tag : Int
  value : Bytes
deriving DecidableEq, Repr

/-- A `stack_st_ASN1_TYPE*`: the entries of the stack, `none` for a null pointer. -/
abbrev stack_st_ASN1_TYPE := Option (List ASN1_TYPE)

/-- OpenSSL `sk_ASN1_TYPE_num`: the number of entries, `-1` for a null pointer. -/
def sk_ASN1_TYPE_num : stack_st_ASN1_TYPE → Int
  | none => -1
  | some entries => entries.length

namespace oids

/-- Modelled from the spec: the Intel SGX extension OID; the header that declares it is
not in the sources. -/
def SGX_EXTENSION : String := "1.2.840.113741.1.13.1"

end oids

/-- Modelled from the spec: the number of entries of the SGX extension of a Processor
certificate (PPID, TCB, PCEID, FMSPC, SGX-Type); the header that declares it is not in
the sources. -/
def PROCESSOR_CA_EXTENSION_COUNT : Int := 5

/-- Modelled from the spec: the number of entries of the SGX extension of a Platform
certificate, which adds PlatformInstanceId and Configuration. -/
def PLATFORM_CA_EXTENSION_COUNT : Int := 7

/-- Members of the base class `PckCertificate` that `ProcessorPckCertificate` calls: its
two constructors, `getSgxExtensions` and `PckCertificate::setMembers`. Their bodies are
not in the sources, so they are arbitrary functions here. -/
structure PckCertificateBase where
  ofPem : String → Except ParserException PckCertificate
  ofCertificate : Certificate → Except ParserException PckCertificate
  getSgxExtensions : PckCertificate → Except ParserException stack_st_ASN1_TYPE
  setMembers : PckCertificate → stack_st_ASN1_TYPE → Except ParserException PckCertificate

/-- A `ProcessorPckCertificate`: a `PckCertificate` with no member of its own. -/
structure ProcessorPckCertificate extends PckCertificate
deriving DecidableEq, Repr

namespace ProcessorPckCertificate

/-- Embedding of `ProcessorPckCertificate::setMembers` (ProcessorPckCertificate.cpp,
lines 60-71); the object is the first argument and the object after the call is the
result. -/
def setMembers (base : PckCertificateBase) (self : PckCertificate)
    (sgxExtensions : stack_st_ASN1_TYPE) : Except ParserException PckCertificate :=
  match base.setMembers self sgxExtensions with
  | .error e => .error e
  | .ok self =>
    let stackEntries := sk_ASN1_TYPE_num sgxExtensions
    if stackEntries ≠ PROCESSOR_CA_EXTENSION_COUNT then
      let err := "OID [" ++ oids.SGX_EXTENSION ++ "] expected to contain [" ++
        Int.repr PROCESSOR_CA_EXTENSION_COUNT ++ "] elements when given [" ++
        Int.repr stackEntries ++ "]"
      .error (ParserException.InvalidExtensionException err)
    else
      .ok self

/-- Embedding of the constructor `ProcessorPckCertificate(const Certificate&)`
(ProcessorPckCertificate.cpp, lines 40-44). -/
def ofCertificate (base : PckCertificateBase) (certificate : Certificate) :
    Except ParserException ProcessorPckCertificate :=
  match base.ofCertificate certificate with
  | .error e => .error e
  | .ok self =>
    match base.getSgxExtensions self with
    | .error e => .error e
    | .ok sgxExtensions =>
      match setMembers base self sgxExtensions with
      | .error e => .error e
      | .ok self => .ok ⟨self⟩

/-- Embedding of the private constructor `ProcessorPckCertificate(const std::string&)`
(ProcessorPckCertificate.cpp, lines 53-57). -/
def ofPem (base : PckCertificateBase) (pem : String) :
    Except ParserException ProcessorPckCertificate :=
  match base.ofPem pem with
  | .error e => .error e
  | .ok self =>
    match base.getSgxExtensions self with
    | .error e => .error e
    | .ok sgxExtensions =>
      match setMembers base self sgxExtensions with
      | .error e => .error e
      | .ok self => .ok ⟨self⟩

/-- Embedding of `ProcessorPckCertificate::parse` (ProcessorPckCertificate.cpp, lines
46-49). -/
def parse (base : PckCertificateBase) (pem : String) :
    Except ParserException ProcessorPckCertificate :=
  ofPem base pem

end ProcessorPckCertificate

/-- Modelled from the spec: the X.509/ASN.1 codec, an external collaborator that
produces an in-memory certificate value from a PEM string (`Certificate::parse`) and the
entries of the sequence carried by an extension value. -/
structure X509Codec where
  parseCertificate : String → Except ParserException Certificate
  decodeSequence : Bytes → Option (List ASN1_TYPE)

/-- ASN.1 tag of an octet string. -/
def V_ASN1_OCTET_STRING : Int := 4

/-- ASN.1 tag of an enumerated value. -/
def V_ASN1_ENUMERATED : Int := 10

/-- ASN.1 tag of a sequence. -/
def V_ASN1_SEQUENCE : Int := 16

namespace Certificate

/-- Modelled from the spec: `Certificate::operator==` is not in the sources; two
certificates compare equal when their observable fields (version, serial number,
subject, issuer, validity, extensions, signature, public key) are equal. -/
def equals (a b : Certificate) : Bool :=
  decide (a.getVersion = b.getVersion) && decide (a.getSerialNumber = b.getSerialNumber) &&
  decide (a.getSubject = b.getSubject) && decide (a.getIssuer = b.getIssuer) &&
  decide (a.getValidity = b.getValidity) && decide (a.getExtensions = b.getExtensions) &&
  decide (a.getSignature = b.getSignature) && decide (a.getPubKey = b.getPubKey)

end Certificate

namespace PckCertificate

/-- Modelled from the spec: the extension of the certificate filed under the Intel SGX
extension OID, if there is one. -/
def findSgxExtension (certificate : Certificate) : Option Extension :=
  certificate.getExtensions.find? (fun extension => extension.getName == oids.SGX_EXTENSION)

/-- Modelled from the spec: `PckCertificate::getSgxExtensions` is not in the sources; the
entries of the SGX extension, `InvalidExtensionException` when the SGX extension OID is
absent or its value is not a sequence. -/
def getSgxExtensions (codec : X509Codec) (certificate : Certificate) :
    Except ParserException stack_st_ASN1_TYPE :=
  match findSgxExtension certificate with
  | none =>
    .error (ParserException.InvalidExtensionException
      ("Certificate is missing required extension OID [" ++ oids.SGX_EXTENSION ++ "]"))
  | some extension =>
    match codec.decodeSequence extension.getValue with
    | none =>
      .error (ParserException.InvalidExtensionException
        ("OID [" ++ oids.SGX_EXTENSION ++ "] is malformed"))
    | some entries => .ok (some entries)

/-- Modelled from the spec: the content of an octet string entry of the given size. -/
def octets (entry : ASN1_TYPE) (size : Nat) : Option Bytes :=
  if entry.tag = V_ASN1_OCTET_STRING ∧ entry.value.length = size then some entry.value
  else none

/-- Modelled from the spec: the TCB entry, a sequence that carries the 16 bytes of CPUSVN
followed by the 2 bytes of PCESVN. -/
def tcbOf (entry : ASN1_TYPE) : Option Tcb :=
  if entry.tag = V_ASN1_SEQUENCE ∧ entry.value.length = 18 then
    some ⟨entry.value.take 16, entry.value.getD 16 0 * 256 + entry.value.getD 17 0⟩
  else none

/-- Modelled from the spec: the SGX type entry, an enumerated value. -/
def sgxTypeOf (entry : ASN1_TYPE) : Option SgxType :=
  if entry.tag = V_ASN1_ENUMERATED then
    match entry.value with
    | [0] => some SgxType.Standard
    | [1] => some SgxType.Scalable
    | _ => none
  else none

/-- Modelled from the spec: the entries start with a well-typed PPID, TCB, PCEID, FMSPC
and SGX-Type, in this order. -/
def wellTypedEntries (entries : List ASN1_TYPE) : Prop :=
  ∃ ppid tcb pceId fmspc sgxType rest,
    entries = ppid :: tcb :: pceId :: fmspc :: sgxType :: rest ∧
    (octets ppid 16).isSome = true ∧ (tcbOf tcb).isSome = true ∧
    (octets pceId 2).isSome = true ∧ (octets fmspc 6).isSome = true ∧
    (sgxTypeOf sgxType).isSome = true

/-- Modelled from the spec: `PckCertificate::setMembers` is not in the sources. The SGX
extension carries, in order, PPID (16 bytes), TCB, PCEID (2 bytes), FMSPC (6 bytes) and
SGX-Type; its number of entries is the Processor or the Platform count; any deviation
fails with `InvalidExtensionException`. -/
def setMembers (certificate : Certificate) (sgxExtensions : stack_st_ASN1_TYPE) :
    Except ParserException PckCertificate :=
  let stackEntries := sk_ASN1_TYPE_num sgxExtensions
  if stackEntries ≠ PROCESSOR_CA_EXTENSION_COUNT ∧
      stackEntries ≠ PLATFORM_CA_EXTENSION_COUNT then
    .error (ParserException.InvalidExtensionException
      ("OID [" ++ oids.SGX_EXTENSION ++ "] has an unexpected number of elements"))
  else
    match sgxExtensions with
    | some (ppid :: tcb :: pceId :: fmspc :: sgxType :: _) =>
      match octets ppid 16, tcbOf tcb, octets pceId 2, octets fmspc 6, sgxTypeOf sgxType with
      | some ppid, some tcb, some pceId, some fmspc, some sgxType =>
        .ok { toCertificate := certificate, getPpid := ppid, getPceId := pceId,
              getFmspc := fmspc, getTcb := tcb, getSgxType := sgxType }
      | _, _, _, _, _ =>
        .error (ParserException.InvalidExtensionException
          ("OID [" ++ oids.SGX_EXTENSION ++ "] has a malformed element"))
    | _ =>
      .error (ParserException.InvalidExtensionException
        ("OID [" ++ oids.SGX_EXTENSION ++ "] has an unexpected number of elements"))

/-- Modelled from the spec: the constructor `PckCertificate(const Certificate&)` is not
in the sources; it copies the fields of the certificate and parses its extensions
again. -/
def ofCertificate (codec : X509Codec) (certificate : Certificate) :
    Except ParserException PckCertificate :=
  match getSgxExtensions codec certificate with
  | .error e => .error e
  | .ok sgxExtensions => setMembers certificate sgxExtensions

/-- Modelled from the spec: the constructor `PckCertificate(const std::string&)` is not
in the sources; it parses the PEM as a certificate and then the extensions of that
certificate. -/
def ofPem (codec : X509Codec) (pem : String) : Except ParserException PckCertificate :=
  match codec.parseCertificate pem with
  | .error e => .error e
  | .ok certificate =>
    match getSgxExtensions codec certificate with
    | .error e => .error e
    | .ok sgxExtensions => setMembers certificate sgxExtensions

/-- Modelled from the spec: `PckCertificate::parse` is not in the sources; it is the
smart constructor that returns the certificate or the error. -/
def parse (codec : X509Codec) (pem : String) : Except ParserException PckCertificate :=
  ofPem codec pem

/-- Modelled from the spec: `PckCertificate::operator==` is not in the sources; two PCK
certificates compare equal when they are equal as certificates and their SGX values
are equal. -/
def equals (a b : PckCertificate) : Bool :=
  Certificate.equals a.toCertificate b.toCertificate &&
  decide (a.getPpid = b.getPpid) && decide (a.getPceId = b.getPceId) &&
  decide (a.getFmspc = b.getFmspc) && decide (a.getTcb = b.getTcb) &&
  decide (a.getSgxType = b.getSgxType)

/-- The base class members over a codec, as `ProcessorPckCertificate` calls them. -/
def base (codec : X509Codec) : PckCertificateBase where
  ofPem := ofPem codec
  ofCertificate := ofCertificate codec
  getSgxExtensions := fun self => getSgxExtensions codec self.toCertificate
  setMembers := fun self sgxExtensions => setMembers self.toCertificate sgxExtensions

end PckCertificate

/-! ## Rules of the PCK chain verification, as the specification lists them

The nine rules of section 4.4, each as the status it contributes: `STATUS_OK` when the
rule holds, the status named by the rule otherwise. They are written from the text of
the specification and are compared with `PckCertVerifier.verify` below. -/

namespace PckChainRules

/-- Status of the first rule that is violated, `STATUS_OK` when none is. -/
def firstViolated : List Status → Status
  | [] => STATUS_OK
  | s :: later => if s = STATUS_OK then firstViolated later else s

/-- A slot is present and correctly CN-classified, else `missing`. -/
def slotStatus (slot : Option Certificate) (phrase : String) (missing : Status) : Status :=
  match slot with
  | none => missing
  | some cert =>
    if BaseVerifier.commonNameContains cert.getSubject phrase = true then STATUS_OK else missing

/-- Rule 1: each slot present and correctly CN-classified. -/
def rule1 (chain : CertificateChain) : Status :=
  firstViolated
    [slotStatus chain.getRootCert constants.SGX_ROOT_CA_CN_PHRASE STATUS_SGX_ROOT_CA_MISSING,
     slotStatus chain.getIntermediateCert constants.SGX_INTERMEDIATE_CN_PHRASE
       STATUS_SGX_INTERMEDIATE_CA_MISSING,
     slotStatus (chain.getPckCert.map PckCertificate.toCertificate) constants.SGX_PCK_CN_PHRASE
       STATUS_SGX_PCK_MISSING]

/-- Rule 2: `verifyRootCACert` on the chain's root. -/
def rule2 (v : PckCertVerifier) (root : Certificate) : Status :=
  v._commonVerifier.verifyRootCACert root

/-- Rule 3: `verifyIntermediate` on the chain's intermediate against the chain's root. -/
def rule3 (v : PckCertVerifier) (root intermediate : Certificate) : Status :=
  v._commonVerifier.verifyIntermediate intermediate root

/-- Rule 4: the PCK certificate's issuer equals the intermediate's subject and its
signature verifies under the intermediate. -/
def rule4 (v : PckCertVerifier) (intermediate : Certificate) (pck : PckCertificate) : Status :=
  if pck.getIssuer = intermediate.getSubject ∧
      v._commonVerifier.checkSignature pck.toCertificate intermediate = true then
    STATUS_OK
  else STATUS_SGX_PCK_INVALID_ISSUER

/-- Rule 5: the trusted root is self-signed. -/
def rule5 (trustedRoot : Certificate) : Status :=
  if trustedRoot.getSubject = trustedRoot.getIssuer then STATUS_OK
  else STATUS_TRUSTED_ROOT_CA_INVALID

/-- Rule 6: the trusted root's raw DER signature equals the chain root's. -/
def rule6 (root trustedRoot : Certificate) : Status :=
  if trustedRoot.getSignature.getRawDer = root.getSignature.getRawDer then STATUS_OK
  else STATUS_SGX_PCK_CERT_CHAIN_UNTRUSTED

/-- Rule 7: CRL-issuer correctness for both CRLs. -/
def rule7 (v : PckCertVerifier) (rootCaCrl intermediateCrl : CrlStore)
    (root intermediate : Certificate) : Status :=
  firstViolated
    [v._crlVerifier.verify rootCaCrl root, v._crlVerifier.verify intermediateCrl intermediate]

/-- Rule 8: the intermediate is not in the root CRL and the PCK certificate is not in
the intermediate CRL. -/
def rule8 (rootCaCrl intermediateCrl : CrlStore) (intermediate : Certificate)
    (pck : PckCertificate) : Status :=
  firstViolated
    [if rootCaCrl.isRevoked intermediate = true then STATUS_SGX_INTERMEDIATE_CA_REVOKED
      else STATUS_OK,
     if intermediateCrl.isRevoked pck.toCertificate = true then STATUS_SGX_PCK_REVOKED
      else STATUS_OK]

/-- Rule 9: no certificate and no CRL is expired at `expirationDate`. -/
def rule9 (rootCaCrl intermediateCrl : CrlStore) (root intermediate : Certificate)
    (pck : PckCertificate) (expirationDate : time_t) : Status :=
  firstViolated
    [if root.getValidity.getNotAfterTime ≥ expirationDate ∧
        intermediate.getValidity.getNotAfterTime ≥ expirationDate ∧
        pck.getValidity.getNotAfterTime ≥ expirationDate then STATUS_OK
      else STATUS_SGX_PCK_CERT_CHAIN_EXPIRED,
     if rootCaCrl.expired expirationDate = false ∧
        intermediateCrl.expired expirationDate = false then STATUS_OK
      else STATUS_SGX_CRL_EXPIRED]

/-- Statuses of the rules in their order. Rules 2 to 9 speak about the three
certificates of the chain and are listed when the three slots are present. -/
def ruleStatuses (v : PckCertVerifier) (chain : CertificateChain)
    (rootCaCrl intermediateCrl : CrlStore) (trustedRoot : Certificate)
    (expirationDate : time_t) : List Status :=
  rule1 chain ::
    (match chain.getRootCert, chain.getIntermediateCert, chain.getPckCert with
     | some root, some intermediate, some pck =>
       [rule2 v root, rule3 v root intermediate, rule4 v intermediate pck, rule5 trustedRoot,
        rule6 root trustedRoot, rule7 v rootCaCrl intermediateCrl root intermediate,
        rule8 rootCaCrl intermediateCrl intermediate pck,
        rule9 rootCaCrl intermediateCrl root intermediate pck expirationDate]
     | _, _, _ => [])

/-- Rule 1 holds, with `root`, `intermediate` and `pck` the certificates in the slots. -/
abbrev slotsClassified (chain : CertificateChain) (root intermediate : Certificate)
    (pck : PckCertificate) : Prop :=
  chain.getRootCert = some root ∧
  chain.getIntermediateCert = some intermediate ∧
  chain.getPckCert = some pck ∧
  BaseVerifier.commonNameContains root.getSubject constants.SGX_ROOT_CA_CN_PHRASE = true ∧
  BaseVerifier.commonNameContains intermediate.getSubject
    constants.SGX_INTERMEDIATE_CN_PHRASE = true ∧
  BaseVerifier.commonNameContains pck.getSubject constants.SGX_PCK_CN_PHRASE = true

/-- Rules 1 to 5 hold: the slots are classified, the root, the intermediate and the PCK
certificate are verified, and the trusted root's subject equals its issuer. -/
abbrev rules1to5 (v : PckCertVerifier) (chain : CertificateChain) (trustedRoot : Certificate)
    (root intermediate : Certificate) (pck : PckCertificate) : Prop :=
  slotsClassified chain root intermediate pck ∧
  v._commonVerifier.verifyRootCACert root = STATUS_OK ∧
  v._commonVerifier.verifyIntermediate intermediate root = STATUS_OK ∧
  v.verifyPCKCert pck intermediate = STATUS_OK ∧
  trustedRoot.getSubject = trustedRoot.getIssuer

/-- Rules 1 to 6 hold: rules 1 to 5, and the chain root carries the raw DER signature
of the trusted root. -/
abbrev rules1to6 (v : PckCertVerifier) (chain : CertificateChain) (trustedRoot : Certificate)
    (root intermediate : Certificate) (pck : PckCertificate) : Prop :=
  rules1to5 v chain trustedRoot root intermediate pck ∧
  root.getSignature.getRawDer = trustedRoot.getSignature.getRawDer

/-- Rules 1 to 7 hold: rules 1 to 6, and the CRL verifier accepts both CRLs. -/
abbrev rules1to7 (v : PckCertVerifier) (chain : CertificateChain)
    (rootCaCrl intermediateCrl : CrlStore) (trustedRoot : Certificate)
    (root intermediate : Certificate) (pck : PckCertificate) : Prop :=
  rules1to6 v chain trustedRoot root intermediate pck ∧
  v._crlVerifier.verify rootCaCrl root = STATUS_OK ∧
  v._crlVerifier.verify intermediateCrl intermediate = STATUS_OK

/-- Rules 1 to 8 hold: rules 1 to 7, and neither the intermediate nor the PCK
certificate is revoked. -/
abbrev rules1to8 (v : PckCertVerifier) (chain : CertificateChain)
    (rootCaCrl intermediateCrl : CrlStore) (trustedRoot : Certificate)
    (root intermediate : Certificate) (pck : PckCertificate) : Prop :=
  rules1to7 v chain rootCaCrl intermediateCrl trustedRoot root intermediate pck ∧
  rootCaCrl.isRevoked intermediate = false ∧
  intermediateCrl.isRevoked pck.toCertificate = false

/-- A slot is reported missing: it is absent, or the subject CN of its certificate does
not contain the phrase of the slot. -/
abbrev slotMissing (slot : Option Certificate) (phrase : String) : Prop :=
  slot = none ∨
    ∃ cert, slot = some cert ∧ BaseVerifier.commonNameContains cert.getSubject phrase = false

/-- A slot is present and the subject CN of its certificate contains the phrase of the
slot. -/
abbrev slotPresent (slot : Option Certificate) (phrase : String) : Prop :=
  ∃ cert, slot = some cert ∧ BaseVerifier.commonNameContains cert.getSubject phrase = true

/-- The statuses between which a change of `expirationDate` can move a verdict:
`STATUS_OK` and the expiration statuses. -/
abbrev isExpirationVerdict (status : Status) : Prop :=
  status = STATUS_OK ∨ status = STATUS_SGX_PCK_CERT_CHAIN_EXPIRED ∨
  status = STATUS_SGX_SIGNING_CERT_CHAIN_EXPIRED ∨ status = STATUS_SGX_CRL_EXPIRED ∨
  status = STATUS_SGX_ENCLAVE_IDENTITY_EXPIRED

end PckChainRules

/-! ## Sample collateral

Concrete certificates, revocation lists and collaborators on which the theorems are
instantiated. -/

namespace sample

/-- Modelled from the spec: a revocation list given by its issuer, its validity window
and its revoked serial numbers; it is expired at an instant later than its `notAfter`
and revokes the certificates whose serial number it lists. -/
def crlStore (issuer : DistinguishedName) (validity : CrlValidity) (revoked : List Bytes) :
    CrlStore where
  getIssuer := issuer
  getValidity := validity
  expired := fun instant => decide (validity.notAfterTime < instant)
  isRevoked := fun cert => revoked.contains cert.getSerialNumber

def rootName : DistinguishedName :=
  ⟨"Intel SGX Root CA", "US", "Intel Corporation", "Santa Clara", "CA"⟩

def platformCaName : DistinguishedName :=
  ⟨"Intel SGX PCK Platform CA", "US", "Intel Corporation", "Santa Clara", "CA"⟩

def pckName : DistinguishedName :=
  ⟨"Intel SGX PCK Certificate", "US", "Intel Corporation", "Santa Clara", "CA"⟩

def tcbSigningName : DistinguishedName :=
  ⟨"Intel SGX TCB Signing", "US", "Intel Corporation", "Santa Clara", "CA"⟩

/-- A self-signed root valid from 1000 to 4600. -/
def rootCert : Certificate where
  getVersion := 3
  getSerialNumber := [1]
  getSubject := rootName
  getIssuer := rootName
  getValidity := ⟨1000, 4600⟩
  getExtensions := []
  getSignature := ⟨[48, 6, 2, 1, 7, 2, 1, 9], [7], [9]⟩
  getPubKey := [4, 11, 12]

/-- An intermediate issued by `rootCert`. -/
def intermediateCert : Certificate where
  getVersion := 3
  getSerialNumber := [2]
  getSubject := platformCaName
  getIssuer := rootName
  getValidity := ⟨1000, 4600⟩
  getExtensions := []
  getSignature := ⟨[48, 6, 2, 1, 5, 2, 1, 3], [5], [3]⟩
  getPubKey := [4, 21, 22]

/-- A PCK certificate issued by `intermediateCert`. -/
def pckCert : PckCertificate where
  getVersion := 3
  getSerialNumber := [3]
  getSubject := pckName
  getIssuer := platformCaName
  getValidity := ⟨1000, 4600⟩
  getExtensions := []
  getSignature := ⟨[48, 6, 2, 1, 4, 2, 1, 8], [4], [8]⟩
  getPubKey := [4, 31, 32]
  getPpid := List.replicate 16 170
  getPceId := [4, 243]
  getFmspc := [5, 244, 68, 69, 170, 0]
  getTcb := ⟨List.replicate 16 9, 1010⟩
  getSgxType := SgxType.Standard

/-- A TCB signing certificate issued by `rootCert`. -/
def tcbSigningCert : Certificate where
  getVersion := 3
  getSerialNumber := [4]
  getSubject := tcbSigningName
  getIssuer := rootName
  getValidity := ⟨1000, 4600⟩
  getExtensions := []
  getSignature := ⟨[48, 6, 2, 1, 6, 2, 1, 2], [6], [2]⟩
  getPubKey := [4, 41, 42]

/-- The PCK chain root, intermediate, PCK. -/
def pckChain : CertificateChain :=
  ⟨some rootCert, some intermediateCert, some pckCert, some pckCert.toCertificate⟩

/-- The TCB signing chain root, TCB signing. -/
def tcbChain : CertificateChain := ⟨some rootCert, none, none, some tcbSigningCert⟩

/-- A root CRL valid until 4600 that revokes nothing. -/
def rootCaCrl : CrlStore := crlStore rootName ⟨1000, 4600⟩ []

/-- An intermediate CRL valid until 4600 that revokes nothing. -/
def intermediateCrl : CrlStore := crlStore platformCaName ⟨1000, 4600⟩ []

/-- A stand-in for the common verifier: names are compared, a certificate signature is
accepted, and a detached signature is accepted when it is the key followed by the
body. -/
def commonVerifier : CommonVerifier where
  verifyRootCACert := fun cert =>
    if cert.getSubject = cert.getIssuer then STATUS_OK else STATUS_SGX_ROOT_CA_INVALID
  verifyIntermediate := fun cert root =>
    if cert.getIssuer = root.getSubject then STATUS_OK
    else STATUS_SGX_INTERMEDIATE_CA_INVALID_ISSUER
  checkSignature := fun _ _ => true
  checkSha256EcdsaSignature := fun signature body pubKey => decide (signature = pubKey ++ body)

/-- A stand-in for the CRL verifier: the CRL's issuer is the certificate's subject. -/
def crlVerifier : PckCrlVerifier where
  verify := fun crl issuer =>
    if crl.getIssuer = issuer.getSubject then STATUS_OK else STATUS_SGX_CRL_UNKNOWN_ISSUER

/-- A stand-in for the TCB signing chain verifier: both certificates are present and the
chain root carries the trusted root's signature. -/
def tcbSigningChain : TCBSigningChain where
  verify := fun chain _ trustedRoot =>
    match chain.getRootCert, chain.getTopmostCert with
    | some root, some _ =>
      if root.getSignature.getRawDer = trustedRoot.getSignature.getRawDer then STATUS_OK
      else STATUS_SGX_TCB_SIGNING_CERT_CHAIN_UNTRUSTED
    | _, _ => STATUS_SGX_TCB_SIGNING_CERT_MISSING

def pckCertVerifier : PckCertVerifier := ⟨commonVerifier, crlVerifier⟩

def enclaveIdentityVerifier : EnclaveIdentityVerifier := ⟨commonVerifier, tcbSigningChain⟩

/-- An enclave identity signed for `tcbSigningCert`, to be updated by 4000. -/
def enclaveIdentity : EnclaveIdentityV2 where
  getSignature := [4, 41, 42, 123, 125]
  getBody := [123, 125]
  getIssueDate := 1000
  getNextUpdate := 4000
  getVersion := 2

/-- A root whose issuer is not its subject, which `commonVerifier` rejects. -/
def invalidRootCert : Certificate := { rootCert with getIssuer := platformCaName }

/-- A chain with an invalid root and no PCK certificate. -/
def chainInvalidRootNoPck : CertificateChain :=
  ⟨some invalidRootCert, some intermediateCert, none, none⟩

/-- A self-signed root named as `rootCert` that carries another signature. -/
def otherRootCert : Certificate :=
  { rootCert with getSignature := ⟨[48, 6, 2, 1, 7, 2, 1, 10], [7], [10]⟩ }

/-- A root CRL that revokes the intermediate. -/
def rootCaCrlRevoking : CrlStore := crlStore rootName ⟨1000, 4600⟩ [[2]]

/-- An intermediate CRL that revokes the PCK certificate. -/
def intermediateCrlRevoking : CrlStore := crlStore platformCaName ⟨1000, 4600⟩ [[3]]

/-- A root CRL valid until 3000 only. -/
def rootCaCrlShort : CrlStore := crlStore rootName ⟨1000, 3000⟩ []

/-- An intermediate CRL valid until 3000 only. -/
def intermediateCrlShort : CrlStore := crlStore platformCaName ⟨1000, 3000⟩ []

/-- An enclave identity with the body of `enclaveIdentity` and a signature that
`commonVerifier` rejects. -/
def forgedEnclaveIdentity : EnclaveIdentityV2 :=
  { enclaveIdentity with getSignature := [4, 41, 42, 123, 124] }

/-- A TCB signing certificate valid until 3000 only. -/
def shortTcbSigningCert : Certificate := { tcbSigningCert with getValidity := ⟨1000, 3000⟩ }

/-- The TCB signing chain with the short-lived signing certificate. -/
def shortTcbChain : CertificateChain := ⟨some rootCert, none, none, some shortTcbSigningCert⟩

/-- The sample enclave identity with another issue date and version, and the same
signature, body and next update. -/
def reissuedEnclaveIdentity : EnclaveIdentityV2 :=
  { enclaveIdentity with getIssueDate := 1500, getVersion := 3 }

/-- An intermediate CRL issued under the root's name, which `crlVerifier` rejects for
the intermediate. -/
def intermediateCrlWrongIssuer : CrlStore := crlStore rootName ⟨1000, 4600⟩ []

/-- A PCK certificate issued under the root's name. -/
def pckCertFromRoot : PckCertificate := { pckCert with getIssuer := rootName }

/-- A chain whose intermediate slot holds the root certificate. -/
def chainRootAsIntermediate : CertificateChain :=
  ⟨some rootCert, some rootCert, some pckCertFromRoot, some pckCertFromRoot.toCertificate⟩

/-- The entries of the SGX extension of a Processor certificate. -/
def processorEntries : List ASN1_TYPE :=
  [⟨4, List.replicate 16 170⟩, ⟨16, List.replicate 16 9 ++ [3, 242]⟩, ⟨4, [4, 243]⟩,
   ⟨4, [5, 244, 68, 69, 170, 0]⟩, ⟨10, [0]⟩]

/-- The entries of the SGX extension of a Platform certificate. -/
def platformEntries : List ASN1_TYPE :=
  processorEntries ++ [⟨4, List.replicate 16 1⟩, ⟨16, [1, 1, 0]⟩]

/-- The PCK certificate as the codec yields it, with a Processor SGX extension. -/
def pckX509 : Certificate :=
  { pckCert.toCertificate with getExtensions := [⟨0, oids.SGX_EXTENSION, [1]⟩] }

/-- The PCK certificate with a Platform SGX extension. -/
def platformPckX509 : Certificate :=
  { pckCert.toCertificate with getExtensions := [⟨0, oids.SGX_EXTENSION, [2]⟩] }

/-- A certificate that carries an SGX extension of three entries only. -/
def truncatedPckX509 : Certificate :=
  { pckCert.toCertificate with getExtensions := [⟨0, oids.SGX_EXTENSION, [3]⟩] }

/-- The PCK certificate of `pckX509` with the next version. -/
def pckX509NextVersion : Certificate := { pckX509 with getVersion := 4 }

/-- A stand-in for the codec: it knows six PEM strings and three extension values. -/
def codec : X509Codec where
  parseCertificate := fun pem =>
    if pem = "ROOT" then .ok rootCert
    else if pem = "INTERMEDIATE" then .ok intermediateCert
    else if pem = "PCK" then .ok pckX509
    else if pem = "PLATFORM PCK" then .ok platformPckX509
    else if pem = "TRUNCATED PCK" then .ok truncatedPckX509
    else if pem = "PCK NEXT VERSION" then .ok pckX509NextVersion
    else .error (ParserException.FormatException "PEM_read_bio_X509 failed")
  decodeSequence := fun value =>
    if value = [1] then some processorEntries
    else if value = [2] then some platformEntries
    else if value = [3] then some (processorEntries.take 3)
    else none

/-- A trusted root with the subject, issuer and signature of `rootCert` and another
serial number, validity, extension list and public key. -/
def rekeyedRootCert : Certificate :=
  { rootCert with
    getSerialNumber := [9], getValidity := ⟨0, 1⟩,
    getExtensions := [⟨87, "basicConstraints", [48, 0]⟩], getPubKey := [4, 99, 98] }

/-- A chain without any certificate. -/
def emptyChain : CertificateChain := ⟨none, none, none, none⟩

/-- An intermediate CRL valid from 2000 until 3000 only. -/
def intermediateCrlNarrow : CrlStore := crlStore platformCaName ⟨2000, 3000⟩ []

end sample

/-! ## Theorems -/

/-- Acceptance condition of `verifyPCKCert`. -/
theorem verifyPCKCert_accepts (self : PckCertVerifier) (pckCert : PckCertificate)
    (intermediate : Certificate) :
    self.verifyPCKCert pckCert intermediate = STATUS_OK ↔
      (pckCert.getIssuer = intermediate.getSubject ∧
        self._commonVerifier.checkSignature pckCert.toCertificate intermediate = true) := by
  unfold PckCertVerifier.verifyPCKCert
  by_cases h1 : pckCert.getIssuer = intermediate.getSubject
  · cases h2 : self._commonVerifier.checkSignature pckCert.toCertificate intermediate <;>
      simp [h1, h2]
  · simp [h1]

/-- C8: `verifyPCKCert` returns `STATUS_OK` exactly when the PCK certificate's issuer
equals the intermediate's subject and `checkSignature` accepts the pair; in every other
case it returns `STATUS_SGX_PCK_INVALID_ISSUER`, so no third status is ever returned. -/
theorem verifyPCKCert_ok_iff (self : PckCertVerifier) (pckCert : PckCertificate)
    (intermediate : Certificate) :
    (self.verifyPCKCert pckCert intermediate = STATUS_OK ↔
      (pckCert.getIssuer = intermediate.getSubject ∧
        self._commonVerifier.checkSignature pckCert.toCertificate intermediate = true)) ∧
    (¬ (pckCert.getIssuer = intermediate.getSubject ∧
        self._commonVerifier.checkSignature pckCert.toCertificate intermediate = true) →
      self.verifyPCKCert pckCert intermediate = STATUS_SGX_PCK_INVALID_ISSUER) ∧
    (self.verifyPCKCert pckCert intermediate = STATUS_OK ∨
      self.verifyPCKCert pckCert intermediate = STATUS_SGX_PCK_INVALID_ISSUER) := by
  unfold PckCertVerifier.verifyPCKCert
  by_cases h1 : pckCert.getIssuer = intermediate.getSubject
  · cases h2 : self._commonVerifier.checkSignature pckCert.toCertificate intermediate <;>
      simp [h1, h2]
  · simp [h1]

/-- A branch that ends in a status other than `STATUS_OK` was not taken when the whole
conditional evaluates to `STATUS_OK`. -/
theorem ite_const_eq_ok {c : Prop} [Decidable c] {s t : Status} (hs : s ≠ STATUS_OK)
    (h : (if c then s else t) = STATUS_OK) : ¬ c ∧ t = STATUS_OK := by
  by_cases hc : c
  · rw [if_pos hc] at h; exact absurd h hs
  · rw [if_neg hc] at h; exact ⟨hc, h⟩

/-- A collaborator status that is passed on when it is not `STATUS_OK` was `STATUS_OK`
when the whole conditional evaluates to `STATUS_OK`. -/
theorem ite_status_eq_ok {s t : Status}
    (h : (if s ≠ STATUS_OK then s else t) = STATUS_OK) : s = STATUS_OK ∧ t = STATUS_OK := by
  by_cases hc : s ≠ STATUS_OK
  · rw [if_pos hc] at h; exact absurd h hc
  · rw [if_neg hc] at h; exact ⟨not_not.mp hc, h⟩

/-- Unfolding of `PckCertVerifier::verify` on a chain whose three slots are present. -/
theorem verify_of_slots (self : PckCertVerifier) (chain : CertificateChain)
    (rootCaCrl intermediateCrl : CrlStore) (rootCa : Certificate) (expirationDate : time_t)
    (r i : Certificate) (p : PckCertificate)
    (hr : chain.getRootCert = some r) (hi : chain.getIntermediateCert = some i)
    (hp : chain.getPckCert = some p) :
    self.verify chain rootCaCrl intermediateCrl rootCa expirationDate =
      if BaseVerifier.commonNameContains r.getSubject constants.SGX_ROOT_CA_CN_PHRASE = false then
        STATUS_SGX_ROOT_CA_MISSING
      else if BaseVerifier.commonNameContains i.getSubject
          constants.SGX_INTERMEDIATE_CN_PHRASE = false then
        STATUS_SGX_INTERMEDIATE_CA_MISSING
      else if BaseVerifier.commonNameContains p.getSubject constants.SGX_PCK_CN_PHRASE = false then
        STATUS_SGX_PCK_MISSING
      else if self._commonVerifier.verifyRootCACert r ≠ STATUS_OK then
        self._commonVerifier.verifyRootCACert r
      else if self._commonVerifier.verifyIntermediate i r ≠ STATUS_OK then
        self._commonVerifier.verifyIntermediate i r
      else if self.verifyPCKCert p i ≠ STATUS_OK then
        self.verifyPCKCert p i
      else if rootCa.getSubject ≠ rootCa.getIssuer then
        STATUS_TRUSTED_ROOT_CA_INVALID
      else if r.getSignature.getRawDer ≠ rootCa.getSignature.getRawDer then
        STATUS_SGX_PCK_CERT_CHAIN_UNTRUSTED
      else if self._crlVerifier.verify rootCaCrl r ≠ STATUS_OK then
        self._crlVerifier.verify rootCaCrl r
      else if self._crlVerifier.verify intermediateCrl i ≠ STATUS_OK then
        self._crlVerifier.verify intermediateCrl i
      else if rootCaCrl.isRevoked i = true then
        STATUS_SGX_INTERMEDIATE_CA_REVOKED
      else if intermediateCrl.isRevoked p.toCertificate = true then
        STATUS_SGX_PCK_REVOKED
      else if expirationDate > r.getValidity.getNotAfterTime then
        STATUS_SGX_PCK_CERT_CHAIN_EXPIRED
      else if expirationDate > i.getValidity.getNotAfterTime then
        STATUS_SGX_PCK_CERT_CHAIN_EXPIRED
      else if expirationDate > p.getValidity.getNotAfterTime then
        STATUS_SGX_PCK_CERT_CHAIN_EXPIRED
      else if rootCaCrl.expired expirationDate = true then
        STATUS_SGX_CRL_EXPIRED
      else if intermediateCrl.expired expirationDate = true then
        STATUS_SGX_CRL_EXPIRED
      else
        STATUS_OK := by
  unfold PckCertVerifier.verify
  rw [hr]
  simp only [hi, hp, Bool.not_eq_true']

/-- Verdict of `PckCertVerifier::verify` on a chain without a root certificate. -/
theorem verify_root_absent (self : PckCertVerifier) (chain : CertificateChain)
    (rootCaCrl intermediateCrl : CrlStore) (rootCa : Certificate) (expirationDate : time_t)
    (hr : chain.getRootCert = none) :
    self.verify chain rootCaCrl intermediateCrl rootCa expirationDate =
      STATUS_SGX_ROOT_CA_MISSING := by
  unfold PckCertVerifier.verify
  rw [hr]

/-- Verdict of `PckCertVerifier::verify` on a chain without an intermediate certificate. -/
theorem verify_intermediate_absent (self : PckCertVerifier) (chain : CertificateChain)
    (rootCaCrl intermediateCrl : CrlStore) (rootCa : Certificate) (expirationDate : time_t)
    (r : Certificate) (hr : chain.getRootCert = some r)
    (hi : chain.getIntermediateCert = none) :
    self.verify chain rootCaCrl intermediateCrl rootCa expirationDate =
      if BaseVerifier.commonNameContains r.getSubject constants.SGX_ROOT_CA_CN_PHRASE = false then
        STATUS_SGX_ROOT_CA_MISSING
      else STATUS_SGX_INTERMEDIATE_CA_MISSING := by
  unfold PckCertVerifier.verify
  rw [hr]
  simp only [hi, Bool.not_eq_true']

/-- Verdict of `PckCertVerifier::verify` on a chain without a PCK certificate. -/
theorem verify_pck_absent (self : PckCertVerifier) (chain : CertificateChain)
    (rootCaCrl intermediateCrl : CrlStore) (rootCa : Certificate) (expirationDate : time_t)
    (r i : Certificate) (hr : chain.getRootCert = some r)
    (hi : chain.getIntermediateCert = some i) (hp : chain.getPckCert = none) :
    self.verify chain rootCaCrl intermediateCrl rootCa expirationDate =
      if BaseVerifier.commonNameContains r.getSubject constants.SGX_ROOT_CA_CN_PHRASE = false then
        STATUS_SGX_ROOT_CA_MISSING
      else if BaseVerifier.commonNameContains i.getSubject
          constants.SGX_INTERMEDIATE_CN_PHRASE = false then
        STATUS_SGX_INTERMEDIATE_CA_MISSING
      else STATUS_SGX_PCK_MISSING := by
  unfold PckCertVerifier.verify
  rw [hr]
  simp only [hi, hp, Bool.not_eq_true']

/-- Every check of `PckCertVerifier::verify` passed when it returns `STATUS_OK`. -/
theorem verify_ok_conditions (self : PckCertVerifier) (chain : CertificateChain)
    (rootCaCrl intermediateCrl : CrlStore) (rootCa : Certificate) (expirationDate : time_t)
    (h : self.verify chain rootCaCrl intermediateCrl rootCa expirationDate = STATUS_OK) :
      ∃ (root intermediate : Certificate) (pck : PckCertificate),
        chain.getRootCert = some root ∧
        chain.getIntermediateCert = some intermediate ∧
        chain.getPckCert = some pck ∧
        BaseVerifier.commonNameContains root.getSubject constants.SGX_ROOT_CA_CN_PHRASE = true ∧
        BaseVerifier.commonNameContains intermediate.getSubject
          constants.SGX_INTERMEDIATE_CN_PHRASE = true ∧
        BaseVerifier.commonNameContains pck.getSubject constants.SGX_PCK_CN_PHRASE = true ∧
        self._commonVerifier.verifyRootCACert root = STATUS_OK ∧
        self._commonVerifier.verifyIntermediate intermediate root = STATUS_OK ∧
        pck.getIssuer = intermediate.getSubject ∧
        self._commonVerifier.checkSignature pck.toCertificate intermediate = true ∧
        rootCa.getSubject = rootCa.getIssuer ∧
        root.getSignature.getRawDer = rootCa.getSignature.getRawDer ∧
        self._crlVerifier.verify rootCaCrl root = STATUS_OK ∧
        self._crlVerifier.verify intermediateCrl intermediate = STATUS_OK ∧
        rootCaCrl.isRevoked intermediate = false ∧
        intermediateCrl.isRevoked pck.toCertificate = false ∧
        expirationDate ≤ root.getValidity.getNotAfterTime ∧
        expirationDate ≤ intermediate.getValidity.getNotAfterTime ∧
        expirationDate ≤ pck.getValidity.getNotAfterTime ∧
        rootCaCrl.expired expirationDate = false ∧
        intermediateCrl.expired expirationDate = false := by
  cases hr : chain.getRootCert with
  | none =>
    rw [verify_root_absent self chain rootCaCrl intermediateCrl rootCa expirationDate hr] at h
    exact absurd h (by decide)
  | some r =>
  cases hi : chain.getIntermediateCert with
  | none =>
    rw [verify_intermediate_absent self chain rootCaCrl intermediateCrl rootCa expirationDate
      r hr hi] at h
    obtain ⟨_, h⟩ := ite_const_eq_ok (by decide) h
    exact absurd h (by decide)
  | some i =>
  cases hp : chain.getPckCert with
  | none =>
    rw [verify_pck_absent self chain rootCaCrl intermediateCrl rootCa expirationDate r i
      hr hi hp] at h
    obtain ⟨_, h⟩ := ite_const_eq_ok (by decide) h
    obtain ⟨_, h⟩ := ite_const_eq_ok (by decide) h
    exact absurd h (by decide)
  | some p =>
    rw [verify_of_slots self chain rootCaCrl intermediateCrl rootCa expirationDate r i p
      hr hi hp] at h
    obtain ⟨d1, h⟩ := ite_const_eq_ok (by decide) h
    obtain ⟨d2, h⟩ := ite_const_eq_ok (by decide) h
    obtain ⟨d3, h⟩ := ite_const_eq_ok (by decide) h
    obtain ⟨d4, h⟩ := ite_status_eq_ok h
    obtain ⟨d5, h⟩ := ite_status_eq_ok h
    obtain ⟨d6, h⟩ := ite_status_eq_ok h
    obtain ⟨d7, h⟩ := ite_const_eq_ok (by decide) h
    obtain ⟨d8, h⟩ := ite_const_eq_ok (by decide) h
    obtain ⟨d9, h⟩ := ite_status_eq_ok h
    obtain ⟨d10, h⟩ := ite_status_eq_ok h
    obtain ⟨d11, h⟩ := ite_const_eq_ok (by decide) h
    obtain ⟨d12, h⟩ := ite_const_eq_ok (by decide) h
    obtain ⟨d13, h⟩ := ite_const_eq_ok (by decide) h
    obtain ⟨d14, h⟩ := ite_const_eq_ok (by decide) h
    obtain ⟨d15, h⟩ := ite_const_eq_ok (by decide) h
    obtain ⟨d16, h⟩ := ite_const_eq_ok (by decide) h
    obtain ⟨d17, _⟩ := ite_const_eq_ok (by decide) h
    have hpck := (verifyPCKCert_accepts self p i).1 d6
    exact ⟨r, i, p, rfl, rfl, rfl, by simpa using d1, by simpa using d2, by simpa using d3,
      d4, d5, hpck.1, hpck.2, not_not.mp d7, not_not.mp d8, d9, d10, by simpa using d11,
      by simpa using d12, not_lt.mp d13, not_lt.mp d14, not_lt.mp d15, by simpa using d16,
      by simpa using d17⟩

/-- C1: `PckCertVerifier::verify` returns `STATUS_OK` exactly when the three slots are
present and CN-classified, the root and the intermediate verify, the PCK certificate is
issued and signed by the intermediate, the trusted root's subject equals its issuer, the
chain root's raw DER signature equals the trusted root's, both CRLs verify, neither
certificate is revoked, `expirationDate` is at most the `notAfter` of each of the three
certificates, and neither CRL is expired at `expirationDate`; for every input and every
behaviour of the collaborators. -/
theorem pckCertVerifier_verify_ok_iff (self : PckCertVerifier) (chain : CertificateChain)
    (rootCaCrl intermediateCrl : CrlStore) (rootCa : Certificate) (expirationDate : time_t) :
    self.verify chain rootCaCrl intermediateCrl rootCa expirationDate = STATUS_OK ↔
      ∃ (root intermediate : Certificate) (pck : PckCertificate),
        chain.getRootCert = some root ∧
        chain.getIntermediateCert = some intermediate ∧
        chain.getPckCert = some pck ∧
        BaseVerifier.commonNameContains root.getSubject constants.SGX_ROOT_CA_CN_PHRASE = true ∧
        BaseVerifier.commonNameContains intermediate.getSubject
          constants.SGX_INTERMEDIATE_CN_PHRASE = true ∧
        BaseVerifier.commonNameContains pck.getSubject constants.SGX_PCK_CN_PHRASE = true ∧
        self._commonVerifier.verifyRootCACert root = STATUS_OK ∧
        self._commonVerifier.verifyIntermediate intermediate root = STATUS_OK ∧
        pck.getIssuer = intermediate.getSubject ∧
        self._commonVerifier.checkSignature pck.toCertificate intermediate = true ∧
        rootCa.getSubject = rootCa.getIssuer ∧
        root.getSignature.getRawDer = rootCa.getSignature.getRawDer ∧
        self._crlVerifier.verify rootCaCrl root = STATUS_OK ∧
        self._crlVerifier.verify intermediateCrl intermediate = STATUS_OK ∧
        rootCaCrl.isRevoked intermediate = false ∧
        intermediateCrl.isRevoked pck.toCertificate = false ∧
        expirationDate ≤ root.getValidity.getNotAfterTime ∧
        expirationDate ≤ intermediate.getValidity.getNotAfterTime ∧
        expirationDate ≤ pck.getValidity.getNotAfterTime ∧
        rootCaCrl.expired expirationDate = false ∧
        intermediateCrl.expired expirationDate = false := by
  constructor
  · exact verify_ok_conditions self chain rootCaCrl intermediateCrl rootCa expirationDate
  · rintro ⟨r, i, p, hr, hi, hp, c1, c2, c3, c4, c5, c6, c7, c8, c9, c10, c11, c12, c13, c14,
      c15, c16, c17, c18⟩
    rw [verify_of_slots self chain rootCaCrl intermediateCrl rootCa expirationDate r i p
      hr hi hp]
    have hpck : self.verifyPCKCert p i = STATUS_OK :=
      (verifyPCKCert_accepts self p i).2 ⟨c6, c7⟩
    rw [if_neg (by simp [c1]), if_neg (by simp [c2]), if_neg (by simp [c3]),
      if_neg (by simp [c4]), if_neg (by simp [c5]), if_neg (by simp [hpck]),
      if_neg (by simp [c8]), if_neg (by simp [c9]), if_neg (by simp [c10]),
      if_neg (by simp [c11]), if_neg (by simp [c12]), if_neg (by simp [c13]),
      if_neg (not_lt.mpr c14), if_neg (not_lt.mpr c15), if_neg (not_lt.mpr c16),
      if_neg (by simp [c17]), if_neg (by simp [c18])]

/-- Among rule statuses, the first one that differs from `STATUS_OK` is the one
reported, whatever the statuses after it are. -/
theorem firstViolated_append (earlier later : List Status) (a : Status)
    (hpass : ∀ s ∈ earlier, s = STATUS_OK) (ha : a ≠ STATUS_OK) :
    PckChainRules.firstViolated (earlier ++ a :: later) = a := by
  induction earlier with
  | nil => simp [PckChainRules.firstViolated, ha]
  | cons s rest ih =>
    have hs : s = STATUS_OK := hpass s (List.mem_cons_self s rest)
    have hrest : ∀ x ∈ rest, x = STATUS_OK := fun x hx => hpass x (List.mem_cons_of_mem s hx)
    simp [PckChainRules.firstViolated, hs, ih hrest]

/-- C2: the status returned by `PckCertVerifier::verify` is the status of the
lowest-numbered violated rule among the nine rules of section 4.4 taken in order:
it is the first status other than `STATUS_OK` in the list of rule statuses, so whenever
a rule is violated and every rule before it holds, the rule's status is returned
whatever the later rules are; the status of a collaborator is its rule's status, so
it is returned unchanged. -/
theorem pckCertVerifier_verify_lowest_violated_rule (self : PckCertVerifier)
    (chain : CertificateChain) (rootCaCrl intermediateCrl : CrlStore) (rootCa : Certificate)
    (expirationDate : time_t) :
    self.verify chain rootCaCrl intermediateCrl rootCa expirationDate =
      PckChainRules.firstViolated
        (PckChainRules.ruleStatuses self chain rootCaCrl intermediateCrl rootCa
          expirationDate) ∧
    ∀ (earlier later : List Status) (a : Status),
      PckChainRules.ruleStatuses self chain rootCaCrl intermediateCrl rootCa expirationDate =
        earlier ++ a :: later →
      (∀ s ∈ earlier, s = STATUS_OK) → a ≠ STATUS_OK →
      self.verify chain rootCaCrl intermediateCrl rootCa expirationDate = a := by
  suffices hfirst : self.verify chain rootCaCrl intermediateCrl rootCa expirationDate =
      PckChainRules.firstViolated
        (PckChainRules.ruleStatuses self chain rootCaCrl intermediateCrl rootCa
          expirationDate) by
    refine ⟨hfirst, fun earlier later a hsplit hpass ha => ?_⟩
    rw [hfirst, hsplit]
    exact firstViolated_append earlier later a hpass ha
  cases hr : chain.getRootCert with
  | none =>
    rw [verify_root_absent self chain rootCaCrl intermediateCrl rootCa expirationDate hr]
    simp [PckChainRules.ruleStatuses, PckChainRules.rule1, PckChainRules.firstViolated,
      PckChainRules.slotStatus, hr]
  | some r =>
  cases hi : chain.getIntermediateCert with
  | none =>
    rw [verify_intermediate_absent self chain rootCaCrl intermediateCrl rootCa expirationDate
      r hr hi]
    cases d1 : BaseVerifier.commonNameContains r.getSubject constants.SGX_ROOT_CA_CN_PHRASE <;>
      simp [PckChainRules.ruleStatuses, PckChainRules.rule1, PckChainRules.firstViolated,
        PckChainRules.slotStatus, hr, hi, d1]
  | some i =>
  cases hp : chain.getPckCert with
  | none =>
    rw [verify_pck_absent self chain rootCaCrl intermediateCrl rootCa expirationDate r i
      hr hi hp]
    cases d1 : BaseVerifier.commonNameContains r.getSubject constants.SGX_ROOT_CA_CN_PHRASE <;>
    cases d2 : BaseVerifier.commonNameContains i.getSubject
      constants.SGX_INTERMEDIATE_CN_PHRASE <;>
      simp [PckChainRules.ruleStatuses, PckChainRules.rule1, PckChainRules.firstViolated,
        PckChainRules.slotStatus, hr, hi, hp, d1, d2]
  | some p =>
    rw [verify_of_slots self chain rootCaCrl intermediateCrl rootCa expirationDate r i p
      hr hi hp]
    have hrules : PckChainRules.ruleStatuses self chain rootCaCrl intermediateCrl rootCa
        expirationDate =
        [PckChainRules.rule1 chain, PckChainRules.rule2 self r, PckChainRules.rule3 self r i,
          PckChainRules.rule4 self i p, PckChainRules.rule5 rootCa, PckChainRules.rule6 r rootCa,
          PckChainRules.rule7 self rootCaCrl intermediateCrl r i,
          PckChainRules.rule8 rootCaCrl intermediateCrl i p,
          PckChainRules.rule9 rootCaCrl intermediateCrl r i p expirationDate] := by
      simp only [PckChainRules.ruleStatuses, hr, hi, hp]
    rw [hrules]
    by_cases d1 : BaseVerifier.commonNameContains r.getSubject
        constants.SGX_ROOT_CA_CN_PHRASE = false
    · rw [if_pos d1]
      simp [PckChainRules.rule1, PckChainRules.firstViolated, PckChainRules.slotStatus, hr, d1]
    rw [if_neg d1]
    by_cases d2 : BaseVerifier.commonNameContains i.getSubject
        constants.SGX_INTERMEDIATE_CN_PHRASE = false
    · rw [if_pos d2]
      simp [PckChainRules.rule1, PckChainRules.firstViolated, PckChainRules.slotStatus, hr, hi,
        d1, d2]
    rw [if_neg d2]
    by_cases d3 : BaseVerifier.commonNameContains p.getSubject constants.SGX_PCK_CN_PHRASE = false
    · rw [if_pos d3]
      simp [PckChainRules.rule1, PckChainRules.firstViolated, PckChainRules.slotStatus, hr, hi,
        hp, d1, d2, d3]
    rw [if_neg d3]
    have h1 : PckChainRules.rule1 chain = STATUS_OK := by
      simp [PckChainRules.rule1, PckChainRules.firstViolated, PckChainRules.slotStatus, hr, hi,
        hp, d1, d2, d3]
    rw [PckChainRules.firstViolated, if_pos h1]
    by_cases d4 : self._commonVerifier.verifyRootCACert r ≠ STATUS_OK
    · rw [if_pos d4, PckChainRules.firstViolated,
        if_neg (show PckChainRules.rule2 self r ≠ _ from d4)]
      rfl
    rw [if_neg d4, PckChainRules.firstViolated,
      if_pos (show PckChainRules.rule2 self r = _ from not_not.mp d4)]
    by_cases d5 : self._commonVerifier.verifyIntermediate i r ≠ STATUS_OK
    · rw [if_pos d5, PckChainRules.firstViolated,
        if_neg (show PckChainRules.rule3 self r i ≠ _ from d5)]
      rfl
    rw [if_neg d5, PckChainRules.firstViolated,
      if_pos (show PckChainRules.rule3 self r i = _ from not_not.mp d5)]
    have h4 : PckChainRules.rule4 self i p = self.verifyPCKCert p i := by
      unfold PckChainRules.rule4 PckCertVerifier.verifyPCKCert
      by_cases e1 : p.getIssuer = i.getSubject
      · cases e2 : self._commonVerifier.checkSignature p.toCertificate i <;> simp [e1, e2]
      · simp [e1]
    by_cases d6 : self.verifyPCKCert p i ≠ STATUS_OK
    · rw [if_pos d6, PckChainRules.firstViolated, h4, if_neg d6]
    rw [if_neg d6, PckChainRules.firstViolated, h4, if_pos (not_not.mp d6)]
    by_cases d7 : rootCa.getSubject ≠ rootCa.getIssuer
    · rw [if_pos d7]
      simp [PckChainRules.firstViolated, PckChainRules.rule5, d7]
    rw [if_neg d7, PckChainRules.firstViolated,
      if_pos (show PckChainRules.rule5 rootCa = _ by simp [PckChainRules.rule5, not_not.mp d7])]
    by_cases d8 : r.getSignature.getRawDer ≠ rootCa.getSignature.getRawDer
    · rw [if_pos d8]
      simp [PckChainRules.firstViolated, PckChainRules.rule6, Ne.symm d8]
    rw [if_neg d8, PckChainRules.firstViolated,
      if_pos (show PckChainRules.rule6 r rootCa = _ by
        simp [PckChainRules.rule6, not_not.mp d8])]
    by_cases d9 : self._crlVerifier.verify rootCaCrl r ≠ STATUS_OK
    · rw [if_pos d9]
      simp [PckChainRules.firstViolated, PckChainRules.rule7, d9]
    rw [if_neg d9]
    by_cases d10 : self._crlVerifier.verify intermediateCrl i ≠ STATUS_OK
    · rw [if_pos d10]
      simp [PckChainRules.firstViolated, PckChainRules.rule7, not_not.mp d9, d10]
    rw [if_neg d10, PckChainRules.firstViolated,
      if_pos (show PckChainRules.rule7 self rootCaCrl intermediateCrl r i = _ by
        simp [PckChainRules.rule7, PckChainRules.firstViolated, not_not.mp d9, not_not.mp d10])]
    by_cases d11 : rootCaCrl.isRevoked i = true
    · rw [if_pos d11]
      simp [PckChainRules.firstViolated, PckChainRules.rule8, d11]
    rw [if_neg d11]
    by_cases d12 : intermediateCrl.isRevoked p.toCertificate = true
    · rw [if_pos d12]
      simp [PckChainRules.firstViolated, PckChainRules.rule8, d11, d12]
    rw [if_neg d12, PckChainRules.firstViolated,
      if_pos (show PckChainRules.rule8 rootCaCrl intermediateCrl i p = _ by
        simp [PckChainRules.rule8, PckChainRules.firstViolated, d11, d12])]
    by_cases d13 : expirationDate > r.getValidity.getNotAfterTime
    · rw [if_pos d13]
      simp [PckChainRules.firstViolated, PckChainRules.rule9, not_le.mpr d13]
    rw [if_neg d13]
    by_cases d14 : expirationDate > i.getValidity.getNotAfterTime
    · rw [if_pos d14]
      simp [PckChainRules.firstViolated, PckChainRules.rule9, not_le.mpr d14]
    rw [if_neg d14]
    by_cases d15 : expirationDate > p.getValidity.getNotAfterTime
    · rw [if_pos d15]
      simp [PckChainRules.firstViolated, PckChainRules.rule9, not_le.mpr d15]
    rw [if_neg d15]
    by_cases d16 : rootCaCrl.expired expirationDate = true
    · rw [if_pos d16]
      simp [PckChainRules.firstViolated, PckChainRules.rule9, not_lt.mp d13, not_lt.mp d14,
        not_lt.mp d15, d16]
    rw [if_neg d16]
    by_cases d17 : intermediateCrl.expired expirationDate = true
    · rw [if_pos d17]
      simp [PckChainRules.firstViolated, PckChainRules.rule9, not_lt.mp d13, not_lt.mp d14,
        not_lt.mp d15, d16, d17]
    rw [if_neg d17]
    simp [PckChainRules.firstViolated, PckChainRules.rule9, not_lt.mp d13, not_lt.mp d14,
      not_lt.mp d15, d16, d17]

/-- C3: an absent slot and a slot whose certificate's subject CN lacks the slot's phrase
are reported alike, `STATUS_SGX_ROOT_CA_MISSING` for the root slot,
`STATUS_SGX_INTERMEDIATE_CA_MISSING` for the intermediate slot and
`STATUS_SGX_PCK_MISSING` for the PCK slot, the slots being examined in the order root,
intermediate, PCK; the result is the same for every collaborator, CRL, trusted root and
`expirationDate`. -/
theorem pckCertVerifier_verify_slot_missing (self : PckCertVerifier)
    (chain : CertificateChain) (rootCaCrl intermediateCrl : CrlStore) (rootCa : Certificate)
    (expirationDate : time_t) :
    (PckChainRules.slotMissing chain.getRootCert constants.SGX_ROOT_CA_CN_PHRASE →
      self.verify chain rootCaCrl intermediateCrl rootCa expirationDate =
        STATUS_SGX_ROOT_CA_MISSING) ∧
    (PckChainRules.slotPresent chain.getRootCert constants.SGX_ROOT_CA_CN_PHRASE →
      PckChainRules.slotMissing chain.getIntermediateCert
        constants.SGX_INTERMEDIATE_CN_PHRASE →
      self.verify chain rootCaCrl intermediateCrl rootCa expirationDate =
        STATUS_SGX_INTERMEDIATE_CA_MISSING) ∧
    (PckChainRules.slotPresent chain.getRootCert constants.SGX_ROOT_CA_CN_PHRASE →
      PckChainRules.slotPresent chain.getIntermediateCert
        constants.SGX_INTERMEDIATE_CN_PHRASE →
      PckChainRules.slotMissing (chain.getPckCert.map PckCertificate.toCertificate)
        constants.SGX_PCK_CN_PHRASE →
      self.verify chain rootCaCrl intermediateCrl rootCa expirationDate =
        STATUS_SGX_PCK_MISSING) := by
  refine ⟨?_, ?_, ?_⟩
  · rintro (hr | ⟨r, hr, hcn⟩)
    · exact verify_root_absent self chain rootCaCrl intermediateCrl rootCa expirationDate hr
    · unfold PckCertVerifier.verify
      rw [hr]
      simp only [hcn, Bool.not_false, if_true]
  · rintro ⟨r, hr, hcr⟩ (hi | ⟨i, hi, hcn⟩)
    · rw [verify_intermediate_absent self chain rootCaCrl intermediateCrl rootCa
        expirationDate r hr hi, if_neg (by simp [hcr])]
    · unfold PckCertVerifier.verify
      rw [hr]
      simp only [hi, hcr, hcn, Bool.not_true, Bool.not_false, if_true, Bool.false_eq_true,
        if_false]
  · rintro ⟨r, hr, hcr⟩ ⟨i, hi, hci⟩ hpck
    cases hp : chain.getPckCert with
    | none =>
      rw [verify_pck_absent self chain rootCaCrl intermediateCrl rootCa expirationDate r i
        hr hi hp, if_neg (by simp [hcr]), if_neg (by simp [hci])]
    | some p =>
      rw [hp] at hpck
      rcases hpck with hnone | ⟨c, hc, hcn⟩
      · cases hnone
      · simp only [Option.map_some', Option.some.injEq] at hc
        subst hc
        rw [verify_of_slots self chain rootCaCrl intermediateCrl rootCa expirationDate r i p
          hr hi hp, if_neg (by simp [hcr]), if_neg (by simp [hci]), if_pos hcn]

/-- Witness for C3: a chain with an invalid root and a missing PCK certificate yields
`STATUS_SGX_PCK_MISSING`. -/
theorem pckCertVerifier_verify_slot_missing_witness :
    sample.commonVerifier.verifyRootCACert sample.invalidRootCert ≠ STATUS_OK ∧
    sample.pckCertVerifier.verify sample.chainInvalidRootNoPck sample.rootCaCrl
      sample.intermediateCrl sample.rootCert 2000 = STATUS_SGX_PCK_MISSING :=
  ⟨by decide,
    (pckCertVerifier_verify_slot_missing sample.pckCertVerifier sample.chainInvalidRootNoPck
      sample.rootCaCrl sample.intermediateCrl sample.rootCert 2000).2.2
      ⟨sample.invalidRootCert, rfl, by decide⟩ ⟨sample.intermediateCert, rfl, by decide⟩
      (Or.inl rfl)⟩

/-- Remainder of `PckCertVerifier::verify` once rules 1 to 5 hold. -/
theorem verify_after_rule5 (self : PckCertVerifier) (chain : CertificateChain)
    (rootCaCrl intermediateCrl : CrlStore) (rootCa : Certificate) (expirationDate : time_t)
    (r i : Certificate) (p : PckCertificate)
    (h : PckChainRules.rules1to5 self chain rootCa r i p) :
    self.verify chain rootCaCrl intermediateCrl rootCa expirationDate =
      if r.getSignature.getRawDer ≠ rootCa.getSignature.getRawDer then
        STATUS_SGX_PCK_CERT_CHAIN_UNTRUSTED
      else if self._crlVerifier.verify rootCaCrl r ≠ STATUS_OK then
        self._crlVerifier.verify rootCaCrl r
      else if self._crlVerifier.verify intermediateCrl i ≠ STATUS_OK then
        self._crlVerifier.verify intermediateCrl i
      else if rootCaCrl.isRevoked i = true then
        STATUS_SGX_INTERMEDIATE_CA_REVOKED
      else if intermediateCrl.isRevoked p.toCertificate = true then
        STATUS_SGX_PCK_REVOKED
      else if expirationDate > r.getValidity.getNotAfterTime then
        STATUS_SGX_PCK_CERT_CHAIN_EXPIRED
      else if expirationDate > i.getValidity.getNotAfterTime then
        STATUS_SGX_PCK_CERT_CHAIN_EXPIRED
      else if expirationDate > p.getValidity.getNotAfterTime then
        STATUS_SGX_PCK_CERT_CHAIN_EXPIRED
      else if rootCaCrl.expired expirationDate = true then
        STATUS_SGX_CRL_EXPIRED
      else if intermediateCrl.expired expirationDate = true then
        STATUS_SGX_CRL_EXPIRED
      else
        STATUS_OK := by
  obtain ⟨⟨hr, hi, hp, c1, c2, c3⟩, c4, c5, c6, c7⟩ := h
  rw [verify_of_slots self chain rootCaCrl intermediateCrl rootCa expirationDate r i p
    hr hi hp]
  rw [if_neg (by simp [c1]), if_neg (by simp [c2]), if_neg (by simp [c3]),
    if_neg (by simp [c4]), if_neg (by simp [c5]), if_neg (by simp [c6]),
    if_neg (by simp [c7])]

/-- Remainder of `PckCertVerifier::verify` once rules 1 to 7 hold. -/
theorem verify_after_rule7 (self : PckCertVerifier) (chain : CertificateChain)
    (rootCaCrl intermediateCrl : CrlStore) (rootCa : Certificate) (expirationDate : time_t)
    (r i : Certificate) (p : PckCertificate)
    (h : PckChainRules.rules1to7 self chain rootCaCrl intermediateCrl rootCa r i p) :
    self.verify chain rootCaCrl intermediateCrl rootCa expirationDate =
      if rootCaCrl.isRevoked i = true then
        STATUS_SGX_INTERMEDIATE_CA_REVOKED
      else if intermediateCrl.isRevoked p.toCertificate = true then
        STATUS_SGX_PCK_REVOKED
      else if expirationDate > r.getValidity.getNotAfterTime then
        STATUS_SGX_PCK_CERT_CHAIN_EXPIRED
      else if expirationDate > i.getValidity.getNotAfterTime then
        STATUS_SGX_PCK_CERT_CHAIN_EXPIRED
      else if expirationDate > p.getValidity.getNotAfterTime then
        STATUS_SGX_PCK_CERT_CHAIN_EXPIRED
      else if rootCaCrl.expired expirationDate = true then
        STATUS_SGX_CRL_EXPIRED
      else if intermediateCrl.expired expirationDate = true then
        STATUS_SGX_CRL_EXPIRED
      else
        STATUS_OK := by
  obtain ⟨⟨h5, c8⟩, c9, c10⟩ := h
  rw [verify_after_rule5 self chain rootCaCrl intermediateCrl rootCa expirationDate r i p h5]
  rw [if_neg (by simp [c8]), if_neg (by simp [c9]), if_neg (by simp [c10])]

/-- Remainder of `PckCertVerifier::verify` once rules 1 to 8 hold. -/
theorem verify_after_rule8 (self : PckCertVerifier) (chain : CertificateChain)
    (rootCaCrl intermediateCrl : CrlStore) (rootCa : Certificate) (expirationDate : time_t)
    (r i : Certificate) (p : PckCertificate)
    (h : PckChainRules.rules1to8 self chain rootCaCrl intermediateCrl rootCa r i p) :
    self.verify chain rootCaCrl intermediateCrl rootCa expirationDate =
      if expirationDate > r.getValidity.getNotAfterTime then
        STATUS_SGX_PCK_CERT_CHAIN_EXPIRED
      else if expirationDate > i.getValidity.getNotAfterTime then
        STATUS_SGX_PCK_CERT_CHAIN_EXPIRED
      else if expirationDate > p.getValidity.getNotAfterTime then
        STATUS_SGX_PCK_CERT_CHAIN_EXPIRED
      else if rootCaCrl.expired expirationDate = true then
        STATUS_SGX_CRL_EXPIRED
      else if intermediateCrl.expired expirationDate = true then
        STATUS_SGX_CRL_EXPIRED
      else
        STATUS_OK := by
  obtain ⟨h7, c11, c12⟩ := h
  rw [verify_after_rule7 self chain rootCaCrl intermediateCrl rootCa expirationDate r i p h7]
  rw [if_neg (by simp [c11]), if_neg (by simp [c12])]

/-- C4: trust-anchor binding. When the chain root's raw DER signature differs from the
trusted root's, `PckCertVerifier::verify` never returns `STATUS_OK`; and when rules 1
to 5 hold it returns exactly `STATUS_SGX_PCK_CERT_CHAIN_UNTRUSTED`, whatever the CRLs,
the revocation state and `expirationDate` are. -/
theorem pckCertVerifier_verify_untrusted (self : PckCertVerifier) (chain : CertificateChain)
    (rootCaCrl intermediateCrl : CrlStore) (rootCa : Certificate) (expirationDate : time_t)
    (root : Certificate) (hroot : chain.getRootCert = some root)
    (hdiff : root.getSignature.getRawDer ≠ rootCa.getSignature.getRawDer) :
    self.verify chain rootCaCrl intermediateCrl rootCa expirationDate ≠ STATUS_OK ∧
    ∀ (intermediate : Certificate) (pck : PckCertificate),
      PckChainRules.rules1to5 self chain rootCa root intermediate pck →
      ∀ (rootCaCrl' intermediateCrl' : CrlStore) (expirationDate' : time_t),
        self.verify chain rootCaCrl' intermediateCrl' rootCa expirationDate' =
          STATUS_SGX_PCK_CERT_CHAIN_UNTRUSTED := by
  constructor
  · intro hok
    obtain ⟨r, _, _, hr, _, _, _, _, _, _, _, _, _, _, hsig, _⟩ :=
      verify_ok_conditions self chain rootCaCrl intermediateCrl rootCa expirationDate hok
    rw [hroot] at hr
    cases hr
    exact hdiff hsig
  · intro intermediate pck h15 rootCaCrl' intermediateCrl' expirationDate'
    rw [verify_after_rule5 self chain rootCaCrl' intermediateCrl' rootCa expirationDate'
      root intermediate pck h15, if_pos hdiff]

/-- C5: revocation. When rules 1 to 7 hold, a revoked intermediate gives
`STATUS_SGX_INTERMEDIATE_CA_REVOKED` (also when the PCK certificate is revoked too),
and otherwise a revoked PCK certificate gives `STATUS_SGX_PCK_REVOKED`; both for every
`expirationDate`, so revocation outranks expiration. -/
theorem pckCertVerifier_verify_revoked (self : PckCertVerifier) (chain : CertificateChain)
    (rootCaCrl intermediateCrl : CrlStore) (rootCa : Certificate)
    (root intermediate : Certificate) (pck : PckCertificate)
    (h : PckChainRules.rules1to7 self chain rootCaCrl intermediateCrl rootCa root
      intermediate pck) :
    (rootCaCrl.isRevoked intermediate = true →
      ∀ expirationDate : time_t,
        self.verify chain rootCaCrl intermediateCrl rootCa expirationDate =
          STATUS_SGX_INTERMEDIATE_CA_REVOKED) ∧
    (rootCaCrl.isRevoked intermediate = false →
      intermediateCrl.isRevoked pck.toCertificate = true →
      ∀ expirationDate : time_t,
        self.verify chain rootCaCrl intermediateCrl rootCa expirationDate =
          STATUS_SGX_PCK_REVOKED) := by
  constructor
  · intro hrev expirationDate
    rw [verify_after_rule7 self chain rootCaCrl intermediateCrl rootCa expirationDate root
      intermediate pck h, if_pos hrev]
  · intro hnot hrev expirationDate
    rw [verify_after_rule7 self chain rootCaCrl intermediateCrl rootCa expirationDate root
      intermediate pck h, if_neg (by simp [hnot]), if_pos hrev]

/-- C6: certificate expiration. When rules 1 to 8 hold, the result is
`STATUS_SGX_PCK_CERT_CHAIN_EXPIRED` exactly when `expirationDate` is strictly greater
than the `notAfter` of the chain root, the intermediate or the PCK certificate, that is
greater than the least of the three; an `expirationDate` equal to a `notAfter` is no
expiry, and the certificate expiry is reported whatever the CRLs' expiry is. -/
theorem pckCertVerifier_verify_chain_expired (self : PckCertVerifier)
    (chain : CertificateChain) (rootCaCrl intermediateCrl : CrlStore) (rootCa : Certificate)
    (expirationDate : time_t) (root intermediate : Certificate) (pck : PckCertificate)
    (h : PckChainRules.rules1to8 self chain rootCaCrl intermediateCrl rootCa root
      intermediate pck) :
    (self.verify chain rootCaCrl intermediateCrl rootCa expirationDate =
        STATUS_SGX_PCK_CERT_CHAIN_EXPIRED ↔
      (expirationDate > root.getValidity.getNotAfterTime ∨
        expirationDate > intermediate.getValidity.getNotAfterTime ∨
        expirationDate > pck.getValidity.getNotAfterTime)) ∧
    (self.verify chain rootCaCrl intermediateCrl rootCa expirationDate =
        STATUS_SGX_PCK_CERT_CHAIN_EXPIRED ↔
      expirationDate > min root.getValidity.getNotAfterTime
        (min intermediate.getValidity.getNotAfterTime pck.getValidity.getNotAfterTime)) := by
  have key : self.verify chain rootCaCrl intermediateCrl rootCa expirationDate =
        STATUS_SGX_PCK_CERT_CHAIN_EXPIRED ↔
      (expirationDate > root.getValidity.getNotAfterTime ∨
        expirationDate > intermediate.getValidity.getNotAfterTime ∨
        expirationDate > pck.getValidity.getNotAfterTime) := by
    rw [verify_after_rule8 self chain rootCaCrl intermediateCrl rootCa expirationDate root
      intermediate pck h]
    by_cases e1 : expirationDate > root.getValidity.getNotAfterTime
    · simp [e1]
    rw [if_neg e1]
    by_cases e2 : expirationDate > intermediate.getValidity.getNotAfterTime
    · simp [e2]
    rw [if_neg e2]
    by_cases e3 : expirationDate > pck.getValidity.getNotAfterTime
    · simp [e3]
    rw [if_neg e3]
    constructor
    · intro hexp
      by_cases e4 : rootCaCrl.expired expirationDate = true
      · rw [if_pos e4] at hexp; exact absurd hexp (by decide)
      rw [if_neg e4] at hexp
      by_cases e5 : intermediateCrl.expired expirationDate = true
      · rw [if_pos e5] at hexp; exact absurd hexp (by decide)
      rw [if_neg e5] at hexp
      exact absurd hexp (by decide)
    · rintro (e | e | e)
      · exact absurd e e1
      · exact absurd e e2
      · exact absurd e e3
  refine ⟨key, key.trans ?_⟩
  simp only [gt_iff_lt, min_lt_iff]

/-- C7: CRL expiration. When rules 1 to 8 hold and no certificate is expired at
`expirationDate`, the result is `STATUS_SGX_CRL_EXPIRED` exactly when the root CRL or
the intermediate CRL is expired at `expirationDate`, whichever of the two it is, and
`STATUS_OK` otherwise. -/
theorem pckCertVerifier_verify_crl_expired (self : PckCertVerifier)
    (chain : CertificateChain) (rootCaCrl intermediateCrl : CrlStore) (rootCa : Certificate)
    (expirationDate : time_t) (root intermediate : Certificate) (pck : PckCertificate)
    (h : PckChainRules.rules1to8 self chain rootCaCrl intermediateCrl rootCa root
      intermediate pck)
    (hcerts : expirationDate ≤ root.getValidity.getNotAfterTime ∧
      expirationDate ≤ intermediate.getValidity.getNotAfterTime ∧
      expirationDate ≤ pck.getValidity.getNotAfterTime) :
    (self.verify chain rootCaCrl intermediateCrl rootCa expirationDate =
        STATUS_SGX_CRL_EXPIRED ↔
      (rootCaCrl.expired expirationDate = true ∨
        intermediateCrl.expired expirationDate = true)) ∧
    (¬ (rootCaCrl.expired expirationDate = true ∨
        intermediateCrl.expired expirationDate = true) →
      self.verify chain rootCaCrl intermediateCrl rootCa expirationDate = STATUS_OK) := by
  obtain ⟨n1, n2, n3⟩ := hcerts
  rw [verify_after_rule8 self chain rootCaCrl intermediateCrl rootCa expirationDate root
    intermediate pck h, if_neg (not_lt.mpr n1), if_neg (not_lt.mpr n2),
    if_neg (not_lt.mpr n3)]
  by_cases e4 : rootCaCrl.expired expirationDate = true
  · simp [e4]
  rw [if_neg e4]
  by_cases e5 : intermediateCrl.expired expirationDate = true
  · simp [e5]
  rw [if_neg e5]
  simp [e4, e5]

/-- Witness for C4: the sample chain checked against a trusted root that carries another
signature is untrusted, also with revoking CRLs and a late `expirationDate`. -/
theorem pckCertVerifier_verify_untrusted_witness :
    sample.pckCertVerifier.verify sample.pckChain sample.rootCaCrl sample.intermediateCrl
        sample.otherRootCert 2000 ≠ STATUS_OK ∧
    sample.pckCertVerifier.verify sample.pckChain sample.rootCaCrlRevoking
        sample.intermediateCrlRevoking sample.otherRootCert 9000 =
      STATUS_SGX_PCK_CERT_CHAIN_UNTRUSTED :=
  have h := pckCertVerifier_verify_untrusted sample.pckCertVerifier sample.pckChain
    sample.rootCaCrl sample.intermediateCrl sample.otherRootCert 2000 sample.rootCert rfl
    (by decide)
  ⟨h.1, h.2 sample.intermediateCert sample.pckCert (by decide) sample.rootCaCrlRevoking
    sample.intermediateCrlRevoking 9000⟩

/-- Witness for C5: with both certificates revoked and an `expirationDate` beyond every
`notAfter`, the intermediate's revocation is reported. -/
theorem pckCertVerifier_verify_revoked_witness :
    sample.rootCaCrlRevoking.isRevoked sample.intermediateCert = true ∧
    sample.intermediateCrlRevoking.isRevoked sample.pckCert.toCertificate = true ∧
    sample.pckCertVerifier.verify sample.pckChain sample.rootCaCrlRevoking
        sample.intermediateCrlRevoking sample.rootCert 9000 =
      STATUS_SGX_INTERMEDIATE_CA_REVOKED :=
  ⟨by decide, by decide,
    (pckCertVerifier_verify_revoked sample.pckCertVerifier sample.pckChain
      sample.rootCaCrlRevoking sample.intermediateCrlRevoking sample.rootCert sample.rootCert
      sample.intermediateCert sample.pckCert (by decide)).1 (by decide) 9000⟩

/-- Witness for C6: the sample chain is reported expired one second after its
certificates' `notAfter`, although both CRLs are expired then as well. -/
theorem pckCertVerifier_verify_chain_expired_witness :
    sample.rootCaCrlShort.expired 4601 = true ∧
    sample.pckCertVerifier.verify sample.pckChain sample.rootCaCrlShort
        sample.intermediateCrlShort sample.rootCert 4601 =
      STATUS_SGX_PCK_CERT_CHAIN_EXPIRED :=
  ⟨by decide,
    (pckCertVerifier_verify_chain_expired sample.pckCertVerifier sample.pckChain
      sample.rootCaCrlShort sample.intermediateCrlShort sample.rootCert 4601 sample.rootCert
      sample.intermediateCert sample.pckCert (by decide)).1.2 (Or.inl (by decide))⟩

/-- Witness for C7: with certificates valid at 3500, an intermediate CRL that expired at
3000 gives `STATUS_SGX_CRL_EXPIRED`. -/
theorem pckCertVerifier_verify_crl_expired_witness :
    sample.rootCaCrl.expired 3500 = false ∧
    sample.pckCertVerifier.verify sample.pckChain sample.rootCaCrl
        sample.intermediateCrlShort sample.rootCert 3500 =
      STATUS_SGX_CRL_EXPIRED :=
  ⟨by decide,
    (pckCertVerifier_verify_crl_expired sample.pckCertVerifier sample.pckChain
      sample.rootCaCrl sample.intermediateCrlShort sample.rootCert 3500 sample.rootCert
      sample.intermediateCert sample.pckCert (by decide) (by decide)).1.2
      (Or.inr (by decide))⟩

/-- Unfolding of `EnclaveIdentityVerifier::verify` once the signing chain is accepted and
the TCB signing certificate is present. -/
theorem enclaveIdentity_verify_of_topmost (self : EnclaveIdentityVerifier)
    (enclaveIdentity : EnclaveIdentityV2) (chain : CertificateChain) (rootCaCrl : CrlStore)
    (trustedRoot : Certificate) (expirationDate : time_t) (t : Certificate)
    (hs : self._tcbSigningChain.verify chain rootCaCrl trustedRoot = STATUS_OK)
    (ht : chain.getTopmostCert = some t) :
    self.verify enclaveIdentity chain rootCaCrl trustedRoot expirationDate =
      if self._commonVerifier.checkSha256EcdsaSignature enclaveIdentity.getSignature
          enclaveIdentity.getBody t.getPubKey = false then
        some STATUS_SGX_ENCLAVE_IDENTITY_INVALID_SIGNATURE
      else if expirationDate > t.getValidity.getNotAfterTime then
        some STATUS_SGX_SIGNING_CERT_CHAIN_EXPIRED
      else
        match chain.getRootCert with
        | none => none
        | some rootCA =>
          if expirationDate > rootCA.getValidity.getNotAfterTime then
            some STATUS_SGX_SIGNING_CERT_CHAIN_EXPIRED
          else if rootCaCrl.expired expirationDate = true then
            some STATUS_SGX_CRL_EXPIRED
          else if expirationDate > enclaveIdentity.getNextUpdate then
            some STATUS_SGX_ENCLAVE_IDENTITY_EXPIRED
          else
            some STATUS_OK := by
  unfold EnclaveIdentityVerifier.verify
  simp only [hs, ht, ne_eq, not_true_eq_false, if_false, Bool.not_eq_true']

/-- Unfolding of `EnclaveIdentityVerifier::verify` once the signing chain is accepted, the
identity's signature verifies under the present TCB signing certificate, that certificate
is not expired, and the root certificate is present. -/
theorem enclaveIdentity_verify_of_root (self : EnclaveIdentityVerifier)
    (enclaveIdentity : EnclaveIdentityV2) (chain : CertificateChain) (rootCaCrl : CrlStore)
    (trustedRoot : Certificate) (expirationDate : time_t) (t r : Certificate)
    (hs : self._tcbSigningChain.verify chain rootCaCrl trustedRoot = STATUS_OK)
    (ht : chain.getTopmostCert = some t)
    (hsig : self._commonVerifier.checkSha256EcdsaSignature enclaveIdentity.getSignature
      enclaveIdentity.getBody t.getPubKey = true)
    (hexp : expirationDate ≤ t.getValidity.getNotAfterTime)
    (hr : chain.getRootCert = some r) :
    self.verify enclaveIdentity chain rootCaCrl trustedRoot expirationDate =
      if expirationDate > r.getValidity.getNotAfterTime then
        some STATUS_SGX_SIGNING_CERT_CHAIN_EXPIRED
      else if rootCaCrl.expired expirationDate = true then
        some STATUS_SGX_CRL_EXPIRED
      else if expirationDate > enclaveIdentity.getNextUpdate then
        some STATUS_SGX_ENCLAVE_IDENTITY_EXPIRED
      else
        some STATUS_OK := by
  rw [enclaveIdentity_verify_of_topmost self enclaveIdentity chain rootCaCrl trustedRoot
    expirationDate t hs ht, if_neg (by simp [hsig]), if_neg (not_lt.mpr hexp)]
  simp only [hr]

/-- C9: `EnclaveIdentityVerifier::verify` returns `STATUS_OK` exactly when the TCB signing
chain verifier returns `STATUS_OK`, the identity's signature over its body verifies under
the public key of the chain's topmost certificate, `expirationDate` is at most the
`notAfter` of the TCB signing certificate and of the chain root, the root CRL is not
expired at `expirationDate`, and `expirationDate` is at most the identity's
`nextUpdate`; the bounds are inclusive. -/
theorem enclaveIdentityVerifier_verify_ok_iff (self : EnclaveIdentityVerifier)
    (enclaveIdentity : EnclaveIdentityV2) (chain : CertificateChain) (rootCaCrl : CrlStore)
    (trustedRoot : Certificate) (expirationDate : time_t) :
    self.verify enclaveIdentity chain rootCaCrl trustedRoot expirationDate = some STATUS_OK ↔
      self._tcbSigningChain.verify chain rootCaCrl trustedRoot = STATUS_OK ∧
      ∃ (tcbSigningCert rootCA : Certificate),
        chain.getTopmostCert = some tcbSigningCert ∧
        chain.getRootCert = some rootCA ∧
        self._commonVerifier.checkSha256EcdsaSignature enclaveIdentity.getSignature
          enclaveIdentity.getBody tcbSigningCert.getPubKey = true ∧
        expirationDate ≤ tcbSigningCert.getValidity.getNotAfterTime ∧
        expirationDate ≤ rootCA.getValidity.getNotAfterTime ∧
        rootCaCrl.expired expirationDate = false ∧
        expirationDate ≤ enclaveIdentity.getNextUpdate := by
  constructor
  · intro h
    by_cases hs : self._tcbSigningChain.verify chain rootCaCrl trustedRoot = STATUS_OK
    · refine ⟨hs, ?_⟩
      cases ht : chain.getTopmostCert with
      | none =>
        unfold EnclaveIdentityVerifier.verify at h
        simp [hs, ht] at h
      | some t =>
        rw [enclaveIdentity_verify_of_topmost self enclaveIdentity chain rootCaCrl trustedRoot
          expirationDate t hs ht] at h
        by_cases e1 : self._commonVerifier.checkSha256EcdsaSignature
            enclaveIdentity.getSignature enclaveIdentity.getBody t.getPubKey = false
        · rw [if_pos e1] at h; exact absurd h (by decide)
        rw [if_neg e1] at h
        by_cases e2 : expirationDate > t.getValidity.getNotAfterTime
        · rw [if_pos e2] at h; exact absurd h (by decide)
        rw [if_neg e2] at h
        cases hr : chain.getRootCert with
        | none => rw [hr] at h; cases h
        | some r =>
          rw [hr] at h
          simp only at h
          by_cases e3 : expirationDate > r.getValidity.getNotAfterTime
          · rw [if_pos e3] at h; exact absurd h (by decide)
          rw [if_neg e3] at h
          by_cases e4 : rootCaCrl.expired expirationDate = true
          · rw [if_pos e4] at h; exact absurd h (by decide)
          rw [if_neg e4] at h
          by_cases e5 : expirationDate > enclaveIdentity.getNextUpdate
          · rw [if_pos e5] at h; exact absurd h (by decide)
          exact ⟨t, r, rfl, rfl, by simpa using e1, not_lt.mp e2, not_lt.mp e3,
            by simpa using e4, not_lt.mp e5⟩
    · unfold EnclaveIdentityVerifier.verify at h
      simp only [ne_eq, hs, not_false_eq_true, if_true, Option.some.injEq] at h
  · rintro ⟨hs, t, r, ht, hr, hsig, n1, n2, n3, n4⟩
    rw [enclaveIdentity_verify_of_root self enclaveIdentity chain rootCaCrl trustedRoot
      expirationDate t r hs ht hsig n1 hr, if_neg (not_lt.mpr n2), if_neg (by simp [n3]),
      if_neg (not_lt.mpr n4)]

/-- C10: `EnclaveIdentityVerifier::verify` reports the first failing step in the order
(a) to (f): a status of the TCB signing chain verifier other than `STATUS_OK` is returned
unchanged; otherwise a failed signature check gives
`STATUS_SGX_ENCLAVE_IDENTITY_INVALID_SIGNATURE`; otherwise an expired signing
certificate, and after it an expired chain root, give
`STATUS_SGX_SIGNING_CERT_CHAIN_EXPIRED`; otherwise an expired root CRL gives
`STATUS_SGX_CRL_EXPIRED`; otherwise an `expirationDate` beyond the identity's
`nextUpdate` gives `STATUS_SGX_ENCLAVE_IDENTITY_EXPIRED`. -/
theorem enclaveIdentityVerifier_verify_first_failure (self : EnclaveIdentityVerifier)
    (enclaveIdentity : EnclaveIdentityV2) (chain : CertificateChain) (rootCaCrl : CrlStore)
    (trustedRoot : Certificate) (expirationDate : time_t) :
    (self._tcbSigningChain.verify chain rootCaCrl trustedRoot ≠ STATUS_OK →
      self.verify enclaveIdentity chain rootCaCrl trustedRoot expirationDate =
        some (self._tcbSigningChain.verify chain rootCaCrl trustedRoot)) ∧
    (self._tcbSigningChain.verify chain rootCaCrl trustedRoot = STATUS_OK →
      ∀ tcbSigningCert : Certificate, chain.getTopmostCert = some tcbSigningCert →
      (self._commonVerifier.checkSha256EcdsaSignature enclaveIdentity.getSignature
          enclaveIdentity.getBody tcbSigningCert.getPubKey = false →
        self.verify enclaveIdentity chain rootCaCrl trustedRoot expirationDate =
          some STATUS_SGX_ENCLAVE_IDENTITY_INVALID_SIGNATURE) ∧
      (self._commonVerifier.checkSha256EcdsaSignature enclaveIdentity.getSignature
          enclaveIdentity.getBody tcbSigningCert.getPubKey = true →
        (expirationDate > tcbSigningCert.getValidity.getNotAfterTime →
          self.verify enclaveIdentity chain rootCaCrl trustedRoot expirationDate =
            some STATUS_SGX_SIGNING_CERT_CHAIN_EXPIRED) ∧
        (expirationDate ≤ tcbSigningCert.getValidity.getNotAfterTime →
          ∀ rootCA : Certificate, chain.getRootCert = some rootCA →
          (expirationDate > rootCA.getValidity.getNotAfterTime →
            self.verify enclaveIdentity chain rootCaCrl trustedRoot expirationDate =
              some STATUS_SGX_SIGNING_CERT_CHAIN_EXPIRED) ∧
          (expirationDate ≤ rootCA.getValidity.getNotAfterTime →
            (rootCaCrl.expired expirationDate = true →
              self.verify enclaveIdentity chain rootCaCrl trustedRoot expirationDate =
                some STATUS_SGX_CRL_EXPIRED) ∧
            (rootCaCrl.expired expirationDate = false →
              expirationDate > enclaveIdentity.getNextUpdate →
              self.verify enclaveIdentity chain rootCaCrl trustedRoot expirationDate =
                some STATUS_SGX_ENCLAVE_IDENTITY_EXPIRED))))) := by
  constructor
  · intro hs
    unfold EnclaveIdentityVerifier.verify
    simp only [ne_eq, hs, not_false_eq_true, if_true]
  · intro hs t ht
    constructor
    · intro hsig
      rw [enclaveIdentity_verify_of_topmost self enclaveIdentity chain rootCaCrl trustedRoot
        expirationDate t hs ht, if_pos hsig]
    · intro hsig
      constructor
      · intro hexp
        rw [enclaveIdentity_verify_of_topmost self enclaveIdentity chain rootCaCrl trustedRoot
          expirationDate t hs ht, if_neg (by simp [hsig]), if_pos hexp]
      · intro hexp r hr
        have htail := enclaveIdentity_verify_of_root self enclaveIdentity chain rootCaCrl
          trustedRoot expirationDate t r hs ht hsig hexp hr
        refine ⟨fun e3 => ?_, fun n3 => ⟨fun e4 => ?_, fun n4 e5 => ?_⟩⟩
        · rw [htail, if_pos e3]
        · rw [htail, if_neg (not_lt.mpr n3), if_pos e4]
        · rw [htail, if_neg (not_lt.mpr n3), if_neg (by simp [n4]), if_pos e5]

/-- Witness for C10: an identity with an invalid signature that is also past its
`nextUpdate` yields the invalid-signature status, and an expired identity under an expired
signing certificate yields `STATUS_SGX_SIGNING_CERT_CHAIN_EXPIRED`. -/
theorem enclaveIdentityVerifier_verify_first_failure_witness :
    (4500 > sample.forgedEnclaveIdentity.getNextUpdate ∧
      sample.enclaveIdentityVerifier.verify sample.forgedEnclaveIdentity sample.tcbChain
          sample.rootCaCrl sample.rootCert 4500 =
        some STATUS_SGX_ENCLAVE_IDENTITY_INVALID_SIGNATURE) ∧
    (4500 > sample.enclaveIdentity.getNextUpdate ∧
      sample.enclaveIdentityVerifier.verify sample.enclaveIdentity sample.shortTcbChain
          sample.rootCaCrl sample.rootCert 4500 =
        some STATUS_SGX_SIGNING_CERT_CHAIN_EXPIRED) :=
  ⟨⟨by decide,
      ((enclaveIdentityVerifier_verify_first_failure sample.enclaveIdentityVerifier
        sample.forgedEnclaveIdentity sample.tcbChain sample.rootCaCrl sample.rootCert 4500).2
        (by decide) sample.tcbSigningCert rfl).1 (by decide)⟩,
    ⟨by decide,
      (((enclaveIdentityVerifier_verify_first_failure sample.enclaveIdentityVerifier
        sample.enclaveIdentity sample.shortTcbChain sample.rootCaCrl sample.rootCert 4500).2
        (by decide) sample.shortTcbSigningCert rfl).2 (by decide)).1 (by decide)⟩⟩

/-- The sample PCK chain with its CRLs and its own root as trusted root is accepted while
everything is valid. -/
theorem sample_pckChain_accepted :
    sample.pckCertVerifier.verify sample.pckChain sample.rootCaCrl sample.intermediateCrl
      sample.rootCert 4600 = STATUS_OK := by
  decide

/-- The sample enclave identity is accepted up to its `nextUpdate`. -/
theorem sample_enclaveIdentity_accepted :
    sample.enclaveIdentityVerifier.verify sample.enclaveIdentity sample.tcbChain
      sample.rootCaCrl sample.rootCert 4000 = some STATUS_OK := by
  decide

/-- C11: `EnclaveIdentityVerifier::verify` reads the enclave identity only through its
signature, its body and its `nextUpdate`: two identities that agree on these three
values get the same verdict under equal other arguments; and the signature check is
made on the identity's signature, its unmodified body and the public key of the chain's
topmost certificate, its failure being what the invalid-signature status reports. -/
theorem enclaveIdentityVerifier_verify_reads_signed_bytes (self : EnclaveIdentityVerifier)
    (identity identity' : EnclaveIdentityV2) (chain : CertificateChain)
    (rootCaCrl : CrlStore) (trustedRoot : Certificate) (expirationDate : time_t)
    (hsig : identity.getSignature = identity'.getSignature)
    (hbody : identity.getBody = identity'.getBody)
    (hnext : identity.getNextUpdate = identity'.getNextUpdate) :
    self.verify identity chain rootCaCrl trustedRoot expirationDate =
      self.verify identity' chain rootCaCrl trustedRoot expirationDate ∧
    ∀ tcbSigningCert : Certificate,
      self._tcbSigningChain.verify chain rootCaCrl trustedRoot = STATUS_OK →
      chain.getTopmostCert = some tcbSigningCert →
      (self.verify identity chain rootCaCrl trustedRoot expirationDate =
          some STATUS_SGX_ENCLAVE_IDENTITY_INVALID_SIGNATURE ↔
        self._commonVerifier.checkSha256EcdsaSignature identity.getSignature
          identity.getBody tcbSigningCert.getPubKey = false) := by
  constructor
  · unfold EnclaveIdentityVerifier.verify
    rw [hsig, hbody, hnext]
  · intro t hs ht
    rw [enclaveIdentity_verify_of_topmost self identity chain rootCaCrl trustedRoot
      expirationDate t hs ht]
    by_cases e1 : self._commonVerifier.checkSha256EcdsaSignature identity.getSignature
        identity.getBody t.getPubKey = false
    · simp [e1]
    rw [if_neg e1]
    refine ⟨fun h => ?_, fun h => absurd h e1⟩
    exfalso
    by_cases e2 : expirationDate > t.getValidity.getNotAfterTime
    · rw [if_pos e2] at h; exact absurd h (by decide)
    rw [if_neg e2] at h
    cases hr : chain.getRootCert with
    | none => rw [hr] at h; cases h
    | some r =>
      rw [hr] at h
      simp only at h
      by_cases e3 : expirationDate > r.getValidity.getNotAfterTime
      · rw [if_pos e3] at h; exact absurd h (by decide)
      rw [if_neg e3] at h
      by_cases e4 : rootCaCrl.expired expirationDate = true
      · rw [if_pos e4] at h; exact absurd h (by decide)
      rw [if_neg e4] at h
      by_cases e5 : expirationDate > identity.getNextUpdate
      · rw [if_pos e5] at h; exact absurd h (by decide)
      rw [if_neg e5] at h
      exact absurd h (by decide)

/-- Witness for C11: the sample identity and its reissue, which differ in issue date and
version only, get the same verdict. -/
theorem enclaveIdentityVerifier_verify_reads_signed_bytes_witness :
    sample.enclaveIdentity ≠ sample.reissuedEnclaveIdentity ∧
    sample.enclaveIdentityVerifier.verify sample.enclaveIdentity sample.tcbChain
        sample.rootCaCrl sample.rootCert 2000 =
      sample.enclaveIdentityVerifier.verify sample.reissuedEnclaveIdentity sample.tcbChain
        sample.rootCaCrl sample.rootCert 2000 :=
  ⟨by decide,
    (enclaveIdentityVerifier_verify_reads_signed_bytes sample.enclaveIdentityVerifier
      sample.enclaveIdentity sample.reissuedEnclaveIdentity sample.tcbChain sample.rootCaCrl
      sample.rootCert 2000 rfl rfl rfl).1⟩

/-- C12, as the claim states it, fails: for the status value 85, the first one beyond
`MAX_STATUS`, `printStatus` does not produce `"Unknown status (85)"`. -/
theorem printStatus_unknown_counterexample :
    (85 : Status) > StatusPrinter.MAX_STATUS ∧
    StatusPrinter.printStatus 85 ≠ some ("Unknown status (" ++ Nat.repr 85 ++ ")") := by
  decide

/-- C12, amended: for every status value `n` greater than the largest defined status,
`printStatus` produces `"Unknown status("` followed by the decimal digits of `n` followed
by `")"`, with no blank before the parenthesis. -/
theorem printStatus_unknown (n : Status) (h : n > StatusPrinter.MAX_STATUS) :
    StatusPrinter.printStatus n = some ("Unknown status(" ++ Nat.repr n ++ ")") := by
  unfold StatusPrinter.printStatus
  simp only [h, if_true]
  congr 1

/-- Witness for C12, amended: the status value 85 prints as `"Unknown status(85)"`. -/
theorem printStatus_unknown_witness :
    StatusPrinter.printStatus 85 = some "Unknown status(85)" :=
  printStatus_unknown 85 (by decide)

/-- C13: for every status `s` up to `MAX_STATUS`, the read of the name table at `s` is
within bounds and yields a name that is not empty, and `printStatus s` is that name
followed by `"("`, the decimal digits of `s` and `")"`; the table has
`MAX_STATUS + 1 = 85` entries, which are the names of the enumerators in the order of
their values; `STATUS_OK` prints as `"STATUS_OK(0)"` and the last status as
`"STATUS_SGX_ENCLAVE_REPORT_ISVSVN_REVOKED(84)"`. -/
theorem printStatus_known (s : Status) (h : s ≤ StatusPrinter.MAX_STATUS) :
    (∃ name, StatusPrinter.statusStrs.get? s = some name ∧ name ≠ "" ∧
      StatusPrinter.printStatus s = some (name ++ "(" ++ Nat.repr s ++ ")")) ∧
    StatusPrinter.statusStrs.length = StatusPrinter.MAX_STATUS + 1 ∧
    StatusPrinter.MAX_STATUS + 1 = 85 ∧
    StatusPrinter.enumerators.map Prod.snd = StatusPrinter.statusStrs ∧
    StatusPrinter.enumerators.map Prod.fst = List.range 85 ∧
    StatusPrinter.printStatus STATUS_OK = some "STATUS_OK(0)" ∧
    StatusPrinter.printStatus STATUS_SGX_ENCLAVE_REPORT_ISVSVN_REVOKED =
      some "STATUS_SGX_ENCLAVE_REPORT_ISVSVN_REVOKED(84)" := by
  refine ⟨?_, by decide, by decide, by decide, by decide, by decide, by decide⟩
  have hlen : StatusPrinter.statusStrs.length = 85 := by decide
  have hmax : StatusPrinter.MAX_STATUS = 84 := rfl
  have hlt : s < StatusPrinter.statusStrs.length := by
    rw [hlen]; rw [hmax] at h; exact Nat.lt_succ_of_le h
  have hnonempty : ∀ name ∈ StatusPrinter.statusStrs, name ≠ "" := by decide
  refine ⟨StatusPrinter.statusStrs.get ⟨s, hlt⟩, List.get?_eq_get hlt,
    hnonempty _ (List.get_mem _ _ _), ?_⟩
  unfold StatusPrinter.printStatus
  rw [if_neg (Nat.not_lt.mpr h)]
  simp only [List.get?_eq_get hlt]
  congr 1
  simp only [String.ext_iff, String.data_append, List.append_assoc]

/-- Witness for C13: `STATUS_SGX_PCK_CERT_CHAIN_EXPIRED` prints with its name and its
value 78. -/
theorem printStatus_known_witness :
    StatusPrinter.printStatus STATUS_SGX_PCK_CERT_CHAIN_EXPIRED =
      some "STATUS_SGX_PCK_CERT_CHAIN_EXPIRED(78)" := by
  obtain ⟨name, hname, _, hprint⟩ :=
    (printStatus_known STATUS_SGX_PCK_CERT_CHAIN_EXPIRED (by decide)).1
  have hn : name = "STATUS_SGX_PCK_CERT_CHAIN_EXPIRED" :=
    Option.some.inj (hname.symm.trans (by decide))
  rw [hprint, hn]
  decide

/-- C19: both CRLs are verified before any revocation lookup. When rules 1 to 6 hold, a
status other than `STATUS_OK` of the CRL verifier for the root CRL is the result, and
after it one for the intermediate CRL, whatever the CRLs list as revoked; so with a
verified root CRL that revokes the intermediate, `STATUS_SGX_INTERMEDIATE_CA_REVOKED`
comes from the revocation lookup only if the intermediate CRL verifies too, the
intermediate CRL's status being the result otherwise. -/
theorem pckCertVerifier_verify_crl_before_revocation (self : PckCertVerifier)
    (chain : CertificateChain) (rootCaCrl intermediateCrl : CrlStore) (rootCa : Certificate)
    (expirationDate : time_t) (root intermediate : Certificate) (pck : PckCertificate)
    (h : PckChainRules.rules1to6 self chain rootCa root intermediate pck) :
    (self._crlVerifier.verify rootCaCrl root ≠ STATUS_OK →
      self.verify chain rootCaCrl intermediateCrl rootCa expirationDate =
        self._crlVerifier.verify rootCaCrl root) ∧
    (self._crlVerifier.verify rootCaCrl root = STATUS_OK →
      self._crlVerifier.verify intermediateCrl intermediate ≠ STATUS_OK →
      self.verify chain rootCaCrl intermediateCrl rootCa expirationDate =
        self._crlVerifier.verify intermediateCrl intermediate) ∧
    (self._crlVerifier.verify rootCaCrl root = STATUS_OK →
      rootCaCrl.isRevoked intermediate = true →
      self.verify chain rootCaCrl intermediateCrl rootCa expirationDate =
        if self._crlVerifier.verify intermediateCrl intermediate = STATUS_OK then
          STATUS_SGX_INTERMEDIATE_CA_REVOKED
        else self._crlVerifier.verify intermediateCrl intermediate) := by
  obtain ⟨h5, hsig⟩ := h
  have htail := verify_after_rule5 self chain rootCaCrl intermediateCrl rootCa
    expirationDate root intermediate pck h5
  rw [if_neg (by simp [hsig])] at htail
  refine ⟨fun hx => ?_, fun hx hy => ?_, fun hx hrev => ?_⟩
  · rw [htail, if_pos hx]
  · rw [htail, if_neg (by simp [hx]), if_pos hy]
  · rw [htail, if_neg (by simp [hx])]
    by_cases hy : self._crlVerifier.verify intermediateCrl intermediate = STATUS_OK
    · rw [if_neg (by simp [hy]), if_pos hrev, if_pos hy]
    · rw [if_pos hy, if_neg hy]

/-- Witness for C19: with a root CRL that revokes the intermediate and an intermediate
CRL that the CRL verifier rejects, the CRL verifier's status is the result. -/
theorem pckCertVerifier_verify_crl_before_revocation_witness :
    sample.rootCaCrlRevoking.isRevoked sample.intermediateCert = true ∧
    sample.pckCertVerifier.verify sample.pckChain sample.rootCaCrlRevoking
        sample.intermediateCrlWrongIssuer sample.rootCert 2000 =
      STATUS_SGX_CRL_UNKNOWN_ISSUER :=
  ⟨by decide,
    (pckCertVerifier_verify_crl_before_revocation sample.pckCertVerifier sample.pckChain
      sample.rootCaCrlRevoking sample.intermediateCrlWrongIssuer sample.rootCert 2000
      sample.rootCert sample.intermediateCert sample.pckCert (by decide)).2.1 (by decide)
      (by decide)⟩

/-- The phrase check is the check that the phrase is a contiguous part of the text. -/
theorem containsPhrase_iff_contiguous (phrase text : List Char) :
    containsPhrase phrase text = true ↔ phrase <:+: text := by
  induction text with
  | nil => simp [containsPhrase]
  | cons c cs ih =>
    simp only [containsPhrase, Bool.or_eq_true, ih, List.isPrefixOf_iff_prefix]
    exact List.infix_cons_iff.symm

/-- A common name that contains the root phrase contains the intermediate phrase. -/
theorem commonNameContains_root_intermediate (name : DistinguishedName)
    (h : BaseVerifier.commonNameContains name constants.SGX_ROOT_CA_CN_PHRASE = true) :
    BaseVerifier.commonNameContains name constants.SGX_INTERMEDIATE_CN_PHRASE = true := by
  unfold BaseVerifier.commonNameContains at h ⊢
  rw [containsPhrase_iff_contiguous] at h ⊢
  have hphrase : constants.SGX_INTERMEDIATE_CN_PHRASE.data <:+:
      constants.SGX_ROOT_CA_CN_PHRASE.data := ⟨"SGX Root ".data, [], rfl⟩
  exact hphrase.trans h

/-- C20, as the claim states it, fails: the chain whose intermediate slot holds the root
certificate, whose subject CN contains "SGX Root CA", has a present and classified root
and is not reported as `STATUS_SGX_INTERMEDIATE_CA_MISSING`; it is accepted. -/
theorem pckCertVerifier_verify_intermediate_phrase_counterexample :
    PckChainRules.slotPresent sample.chainRootAsIntermediate.getRootCert
      constants.SGX_ROOT_CA_CN_PHRASE ∧
    PckChainRules.slotPresent sample.chainRootAsIntermediate.getIntermediateCert
      constants.SGX_ROOT_CA_CN_PHRASE ∧
    sample.pckCertVerifier.verify sample.chainRootAsIntermediate sample.rootCaCrl
      sample.rootCaCrl sample.rootCert 2000 = STATUS_OK ∧
    sample.pckCertVerifier.verify sample.chainRootAsIntermediate sample.rootCaCrl
      sample.rootCaCrl sample.rootCert 2000 ≠ STATUS_SGX_INTERMEDIATE_CA_MISSING :=
  ⟨⟨sample.rootCert, rfl, by decide⟩, ⟨sample.rootCert, rfl, by decide⟩, by decide,
    by decide⟩

/-- C20, amended: in step 1 the intermediate slot counts as correctly CN-classified when
the subject CN of its certificate contains "CA". For a chain with a present and
classified root, an intermediate whose subject CN lacks "CA" gives
`STATUS_SGX_INTERMEDIATE_CA_MISSING`; an intermediate whose subject CN contains
"SGX Root CA" contains "CA" and passes the check, so that the result is
`STATUS_SGX_PCK_MISSING` when the PCK slot is missing and rule 1 holds when the PCK slot
is present and classified. -/
theorem pckCertVerifier_verify_intermediate_phrase (self : PckCertVerifier)
    (chain : CertificateChain) (rootCaCrl intermediateCrl : CrlStore) (rootCa : Certificate)
    (expirationDate : time_t) (root intermediate : Certificate)
    (hr : chain.getRootCert = some root)
    (hcr : BaseVerifier.commonNameContains root.getSubject
      constants.SGX_ROOT_CA_CN_PHRASE = true)
    (hi : chain.getIntermediateCert = some intermediate) :
    (BaseVerifier.commonNameContains intermediate.getSubject
        constants.SGX_INTERMEDIATE_CN_PHRASE = false →
      self.verify chain rootCaCrl intermediateCrl rootCa expirationDate =
        STATUS_SGX_INTERMEDIATE_CA_MISSING) ∧
    (BaseVerifier.commonNameContains intermediate.getSubject
        constants.SGX_ROOT_CA_CN_PHRASE = true →
      BaseVerifier.commonNameContains intermediate.getSubject
        constants.SGX_INTERMEDIATE_CN_PHRASE = true ∧
      (PckChainRules.slotMissing (chain.getPckCert.map PckCertificate.toCertificate)
          constants.SGX_PCK_CN_PHRASE →
        self.verify chain rootCaCrl intermediateCrl rootCa expirationDate =
          STATUS_SGX_PCK_MISSING) ∧
      (∀ pck : PckCertificate, chain.getPckCert = some pck →
        BaseVerifier.commonNameContains pck.getSubject constants.SGX_PCK_CN_PHRASE = true →
        PckChainRules.slotsClassified chain root intermediate pck)) := by
  constructor
  · intro hcn
    unfold PckCertVerifier.verify
    rw [hr]
    simp only [hi, hcr, hcn, Bool.not_true, Bool.not_false, if_true, Bool.false_eq_true,
      if_false]
  · intro hroot
    have hci := commonNameContains_root_intermediate intermediate.getSubject hroot
    refine ⟨hci, fun hpck => ?_, fun pck hp hcp => ⟨hr, hi, hp, hcr, hci, hcp⟩⟩
    cases hp : chain.getPckCert with
    | none =>
      rw [verify_pck_absent self chain rootCaCrl intermediateCrl rootCa expirationDate root
        intermediate hr hi hp, if_neg (by simp [hcr]), if_neg (by simp [hci])]
    | some p =>
      rw [hp] at hpck
      rcases hpck with hnone | ⟨c, hc, hcn⟩
      · cases hnone
      · simp only [Option.map_some', Option.some.injEq] at hc
        subst hc
        rw [verify_of_slots self chain rootCaCrl intermediateCrl rootCa expirationDate root
          intermediate p hr hi hp, if_neg (by simp [hcr]), if_neg (by simp [hci]),
          if_pos hcn]

/-- Witness for C20, amended: the root certificate in the intermediate slot passes the
slot check, and rule 1 holds for the chain. -/
theorem pckCertVerifier_verify_intermediate_phrase_witness :
    PckChainRules.slotsClassified sample.chainRootAsIntermediate sample.rootCert
      sample.rootCert sample.pckCertFromRoot :=
  ((pckCertVerifier_verify_intermediate_phrase sample.pckCertVerifier
    sample.chainRootAsIntermediate sample.rootCaCrl sample.rootCaCrl sample.rootCert 2000
    sample.rootCert sample.rootCert rfl (by decide) rfl).2 (by decide)).2.2
    sample.pckCertFromRoot rfl (by decide)

/-- The member extraction written from the specification fails with
`InvalidExtensionException` only. -/
theorem pckCertificate_setMembers_error (certificate : Certificate)
    (sgxExtensions : stack_st_ASN1_TYPE) (e : ParserException)
    (h : PckCertificate.setMembers certificate sgxExtensions = .error e) :
    ∃ what, e = ParserException.InvalidExtensionException what := by
  unfold PckCertificate.setMembers at h
  simp only at h
  split at h
  · cases h; exact ⟨_, rfl⟩
  · split at h
    · split at h
      · cases h
      · cases h; exact ⟨_, rfl⟩
    · cases h; exact ⟨_, rfl⟩

/-- Result of `ProcessorPckCertificate::setMembers` after the base member extraction. -/
theorem processor_setMembers_of_base (base : PckCertificateBase) (self : PckCertificate)
    (sgxExtensions : stack_st_ASN1_TYPE) :
    ProcessorPckCertificate.setMembers base self sgxExtensions =
      match base.setMembers self sgxExtensions with
      | .error e => .error e
      | .ok self' =>
        if sk_ASN1_TYPE_num sgxExtensions = PROCESSOR_CA_EXTENSION_COUNT then .ok self'
        else
          .error (ParserException.InvalidExtensionException
            ("OID [" ++ oids.SGX_EXTENSION ++ "] expected to contain [" ++
              Int.repr PROCESSOR_CA_EXTENSION_COUNT ++ "] elements when given [" ++
              Int.repr (sk_ASN1_TYPE_num sgxExtensions) ++ "]")) := by
  unfold ProcessorPckCertificate.setMembers
  cases base.setMembers self sgxExtensions with
  | error e => rfl
  | ok self' =>
    by_cases hn : sk_ASN1_TYPE_num sgxExtensions = PROCESSOR_CA_EXTENSION_COUNT
    · simp [hn]
    · simp [hn]

/-- C14: constructing a `ProcessorPckCertificate`, from a PEM string or from a
`Certificate`, succeeds exactly when the base member extraction succeeds on the SGX
extension stack and the stack has exactly `PROCESSOR_CA_EXTENSION_COUNT` entries; for
every stack with another number of entries it fails with `InvalidExtensionException`
and yields no certificate. The base class is any one whose member extraction fails with
`InvalidExtensionException` only, as the specification states of it. -/
theorem processorPckCertificate_construction (base : PckCertificateBase)
    (hbase : ∀ self sgxExtensions e, base.setMembers self sgxExtensions = .error e →
      ∃ what, e = ParserException.InvalidExtensionException what) :
    (∀ (self : PckCertificate) (sgxExtensions : stack_st_ASN1_TYPE),
      (∀ result, ProcessorPckCertificate.setMembers base self sgxExtensions = .ok result ↔
        (base.setMembers self sgxExtensions = .ok result ∧
          sk_ASN1_TYPE_num sgxExtensions = PROCESSOR_CA_EXTENSION_COUNT)) ∧
      (sk_ASN1_TYPE_num sgxExtensions ≠ PROCESSOR_CA_EXTENSION_COUNT →
        ∃ what, ProcessorPckCertificate.setMembers base self sgxExtensions =
          .error (ParserException.InvalidExtensionException what))) ∧
    (∀ (certificate : Certificate) (self : PckCertificate)
        (sgxExtensions : stack_st_ASN1_TYPE),
      base.ofCertificate certificate = .ok self →
      base.getSgxExtensions self = .ok sgxExtensions →
      (∀ result, ProcessorPckCertificate.ofCertificate base certificate = .ok result ↔
        (base.setMembers self sgxExtensions = .ok result.toPckCertificate ∧
          sk_ASN1_TYPE_num sgxExtensions = PROCESSOR_CA_EXTENSION_COUNT)) ∧
      (sk_ASN1_TYPE_num sgxExtensions ≠ PROCESSOR_CA_EXTENSION_COUNT →
        ∃ what, ProcessorPckCertificate.ofCertificate base certificate =
          .error (ParserException.InvalidExtensionException what))) ∧
    (∀ (pem : String) (self : PckCertificate) (sgxExtensions : stack_st_ASN1_TYPE),
      base.ofPem pem = .ok self →
      base.getSgxExtensions self = .ok sgxExtensions →
      (∀ result, ProcessorPckCertificate.parse base pem = .ok result ↔
        (base.setMembers self sgxExtensions = .ok result.toPckCertificate ∧
          sk_ASN1_TYPE_num sgxExtensions = PROCESSOR_CA_EXTENSION_COUNT)) ∧
      (sk_ASN1_TYPE_num sgxExtensions ≠ PROCESSOR_CA_EXTENSION_COUNT →
        ∃ what, ProcessorPckCertificate.parse base pem =
          .error (ParserException.InvalidExtensionException what))) := by
  have hset : ∀ (self : PckCertificate) (sgxExtensions : stack_st_ASN1_TYPE),
      (∀ result, ProcessorPckCertificate.setMembers base self sgxExtensions = .ok result ↔
        (base.setMembers self sgxExtensions = .ok result ∧
          sk_ASN1_TYPE_num sgxExtensions = PROCESSOR_CA_EXTENSION_COUNT)) ∧
      (sk_ASN1_TYPE_num sgxExtensions ≠ PROCESSOR_CA_EXTENSION_COUNT →
        ∃ what, ProcessorPckCertificate.setMembers base self sgxExtensions =
          .error (ParserException.InvalidExtensionException what)) := by
    intro self sgxExtensions
    rw [processor_setMembers_of_base]
    cases hb : base.setMembers self sgxExtensions with
    | error e =>
      obtain ⟨what, hwhat⟩ := hbase self sgxExtensions e hb
      refine ⟨fun result => ⟨fun h => (by cases h), fun h => (by cases h.1)⟩, fun _ => ?_⟩
      exact ⟨what, by rw [hwhat]⟩
    | ok self' =>
      by_cases hn : sk_ASN1_TYPE_num sgxExtensions = PROCESSOR_CA_EXTENSION_COUNT
      · simp only [if_pos hn]
        exact ⟨fun result => ⟨fun h => ⟨h, hn⟩, fun h => h.1⟩, fun hne => absurd hn hne⟩
      · simp only [if_neg hn]
        exact ⟨fun result => ⟨fun h => (by cases h), fun h => absurd h.2 hn⟩,
          fun _ => ⟨_, rfl⟩⟩
  refine ⟨hset, ?_, ?_⟩
  · intro certificate self sgxExtensions hself hstack
    obtain ⟨hok, herr⟩ := hset self sgxExtensions
    unfold ProcessorPckCertificate.ofCertificate
    simp only [hself, hstack]
    constructor
    · intro result
      rw [← hok result.toPckCertificate]
      cases ProcessorPckCertificate.setMembers base self sgxExtensions with
      | error e => exact ⟨fun h => (by cases h), fun h => (by cases h)⟩
      | ok self' =>
        constructor
        · intro h; cases h; rfl
        · intro h; cases h; rfl
    · intro hne
      obtain ⟨what, hwhat⟩ := herr hne
      exact ⟨what, by rw [hwhat]⟩
  · intro pem self sgxExtensions hself hstack
    obtain ⟨hok, herr⟩ := hset self sgxExtensions
    unfold ProcessorPckCertificate.parse ProcessorPckCertificate.ofPem
    simp only [hself, hstack]
    constructor
    · intro result
      rw [← hok result.toPckCertificate]
      cases ProcessorPckCertificate.setMembers base self sgxExtensions with
      | error e => exact ⟨fun h => (by cases h), fun h => (by cases h)⟩
      | ok self' =>
        constructor
        · intro h; cases h; rfl
        · intro h; cases h; rfl
    · intro hne
      obtain ⟨what, hwhat⟩ := herr hne
      exact ⟨what, by rw [hwhat]⟩

/-- Witness for C14: the Platform certificate, whose SGX extension has seven entries, is
no `ProcessorPckCertificate`, from its PEM as from its certificate, while it is a
`PckCertificate`. -/
theorem processorPckCertificate_construction_witness :
    (∃ pck, PckCertificate.parse sample.codec "PLATFORM PCK" = .ok pck) ∧
    (∃ what, ProcessorPckCertificate.parse (PckCertificate.base sample.codec)
      "PLATFORM PCK" = .error (ParserException.InvalidExtensionException what)) ∧
    (∃ what, ProcessorPckCertificate.ofCertificate (PckCertificate.base sample.codec)
      sample.platformPckX509 = .error (ParserException.InvalidExtensionException what)) :=
  have h := processorPckCertificate_construction (PckCertificate.base sample.codec)
    (fun self sgxExtensions e he =>
      pckCertificate_setMembers_error self.toCertificate sgxExtensions e he)
  ⟨⟨_, rfl⟩,
    (h.2.2 "PLATFORM PCK" _ (some sample.platformEntries) rfl rfl).2 (by decide),
    (h.2.1 sample.platformPckX509 _ (some sample.platformEntries) rfl rfl).2 (by decide)⟩

/-- The member extraction written from the specification succeeds exactly on a stack of
the Processor or the Platform count whose first five entries are well typed. -/
theorem pckCertificate_setMembers_ok_iff (certificate : Certificate)
    (entries : List ASN1_TYPE) :
    (∃ pck, PckCertificate.setMembers certificate (some entries) = .ok pck) ↔
      ((sk_ASN1_TYPE_num (some entries) = PROCESSOR_CA_EXTENSION_COUNT ∨
          sk_ASN1_TYPE_num (some entries) = PLATFORM_CA_EXTENSION_COUNT) ∧
        PckCertificate.wellTypedEntries entries) := by
  unfold PckCertificate.setMembers PckCertificate.wellTypedEntries
  simp only
  by_cases hcount : sk_ASN1_TYPE_num (some entries) ≠ PROCESSOR_CA_EXTENSION_COUNT ∧
      sk_ASN1_TYPE_num (some entries) ≠ PLATFORM_CA_EXTENSION_COUNT
  · rw [if_pos hcount]
    constructor
    · rintro ⟨_, h⟩; cases h
    · rintro ⟨h | h, _⟩
      · exact absurd h hcount.1
      · exact absurd h hcount.2
  · rw [if_neg hcount]
    have hc : sk_ASN1_TYPE_num (some entries) = PROCESSOR_CA_EXTENSION_COUNT ∨
        sk_ASN1_TYPE_num (some entries) = PLATFORM_CA_EXTENSION_COUNT := by
      by_contra hno
      exact hcount ⟨fun h => hno (Or.inl h), fun h => hno (Or.inr h)⟩
    match entries with
    | [] => simp
    | [_] => simp
    | [_, _] => simp
    | [_, _, _] => simp
    | [_, _, _, _] => simp
    | ppid :: tcb :: pceId :: fmspc :: sgxType :: rest =>
      have hrhs : (∃ ppid' tcb' pceId' fmspc' sgxType' rest',
            ppid :: tcb :: pceId :: fmspc :: sgxType :: rest =
              ppid' :: tcb' :: pceId' :: fmspc' :: sgxType' :: rest' ∧
            (PckCertificate.octets ppid' 16).isSome = true ∧
            (PckCertificate.tcbOf tcb').isSome = true ∧
            (PckCertificate.octets pceId' 2).isSome = true ∧
            (PckCertificate.octets fmspc' 6).isSome = true ∧
            (PckCertificate.sgxTypeOf sgxType').isSome = true) ↔
          ((PckCertificate.octets ppid 16).isSome = true ∧
            (PckCertificate.tcbOf tcb).isSome = true ∧
            (PckCertificate.octets pceId 2).isSome = true ∧
            (PckCertificate.octets fmspc 6).isSome = true ∧
            (PckCertificate.sgxTypeOf sgxType).isSome = true) := by
        constructor
        · rintro ⟨_, _, _, _, _, _, heq, h⟩
          cases heq
          exact h
        · intro h
          exact ⟨ppid, tcb, pceId, fmspc, sgxType, rest, rfl, h⟩
      rw [hrhs]
      cases h1 : PckCertificate.octets ppid 16 with
      | none => simp [h1]
      | some v1 =>
      cases h2 : PckCertificate.tcbOf tcb with
      | none => simp [h1, h2]
      | some v2 =>
      cases h3 : PckCertificate.octets pceId 2 with
      | none => simp [h1, h2, h3]
      | some v3 =>
      cases h4 : PckCertificate.octets fmspc 6 with
      | none => simp [h1, h2, h3, h4]
      | some v4 =>
      cases h5 : PckCertificate.sgxTypeOf sgxType with
      | none => simp [h1, h2, h3, h4, h5]
      | some v5 => simp [h1, h2, h3, h4, h5, hc]

/-- Result of the parse written from the specification on the PEM of a certificate. -/
theorem pckCertificate_parse_of_certificate (codec : X509Codec) (pem : String)
    (certificate : Certificate) (hcert : codec.parseCertificate pem = .ok certificate) :
    PckCertificate.parse codec pem = PckCertificate.ofCertificate codec certificate := by
  unfold PckCertificate.parse PckCertificate.ofPem PckCertificate.ofCertificate
  simp only [hcert]

/-- The construction written from the specification fails on a certificate without the
SGX extension. -/
theorem pckCertificate_ofCertificate_missing (codec : X509Codec) (certificate : Certificate)
    (hfind : PckCertificate.findSgxExtension certificate = none) :
    PckCertificate.ofCertificate codec certificate =
      .error (ParserException.InvalidExtensionException
        ("Certificate is missing required extension OID [" ++ oids.SGX_EXTENSION ++ "]")) := by
  unfold PckCertificate.ofCertificate PckCertificate.getSgxExtensions
  simp only [hfind]

/-- The construction written from the specification fails on a certificate whose SGX
extension is no sequence. -/
theorem pckCertificate_ofCertificate_malformed (codec : X509Codec)
    (certificate : Certificate) (extension : Extension)
    (hfind : PckCertificate.findSgxExtension certificate = some extension)
    (hdecode : codec.decodeSequence extension.getValue = none) :
    PckCertificate.ofCertificate codec certificate =
      .error (ParserException.InvalidExtensionException
        ("OID [" ++ oids.SGX_EXTENSION ++ "] is malformed")) := by
  unfold PckCertificate.ofCertificate PckCertificate.getSgxExtensions
  simp only [hfind, hdecode]

/-- The construction written from the specification extracts the members from the entries
of the SGX extension. -/
theorem pckCertificate_ofCertificate_entries (codec : X509Codec) (certificate : Certificate)
    (extension : Extension) (entries : List ASN1_TYPE)
    (hfind : PckCertificate.findSgxExtension certificate = some extension)
    (hdecode : codec.decodeSequence extension.getValue = some entries) :
    PckCertificate.ofCertificate codec certificate =
      PckCertificate.setMembers certificate (some entries) := by
  unfold PckCertificate.ofCertificate PckCertificate.getSgxExtensions
  simp only [hfind, hdecode]

/-- The member extraction written from the specification keeps the certificate's fields. -/
theorem pckCertificate_setMembers_toCertificate (certificate : Certificate)
    (sgxExtensions : stack_st_ASN1_TYPE) (pck : PckCertificate)
    (h : PckCertificate.setMembers certificate sgxExtensions = .ok pck) :
    pck.toCertificate = certificate := by
  unfold PckCertificate.setMembers at h
  simp only at h
  split at h
  · cases h
  · split at h
    · split at h
      · cases h; rfl
      · cases h
    · cases h

/-- C15, as the claim states it, fails: the certificate of the PEM "TRUNCATED PCK" carries
the Intel SGX extension, with three entries only, and its parse fails with
`InvalidExtensionException`. -/
theorem pckCertificate_parse_counterexample :
    sample.codec.parseCertificate "TRUNCATED PCK" = .ok sample.truncatedPckX509 ∧
    (PckCertificate.findSgxExtension sample.truncatedPckX509).isSome = true ∧
    ∃ what, PckCertificate.parse sample.codec "TRUNCATED PCK" =
      .error (ParserException.InvalidExtensionException what) :=
  ⟨rfl, by decide, ⟨_, rfl⟩⟩

/-- C15, amended: `PckCertificate::parse` succeeds on the PEM of a certificate exactly
when the certificate carries the Intel SGX extension, the extension is a sequence of the
Processor or the Platform number of entries, and the entries are well typed; it then
returns the fields of that certificate. For every certificate that lacks the SGX
extension it fails with `InvalidExtensionException`. -/
theorem pckCertificate_parse_sgx_extension (codec : X509Codec) (pem : String)
    (certificate : Certificate) (hcert : codec.parseCertificate pem = .ok certificate) :
    ((∃ pck, PckCertificate.parse codec pem = .ok pck) ↔
      ∃ extension entries,
        PckCertificate.findSgxExtension certificate = some extension ∧
        codec.decodeSequence extension.getValue = some entries ∧
        (sk_ASN1_TYPE_num (some entries) = PROCESSOR_CA_EXTENSION_COUNT ∨
          sk_ASN1_TYPE_num (some entries) = PLATFORM_CA_EXTENSION_COUNT) ∧
        PckCertificate.wellTypedEntries entries) ∧
    (∀ pck, PckCertificate.parse codec pem = .ok pck → pck.toCertificate = certificate) ∧
    (PckCertificate.findSgxExtension certificate = none →
      ∃ what, PckCertificate.parse codec pem =
        .error (ParserException.InvalidExtensionException what)) := by
  rw [pckCertificate_parse_of_certificate codec pem certificate hcert]
  cases hfind : PckCertificate.findSgxExtension certificate with
  | none =>
    rw [pckCertificate_ofCertificate_missing codec certificate hfind]
    refine ⟨⟨fun h => ?_, fun h => ?_⟩, fun pck h => ?_, fun _ => ⟨_, rfl⟩⟩
    · obtain ⟨_, h⟩ := h; cases h
    · obtain ⟨_, _, h, _⟩ := h; cases h
    · cases h
  | some extension =>
    cases hdecode : codec.decodeSequence extension.getValue with
    | none =>
      rw [pckCertificate_ofCertificate_malformed codec certificate extension hfind hdecode]
      refine ⟨⟨fun h => ?_, fun h => ?_⟩, fun pck h => ?_, fun h => ?_⟩
      · obtain ⟨_, h⟩ := h; cases h
      · obtain ⟨_, _, h, h', _⟩ := h
        cases h
        rw [hdecode] at h'
        cases h'
      · cases h
      · cases h
    | some entries =>
      rw [pckCertificate_ofCertificate_entries codec certificate extension entries hfind
        hdecode]
      refine ⟨⟨fun h => ?_, fun h => ?_⟩, fun pck h => ?_, fun h => ?_⟩
      · obtain ⟨hcount, htyped⟩ := (pckCertificate_setMembers_ok_iff certificate entries).1 h
        exact ⟨extension, entries, rfl, hdecode, hcount, htyped⟩
      · obtain ⟨_, _, h, h', hcount, htyped⟩ := h
        cases h
        rw [hdecode] at h'
        cases h'
        exact (pckCertificate_setMembers_ok_iff certificate entries).2 ⟨hcount, htyped⟩
      · exact pckCertificate_setMembers_toCertificate certificate (some entries) pck h
      · cases h

/-- Witness for C15, amended: the PEM of the PCK certificate parses, and the PEMs of the
intermediate and of the root, which carry no SGX extension, fail with
`InvalidExtensionException`. -/
theorem pckCertificate_parse_sgx_extension_witness :
    (∃ pck, PckCertificate.parse sample.codec "PCK" = .ok pck) ∧
    (∃ what, PckCertificate.parse sample.codec "INTERMEDIATE" =
      .error (ParserException.InvalidExtensionException what)) ∧
    (∃ what, PckCertificate.parse sample.codec "ROOT" =
      .error (ParserException.InvalidExtensionException what)) :=
  ⟨(pckCertificate_parse_sgx_extension sample.codec "PCK" sample.pckX509 rfl).1.2
      ⟨⟨0, oids.SGX_EXTENSION, [1]⟩, sample.processorEntries, rfl, rfl, Or.inl rfl,
        ⟨_, _, _, _, _, _, rfl, rfl, rfl, rfl, rfl, rfl⟩⟩,
    (pckCertificate_parse_sgx_extension sample.codec "INTERMEDIATE" sample.intermediateCert
      rfl).2.2 rfl,
    (pckCertificate_parse_sgx_extension sample.codec "ROOT" sample.rootCert rfl).2.2 rfl⟩

/-- C16: the two construction paths of a PCK certificate agree. For every PEM, the
construction from the already parsed `Certificate` and `parse` on the PEM give the same
result, so one succeeds exactly when the other does and the two certificates have equal
version, serial number, subject, issuer, validity, extensions, signature, public key,
TCB, PPID, PCEID and SGX type; the two constructors of `ProcessorPckCertificate` agree
likewise, both applying the extension-count check; and a PEM that is no certificate
fails on both paths. -/
theorem pckCertificate_construction_paths_agree (codec : X509Codec) (pem : String) :
    (∀ certificate, codec.parseCertificate pem = .ok certificate →
      ((∃ c, PckCertificate.ofCertificate codec certificate = .ok c) ↔
        (∃ c, PckCertificate.parse codec pem = .ok c)) ∧
      (∀ c₁ c₂, PckCertificate.ofCertificate codec certificate = .ok c₁ →
        PckCertificate.parse codec pem = .ok c₂ →
        c₁.getVersion = c₂.getVersion ∧ c₁.getSerialNumber = c₂.getSerialNumber ∧
        c₁.getSubject = c₂.getSubject ∧ c₁.getIssuer = c₂.getIssuer ∧
        c₁.getValidity = c₂.getValidity ∧ c₁.getExtensions = c₂.getExtensions ∧
        c₁.getSignature = c₂.getSignature ∧ c₁.getPubKey = c₂.getPubKey ∧
        c₁.getTcb = c₂.getTcb ∧ c₁.getPpid = c₂.getPpid ∧ c₁.getPceId = c₂.getPceId ∧
        c₁.getSgxType = c₂.getSgxType) ∧
      ProcessorPckCertificate.ofCertificate (PckCertificate.base codec) certificate =
        ProcessorPckCertificate.parse (PckCertificate.base codec) pem) ∧
    (∀ e, codec.parseCertificate pem = .error e →
      PckCertificate.parse codec pem = .error e ∧
      ProcessorPckCertificate.parse (PckCertificate.base codec) pem = .error e) := by
  constructor
  · intro certificate hcert
    have hparse := pckCertificate_parse_of_certificate codec pem certificate hcert
    refine ⟨by rw [hparse], fun c₁ c₂ h₁ h₂ => ?_, ?_⟩
    · rw [hparse, h₁] at h₂
      cases h₂
      exact ⟨rfl, rfl, rfl, rfl, rfl, rfl, rfl, rfl, rfl, rfl, rfl, rfl⟩
    · unfold ProcessorPckCertificate.parse ProcessorPckCertificate.ofPem
        ProcessorPckCertificate.ofCertificate
      have hbase : (PckCertificate.base codec).ofPem pem =
          (PckCertificate.base codec).ofCertificate certificate := hparse
      rw [hbase]
  · intro e herr
    constructor
    · unfold PckCertificate.parse PckCertificate.ofPem
      simp only [herr]
    · unfold ProcessorPckCertificate.parse ProcessorPckCertificate.ofPem
      have hbase : (PckCertificate.base codec).ofPem pem = .error e := by
        show PckCertificate.ofPem codec pem = .error e
        unfold PckCertificate.ofPem
        simp only [herr]
      rw [hbase]

/-- Witness for C16: both paths succeed on the PEM of the PCK certificate, with equal
results, for `PckCertificate` and for `ProcessorPckCertificate`. -/
theorem pckCertificate_construction_paths_agree_witness :
    (∃ c, PckCertificate.parse sample.codec "PCK" = .ok c) ∧
    (∃ c, PckCertificate.ofCertificate sample.codec sample.pckX509 = .ok c) ∧
    (∃ c, ProcessorPckCertificate.parse (PckCertificate.base sample.codec) "PCK" = .ok c) ∧
    ProcessorPckCertificate.ofCertificate (PckCertificate.base sample.codec) sample.pckX509 =
      ProcessorPckCertificate.parse (PckCertificate.base sample.codec) "PCK" :=
  have h := (pckCertificate_construction_paths_agree sample.codec "PCK").1 sample.pckX509 rfl
  ⟨⟨_, rfl⟩, h.1.2 ⟨_, rfl⟩, ⟨_, rfl⟩, h.2.2⟩

/-- The comparison written from the specification holds exactly of equal certificates. -/
theorem pckCertificate_equals_iff (a b : PckCertificate) :
    PckCertificate.equals a b = true ↔ a = b := by
  unfold PckCertificate.equals Certificate.equals
  simp only [Bool.and_eq_true, decide_eq_true_eq]
  constructor
  · rintro ⟨⟨⟨⟨⟨⟨⟨⟨⟨⟨⟨⟨h1, h2⟩, h3⟩, h4⟩, h5⟩, h6⟩, h7⟩, h8⟩, h9⟩, h10⟩, h11⟩, h12⟩, h13⟩
    obtain ⟨⟨v, sn, su, is, va, ex, si, pk⟩, pp, pc, fm, tc, ty⟩ := a
    obtain ⟨⟨v', sn', su', is', va', ex', si', pk'⟩, pp', pc', fm', tc', ty'⟩ := b
    simp only at h1 h2 h3 h4 h5 h6 h7 h8 h9 h10 h11 h12 h13
    subst h1 h2 h3 h4 h5 h6 h7 h8 h9 h10 h11 h12 h13
    rfl
  · rintro rfl
    exact ⟨⟨⟨⟨⟨⟨⟨⟨⟨⟨⟨⟨rfl, rfl⟩, rfl⟩, rfl⟩, rfl⟩, rfl⟩, rfl⟩, rfl⟩, rfl⟩, rfl⟩, rfl⟩, rfl⟩, rfl⟩

/-- C18: certificate equality. Two parses of the same PEM compare equal under
`operator==`; and two parsed PCK certificates whose versions differ, whatever their
other fields are, compare unequal, in either order. -/
theorem pckCertificate_equality (codec : X509Codec) :
    (∀ pem c₁ c₂, PckCertificate.parse codec pem = .ok c₁ →
      PckCertificate.parse codec pem = .ok c₂ → PckCertificate.equals c₁ c₂ = true) ∧
    (∀ pem pem' c₁ c₃, PckCertificate.parse codec pem = .ok c₁ →
      PckCertificate.parse codec pem' = .ok c₃ → c₁.getVersion ≠ c₃.getVersion →
      PckCertificate.equals c₁ c₃ = false ∧ PckCertificate.equals c₃ c₁ = false) := by
  constructor
  · intro pem c₁ c₂ h₁ h₂
    rw [h₁] at h₂
    cases h₂
    exact (pckCertificate_equals_iff c₁ c₁).2 rfl
  · intro pem pem' c₁ c₃ _ _ hversion
    constructor
    · cases heq : PckCertificate.equals c₁ c₃ with
      | false => rfl
      | true =>
        have h := (pckCertificate_equals_iff c₁ c₃).1 heq
        exact absurd (by rw [h]) hversion
    · cases heq : PckCertificate.equals c₃ c₁ with
      | false => rfl
      | true =>
        have h := (pckCertificate_equals_iff c₃ c₁).1 heq
        exact absurd (by rw [h]) hversion

/-- Witness for C18: the PCK certificate parsed twice compares equal, and it compares
unequal to the parse of the certificate that differs from it in the version only. -/
theorem pckCertificate_equality_witness :
    (∃ c₁ c₃, PckCertificate.parse sample.codec "PCK" = .ok c₁ ∧
      PckCertificate.parse sample.codec "PCK NEXT VERSION" = .ok c₃ ∧
      c₃ = { c₁ with getVersion := 4 } ∧
      PckCertificate.equals c₁ c₁ = true ∧
      PckCertificate.equals c₁ c₃ = false ∧ PckCertificate.equals c₃ c₁ = false) :=
  have h := pckCertificate_equality sample.codec
  ⟨_, _, rfl, rfl, rfl, h.1 "PCK" _ _ rfl rfl,
    h.2 "PCK" "PCK NEXT VERSION" _ _ rfl rfl (by decide)⟩

/-- C22: `PckCertVerifier::verify` depends on the trusted root only through its subject,
its issuer and the raw DER bytes of its signature: two trusted roots that agree on the
three get the same status under equal other arguments and every behaviour of the
collaborators, so the trusted root reaches no collaborator and its public key, validity
and extensions have no influence; and once rules 1 to 4 hold, the trusted root is
rejected as not self-signed exactly when its subject differs from its issuer. -/
theorem pckCertVerifier_verify_trusted_root_fields (self : PckCertVerifier)
    (chain : CertificateChain) (rootCaCrl intermediateCrl : CrlStore)
    (rootCa rootCa' : Certificate) (expirationDate : time_t)
    (hsubject : rootCa.getSubject = rootCa'.getSubject)
    (hissuer : rootCa.getIssuer = rootCa'.getIssuer)
    (hder : rootCa.getSignature.getRawDer = rootCa'.getSignature.getRawDer) :
    self.verify chain rootCaCrl intermediateCrl rootCa expirationDate =
      self.verify chain rootCaCrl intermediateCrl rootCa' expirationDate ∧
    ∀ (root intermediate : Certificate) (pck : PckCertificate),
      PckChainRules.slotsClassified chain root intermediate pck →
      self._commonVerifier.verifyRootCACert root = STATUS_OK →
      self._commonVerifier.verifyIntermediate intermediate root = STATUS_OK →
      self.verifyPCKCert pck intermediate = STATUS_OK →
      rootCa.getSubject ≠ rootCa.getIssuer →
      self.verify chain rootCaCrl intermediateCrl rootCa expirationDate =
        STATUS_TRUSTED_ROOT_CA_INVALID := by
  constructor
  · unfold PckCertVerifier.verify
    rw [hsubject, hissuer, hder]
  · rintro r i p ⟨hr, hi, hp, c1, c2, c3⟩ c4 c5 c6 hself
    rw [verify_of_slots self chain rootCaCrl intermediateCrl rootCa expirationDate r i p
      hr hi hp, if_neg (by simp [c1]), if_neg (by simp [c2]), if_neg (by simp [c3]),
      if_neg (by simp [c4]), if_neg (by simp [c5]), if_neg (by simp [c6]), if_pos hself]

/-- Witness for C22: the sample chain is accepted at 2000 against a trusted root whose
validity ended at 1 and whose key, serial number and extensions are others, as it is
against its own root. -/
theorem pckCertVerifier_verify_trusted_root_fields_witness :
    sample.rootCert ≠ sample.rekeyedRootCert ∧
    sample.pckCertVerifier.verify sample.pckChain sample.rootCaCrl sample.intermediateCrl
        sample.rootCert 2000 =
      sample.pckCertVerifier.verify sample.pckChain sample.rootCaCrl sample.intermediateCrl
        sample.rekeyedRootCert 2000 :=
  ⟨by decide,
    (pckCertVerifier_verify_trusted_root_fields sample.pckCertVerifier sample.pckChain
      sample.rootCaCrl sample.intermediateCrl sample.rootCert sample.rekeyedRootCert 2000
      rfl rfl rfl).1⟩

/-- C24: `EnclaveIdentityVerifier::verify` makes no presence check of its own: with an
accepted signing chain it fails on an absent topmost certificate, and on an absent root
certificate once the signature and the signing certificate's validity are checked. When
the TCB signing chain verifier returns `STATUS_OK` only for chains whose topmost and root
certificates are both present, `verify` reads no absent certificate and returns a status
for every input; and when the signing chain verifier returns another status, that status
is returned whichever certificates the chain has. -/
theorem enclaveIdentityVerifier_verify_presence (self : EnclaveIdentityVerifier)
    (hpre : ∀ chain rootCaCrl trustedRoot,
      self._tcbSigningChain.verify chain rootCaCrl trustedRoot = STATUS_OK →
      (∃ t, chain.getTopmostCert = some t) ∧ (∃ r, chain.getRootCert = some r)) :
    (∀ enclaveIdentity chain rootCaCrl trustedRoot expirationDate,
      ∃ status,
        self.verify enclaveIdentity chain rootCaCrl trustedRoot expirationDate =
          some status) ∧
    (∀ enclaveIdentity chain rootCaCrl trustedRoot expirationDate,
      self._tcbSigningChain.verify chain rootCaCrl trustedRoot ≠ STATUS_OK →
      self.verify enclaveIdentity chain rootCaCrl trustedRoot expirationDate =
        some (self._tcbSigningChain.verify chain rootCaCrl trustedRoot)) ∧
    (∀ (other : EnclaveIdentityVerifier) enclaveIdentity chain rootCaCrl trustedRoot
        expirationDate,
      other._tcbSigningChain.verify chain rootCaCrl trustedRoot = STATUS_OK →
      (chain.getTopmostCert = none →
        other.verify enclaveIdentity chain rootCaCrl trustedRoot expirationDate = none) ∧
      (∀ t, chain.getTopmostCert = some t →
        other._commonVerifier.checkSha256EcdsaSignature enclaveIdentity.getSignature
          enclaveIdentity.getBody t.getPubKey = true →
        expirationDate ≤ t.getValidity.getNotAfterTime →
        chain.getRootCert = none →
        other.verify enclaveIdentity chain rootCaCrl trustedRoot expirationDate = none)) := by
  refine ⟨?_, ?_, ?_⟩
  · intro enclaveIdentity chain rootCaCrl trustedRoot expirationDate
    by_cases hs : self._tcbSigningChain.verify chain rootCaCrl trustedRoot = STATUS_OK
    · obtain ⟨⟨t, ht⟩, ⟨r, hr⟩⟩ := hpre chain rootCaCrl trustedRoot hs
      rw [enclaveIdentity_verify_of_topmost self enclaveIdentity chain rootCaCrl trustedRoot
        expirationDate t hs ht]
      by_cases e1 : self._commonVerifier.checkSha256EcdsaSignature
          enclaveIdentity.getSignature enclaveIdentity.getBody t.getPubKey = false
      · rw [if_pos e1]; exact ⟨_, rfl⟩
      rw [if_neg e1]
      by_cases e2 : expirationDate > t.getValidity.getNotAfterTime
      · rw [if_pos e2]; exact ⟨_, rfl⟩
      rw [if_neg e2, hr]
      simp only
      by_cases e3 : expirationDate > r.getValidity.getNotAfterTime
      · rw [if_pos e3]; exact ⟨_, rfl⟩
      rw [if_neg e3]
      by_cases e4 : rootCaCrl.expired expirationDate = true
      · rw [if_pos e4]; exact ⟨_, rfl⟩
      rw [if_neg e4]
      by_cases e5 : expirationDate > enclaveIdentity.getNextUpdate
      · rw [if_pos e5]; exact ⟨_, rfl⟩
      rw [if_neg e5]; exact ⟨_, rfl⟩
    · unfold EnclaveIdentityVerifier.verify
      simp only [ne_eq, hs, not_false_eq_true, if_true]
      exact ⟨_, rfl⟩
  · intro enclaveIdentity chain rootCaCrl trustedRoot expirationDate hs
    unfold EnclaveIdentityVerifier.verify
    simp only [ne_eq, hs, not_false_eq_true, if_true]
  · intro other enclaveIdentity chain rootCaCrl trustedRoot expirationDate hs
    constructor
    · intro ht
      unfold EnclaveIdentityVerifier.verify
      simp only [hs, ht, ne_eq, not_true_eq_false, if_false]
    · intro t ht hsig hexp hr
      rw [enclaveIdentity_verify_of_topmost other enclaveIdentity chain rootCaCrl trustedRoot
        expirationDate t hs ht, if_neg (by simp [hsig]), if_neg (not_lt.mpr hexp), hr]

/-- The sample signing chain verifier accepts only chains with both certificates. -/
theorem sample_tcbSigningChain_presence (chain : CertificateChain) (rootCaCrl : CrlStore)
    (trustedRoot : Certificate)
    (h : sample.tcbSigningChain.verify chain rootCaCrl trustedRoot = STATUS_OK) :
    (∃ t, chain.getTopmostCert = some t) ∧ (∃ r, chain.getRootCert = some r) := by
  unfold sample.tcbSigningChain at h
  simp only at h
  cases hr : chain.getRootCert with
  | none =>
    cases ht : chain.getTopmostCert with
    | none => rw [hr, ht] at h; simp at h
    | some t => rw [hr, ht] at h; simp at h
  | some r =>
    cases ht : chain.getTopmostCert with
    | none => rw [hr, ht] at h; simp at h
    | some t => exact ⟨⟨t, rfl⟩, ⟨r, rfl⟩⟩

/-- Witness for C24: with the sample signing chain verifier, the chain without any
certificate gets the verifier's status and the sample chain gets a status. -/
theorem enclaveIdentityVerifier_verify_presence_witness :
    sample.enclaveIdentityVerifier.verify sample.enclaveIdentity sample.emptyChain
        sample.rootCaCrl sample.rootCert 2000 =
      some STATUS_SGX_TCB_SIGNING_CERT_MISSING ∧
    ∃ status, sample.enclaveIdentityVerifier.verify sample.enclaveIdentity sample.tcbChain
        sample.rootCaCrl sample.rootCert 2000 = some status :=
  have h := enclaveIdentityVerifier_verify_presence sample.enclaveIdentityVerifier
    sample_tcbSigningChain_presence
  ⟨h.2.1 sample.enclaveIdentity sample.emptyChain sample.rootCaCrl sample.rootCert 2000
      (by decide),
    h.1 sample.enclaveIdentity sample.tcbChain sample.rootCaCrl sample.rootCert 2000⟩

/-- Either `PckCertVerifier::verify` leaves before the expiration checks, with a status
that is the same for every `expirationDate`, or rules 1 to 8 hold. -/
theorem verify_early_or_rules1to8 (self : PckCertVerifier) (chain : CertificateChain)
    (rootCaCrl intermediateCrl : CrlStore) (rootCa : Certificate) :
    (∃ status, ∀ t : time_t,
      self.verify chain rootCaCrl intermediateCrl rootCa t = status) ∨
    (∃ (r i : Certificate) (p : PckCertificate),
      PckChainRules.rules1to8 self chain rootCaCrl intermediateCrl rootCa r i p) := by
  cases hr : chain.getRootCert with
  | none =>
    exact Or.inl ⟨_, fun t =>
      verify_root_absent self chain rootCaCrl intermediateCrl rootCa t hr⟩
  | some r =>
  cases hi : chain.getIntermediateCert with
  | none =>
    exact Or.inl ⟨_, fun t =>
      verify_intermediate_absent self chain rootCaCrl intermediateCrl rootCa t r hr hi⟩
  | some i =>
  cases hp : chain.getPckCert with
  | none =>
    exact Or.inl ⟨_, fun t =>
      verify_pck_absent self chain rootCaCrl intermediateCrl rootCa t r i hr hi hp⟩
  | some p =>
    have v0 := fun t : time_t =>
      verify_of_slots self chain rootCaCrl intermediateCrl rootCa t r i p hr hi hp
    by_cases d1 : BaseVerifier.commonNameContains r.getSubject
        constants.SGX_ROOT_CA_CN_PHRASE = false
    · exact Or.inl ⟨_, fun t => (v0 t).trans (if_pos d1)⟩
    have v1 := fun t : time_t => (v0 t).trans (if_neg d1)
    by_cases d2 : BaseVerifier.commonNameContains i.getSubject
        constants.SGX_INTERMEDIATE_CN_PHRASE = false
    · exact Or.inl ⟨_, fun t => (v1 t).trans (if_pos d2)⟩
    have v2 := fun t : time_t => (v1 t).trans (if_neg d2)
    by_cases d3 : BaseVerifier.commonNameContains p.getSubject
        constants.SGX_PCK_CN_PHRASE = false
    · exact Or.inl ⟨_, fun t => (v2 t).trans (if_pos d3)⟩
    have v3 := fun t : time_t => (v2 t).trans (if_neg d3)
    by_cases d4 : self._commonVerifier.verifyRootCACert r ≠ STATUS_OK
    · exact Or.inl ⟨_, fun t => (v3 t).trans (if_pos d4)⟩
    have v4 := fun t : time_t => (v3 t).trans (if_neg d4)
    by_cases d5 : self._commonVerifier.verifyIntermediate i r ≠ STATUS_OK
    · exact Or.inl ⟨_, fun t => (v4 t).trans (if_pos d5)⟩
    have v5 := fun t : time_t => (v4 t).trans (if_neg d5)
    by_cases d6 : self.verifyPCKCert p i ≠ STATUS_OK
    · exact Or.inl ⟨_, fun t => (v5 t).trans (if_pos d6)⟩
    have v6 := fun t : time_t => (v5 t).trans (if_neg d6)
    by_cases d7 : rootCa.getSubject ≠ rootCa.getIssuer
    · exact Or.inl ⟨_, fun t => (v6 t).trans (if_pos d7)⟩
    have v7 := fun t : time_t => (v6 t).trans (if_neg d7)
    by_cases d8 : r.getSignature.getRawDer ≠ rootCa.getSignature.getRawDer
    · exact Or.inl ⟨_, fun t => (v7 t).trans (if_pos d8)⟩
    have v8 := fun t : time_t => (v7 t).trans (if_neg d8)
    by_cases d9 : self._crlVerifier.verify rootCaCrl r ≠ STATUS_OK
    · exact Or.inl ⟨_, fun t => (v8 t).trans (if_pos d9)⟩
    have v9 := fun t : time_t => (v8 t).trans (if_neg d9)
    by_cases d10 : self._crlVerifier.verify intermediateCrl i ≠ STATUS_OK
    · exact Or.inl ⟨_, fun t => (v9 t).trans (if_pos d10)⟩
    have v10 := fun t : time_t => (v9 t).trans (if_neg d10)
    by_cases d11 : rootCaCrl.isRevoked i = true
    · exact Or.inl ⟨_, fun t => (v10 t).trans (if_pos d11)⟩
    have v11 := fun t : time_t => (v10 t).trans (if_neg d11)
    by_cases d12 : intermediateCrl.isRevoked p.toCertificate = true
    · exact Or.inl ⟨_, fun t => (v11 t).trans (if_pos d12)⟩
    exact Or.inr ⟨r, i, p,
      ⟨⟨⟨⟨⟨hr, hi, hp, by simpa using d1, by simpa using d2, by simpa using d3⟩,
        not_not.mp d4, not_not.mp d5, not_not.mp d6, not_not.mp d7⟩, not_not.mp d8⟩,
        not_not.mp d9, not_not.mp d10⟩, by simpa using d11, by simpa using d12⟩⟩

/-- C25: the verdicts are monotone in `expirationDate`. With CRLs whose `expired` is
monotone, a `STATUS_OK` of `PckCertVerifier::verify`, and of
`EnclaveIdentityVerifier::verify`, at an `expirationDate` holds at every earlier one,
however early, no `notBefore` being consulted; and for every input a verdict that is
neither `STATUS_OK` nor an expiration status is the verdict at every `expirationDate`,
so that a change of `expirationDate` moves a verdict between `STATUS_OK` and the
expiration statuses only. -/
theorem verify_monotone_in_expirationDate (pckVerifier : PckCertVerifier)
    (identityVerifier : EnclaveIdentityVerifier) (chain tcbChain : CertificateChain)
    (rootCaCrl intermediateCrl : CrlStore) (rootCa : Certificate)
    (enclaveIdentity : EnclaveIdentityV2)
    (hroot : ∀ t t' : time_t, t ≤ t' → rootCaCrl.expired t = true →
      rootCaCrl.expired t' = true)
    (hintermediate : ∀ t t' : time_t, t ≤ t' → intermediateCrl.expired t = true →
      intermediateCrl.expired t' = true) :
    (∀ t t' : time_t, t' ≤ t →
      pckVerifier.verify chain rootCaCrl intermediateCrl rootCa t = STATUS_OK →
      pckVerifier.verify chain rootCaCrl intermediateCrl rootCa t' = STATUS_OK) ∧
    (∀ t t' : time_t, t' ≤ t →
      identityVerifier.verify enclaveIdentity tcbChain rootCaCrl rootCa t = some STATUS_OK →
      identityVerifier.verify enclaveIdentity tcbChain rootCaCrl rootCa t' =
        some STATUS_OK) ∧
    (∀ (t t' : time_t) (status : Status),
      pckVerifier.verify chain rootCaCrl intermediateCrl rootCa t = status →
      ¬ PckChainRules.isExpirationVerdict status →
      pckVerifier.verify chain rootCaCrl intermediateCrl rootCa t' = status) ∧
    (∀ (t t' : time_t) (status : Status),
      identityVerifier.verify enclaveIdentity tcbChain rootCaCrl rootCa t = some status →
      ¬ PckChainRules.isExpirationVerdict status →
      identityVerifier.verify enclaveIdentity tcbChain rootCaCrl rootCa t' =
        some status) := by
  refine ⟨?_, ?_, ?_, ?_⟩
  · intro t t' hle hok
    obtain ⟨r, i, p, hr, hi, hp, c1, c2, c3, c4, c5, c6, c7, c8, c9, c10, c11, c12, c13, c14,
      c15, c16, c17, c18⟩ :=
      verify_ok_conditions pckVerifier chain rootCaCrl intermediateCrl rootCa t hok
    have hpck : pckVerifier.verifyPCKCert p i = STATUS_OK :=
      (verifyPCKCert_accepts pckVerifier p i).2 ⟨c6, c7⟩
    have e1 : rootCaCrl.expired t' = false := by
      cases h : rootCaCrl.expired t' with
      | false => rfl
      | true => rw [hroot t' t hle h] at c17; cases c17
    have e2 : intermediateCrl.expired t' = false := by
      cases h : intermediateCrl.expired t' with
      | false => rfl
      | true => rw [hintermediate t' t hle h] at c18; cases c18
    rw [verify_of_slots pckVerifier chain rootCaCrl intermediateCrl rootCa t' r i p hr hi hp,
      if_neg (by simp [c1]), if_neg (by simp [c2]), if_neg (by simp [c3]),
      if_neg (by simp [c4]), if_neg (by simp [c5]), if_neg (by simp [hpck]),
      if_neg (by simp [c8]), if_neg (by simp [c9]), if_neg (by simp [c10]),
      if_neg (by simp [c11]), if_neg (by simp [c12]), if_neg (by simp [c13]),
      if_neg (not_lt.mpr (le_trans hle c14)), if_neg (not_lt.mpr (le_trans hle c15)),
      if_neg (not_lt.mpr (le_trans hle c16)), if_neg (by simp [e1]), if_neg (by simp [e2])]
  · intro t t' hle hok
    by_cases hs : identityVerifier._tcbSigningChain.verify tcbChain rootCaCrl rootCa =
        STATUS_OK
    · cases ht : tcbChain.getTopmostCert with
      | none =>
        unfold EnclaveIdentityVerifier.verify at hok
        simp [hs, ht] at hok
      | some c =>
        rw [enclaveIdentity_verify_of_topmost identityVerifier enclaveIdentity tcbChain
          rootCaCrl rootCa t c hs ht] at hok
        by_cases e1 : identityVerifier._commonVerifier.checkSha256EcdsaSignature
            enclaveIdentity.getSignature enclaveIdentity.getBody c.getPubKey = false
        · rw [if_pos e1] at hok; exact absurd hok (by decide)
        rw [if_neg e1] at hok
        by_cases e2 : t > c.getValidity.getNotAfterTime
        · rw [if_pos e2] at hok; exact absurd hok (by decide)
        rw [if_neg e2] at hok
        cases hr : tcbChain.getRootCert with
        | none => rw [hr] at hok; cases hok
        | some r =>
          rw [hr] at hok
          simp only at hok
          by_cases e3 : t > r.getValidity.getNotAfterTime
          · rw [if_pos e3] at hok; exact absurd hok (by decide)
          rw [if_neg e3] at hok
          by_cases e4 : rootCaCrl.expired t = true
          · rw [if_pos e4] at hok; exact absurd hok (by decide)
          rw [if_neg e4] at hok
          by_cases e5 : t > enclaveIdentity.getNextUpdate
          · rw [if_pos e5] at hok; exact absurd hok (by decide)
          have e4' : ¬ rootCaCrl.expired t' = true := fun h => e4 (hroot t' t hle h)
          rw [enclaveIdentity_verify_of_root identityVerifier enclaveIdentity tcbChain
            rootCaCrl rootCa t' c r hs ht (by simpa using e1)
            (le_trans hle (not_lt.mp e2)) hr,
            if_neg (not_lt.mpr (le_trans hle (not_lt.mp e3))), if_neg e4',
            if_neg (not_lt.mpr (le_trans hle (not_lt.mp e5)))]
    · unfold EnclaveIdentityVerifier.verify at hok
      simp only [ne_eq, hs, not_false_eq_true, if_true, Option.some.injEq] at hok
  · intro t t' status hstatus hnot
    rcases verify_early_or_rules1to8 pckVerifier chain rootCaCrl intermediateCrl rootCa with
      ⟨s, hs⟩ | ⟨r, i, p, h8⟩
    · rw [hs t', ← hstatus, hs t]
    · exfalso
      apply hnot
      rw [← hstatus, verify_after_rule8 pckVerifier chain rootCaCrl intermediateCrl rootCa t
        r i p h8]
      by_cases e1 : t > r.getValidity.getNotAfterTime
      · rw [if_pos e1]; exact Or.inr (Or.inl rfl)
      rw [if_neg e1]
      by_cases e2 : t > i.getValidity.getNotAfterTime
      · rw [if_pos e2]; exact Or.inr (Or.inl rfl)
      rw [if_neg e2]
      by_cases e3 : t > p.getValidity.getNotAfterTime
      · rw [if_pos e3]; exact Or.inr (Or.inl rfl)
      rw [if_neg e3]
      by_cases e4 : rootCaCrl.expired t = true
      · rw [if_pos e4]; exact Or.inr (Or.inr (Or.inr (Or.inl rfl)))
      rw [if_neg e4]
      by_cases e5 : intermediateCrl.expired t = true
      · rw [if_pos e5]; exact Or.inr (Or.inr (Or.inr (Or.inl rfl)))
      rw [if_neg e5]; exact Or.inl rfl
  · intro t t' status hstatus hnot
    by_cases hs : identityVerifier._tcbSigningChain.verify tcbChain rootCaCrl rootCa =
        STATUS_OK
    · cases ht : tcbChain.getTopmostCert with
      | none =>
        unfold EnclaveIdentityVerifier.verify at hstatus
        simp [hs, ht] at hstatus
      | some c =>
        rw [enclaveIdentity_verify_of_topmost identityVerifier enclaveIdentity tcbChain
          rootCaCrl rootCa t c hs ht] at hstatus
        rw [enclaveIdentity_verify_of_topmost identityVerifier enclaveIdentity tcbChain
          rootCaCrl rootCa t' c hs ht]
        by_cases e1 : identityVerifier._commonVerifier.checkSha256EcdsaSignature
            enclaveIdentity.getSignature enclaveIdentity.getBody c.getPubKey = false
        · rw [if_pos e1] at hstatus ⊢; exact hstatus
        exfalso
        apply hnot
        rw [if_neg e1] at hstatus
        by_cases e2 : t > c.getValidity.getNotAfterTime
        · rw [if_pos e2] at hstatus; cases hstatus; exact Or.inr (Or.inr (Or.inl rfl))
        rw [if_neg e2] at hstatus
        cases hr : tcbChain.getRootCert with
        | none => rw [hr] at hstatus; cases hstatus
        | some r =>
          rw [hr] at hstatus
          simp only at hstatus
          by_cases e3 : t > r.getValidity.getNotAfterTime
          · rw [if_pos e3] at hstatus; cases hstatus; exact Or.inr (Or.inr (Or.inl rfl))
          rw [if_neg e3] at hstatus
          by_cases e4 : rootCaCrl.expired t = true
          · rw [if_pos e4] at hstatus; cases hstatus
            exact Or.inr (Or.inr (Or.inr (Or.inl rfl)))
          rw [if_neg e4] at hstatus
          by_cases e5 : t > enclaveIdentity.getNextUpdate
          · rw [if_pos e5] at hstatus; cases hstatus
            exact Or.inr (Or.inr (Or.inr (Or.inr rfl)))
          rw [if_neg e5] at hstatus; cases hstatus; exact Or.inl rfl
    · unfold EnclaveIdentityVerifier.verify at hstatus ⊢
      simp only [ne_eq, hs, not_false_eq_true, if_true] at hstatus ⊢
      exact hstatus

/-- The CRLs of the sample collateral have a monotone `expired`. -/
theorem sample_crlStore_expired_monotone (issuer : DistinguishedName)
    (validity : CrlValidity) (revoked : List Bytes) (t t' : time_t) (hle : t ≤ t')
    (h : (sample.crlStore issuer validity revoked).expired t = true) :
    (sample.crlStore issuer validity revoked).expired t' = true := by
  unfold sample.crlStore at h ⊢
  simp only [decide_eq_true_eq] at h ⊢
  exact lt_of_lt_of_le h hle

/-- Witness for C25: the sample chain and the sample identity, accepted at 4000, are
accepted at 0, before the `notBefore` of every certificate and CRL. -/
theorem verify_monotone_in_expirationDate_witness :
    (0 : time_t) < sample.rootCert.getValidity.getNotBeforeTime ∧
    sample.pckCertVerifier.verify sample.pckChain sample.rootCaCrl sample.intermediateCrl
        sample.rootCert 0 = STATUS_OK ∧
    sample.enclaveIdentityVerifier.verify sample.enclaveIdentity sample.tcbChain
        sample.rootCaCrl sample.rootCert 0 = some STATUS_OK :=
  have h := verify_monotone_in_expirationDate sample.pckCertVerifier
    sample.enclaveIdentityVerifier sample.pckChain sample.tcbChain sample.rootCaCrl
    sample.intermediateCrl sample.rootCert sample.enclaveIdentity
    (sample_crlStore_expired_monotone _ _ _) (sample_crlStore_expired_monotone _ _ _)
  ⟨by decide, h.1 4000 0 (by decide) (by decide), h.2.1 4000 0 (by decide) (by decide)⟩

/-- The status of `verifyPCKCert` does not depend on its log. -/
theorem verifyPCKCertTraced_status (self : PckCertVerifier) (pckCert : PckCertificate)
    (intermediate : Certificate) :
    (self.verifyPCKCertTraced pckCert intermediate).1 =
      self.verifyPCKCert pckCert intermediate := by
  unfold PckCertVerifier.verifyPCKCertTraced PckCertVerifier.verifyPCKCert
  by_cases h1 : pckCert.getIssuer ≠ intermediate.getSubject
  · rw [if_pos h1, if_pos h1]
  · rw [if_neg h1, if_neg h1]
    by_cases h2 : (!self._commonVerifier.checkSignature pckCert.toCertificate
        intermediate) = true
    · rw [if_pos h2, if_pos h2]
    · rw [if_neg h2, if_neg h2]

/-- C23: `PckCertVerifier::verify` is total and reads no absent certificate. Written with
every dereference of the three chain pointers, the function fails on no chain, whichever
slots are absent: it returns the status of `verify` and a log, each pointer being
dereferenced only after its presence check. -/
theorem pckCertVerifier_verify_total (self : PckCertVerifier) (chain : CertificateChain)
    (rootCaCrl intermediateCrl : CrlStore) (rootCa : Certificate) (expirationDate : time_t) :
    ∃ log, self.verifyTraced chain rootCaCrl intermediateCrl rootCa expirationDate =
      some (self.verify chain rootCaCrl intermediateCrl rootCa expirationDate, log) := by
  cases hr : chain.getRootCert with
  | none =>
    unfold PckCertVerifier.verifyTraced
    rw [hr]
    simp only [Option.isNone, if_true]
    exact ⟨_, by
      rw [verify_root_absent self chain rootCaCrl intermediateCrl rootCa expirationDate hr]⟩
  | some r =>
  cases hi : chain.getIntermediateCert with
  | none =>
    have hv := verify_intermediate_absent self chain rootCaCrl intermediateCrl rootCa
      expirationDate r hr hi
    unfold PckCertVerifier.verifyTraced
    rw [hr]
    simp only [hi, deref, Option.isNone, Bool.false_eq_true, if_false, Bool.not_eq_true',
      if_true]
    by_cases d1 : BaseVerifier.commonNameContains r.getSubject
        constants.SGX_ROOT_CA_CN_PHRASE = false
    · rw [if_pos d1]; exact ⟨_, by rw [hv.trans (if_pos d1)]⟩
    · rw [if_neg d1]; exact ⟨_, by rw [hv.trans (if_neg d1)]⟩
  | some i =>
  cases hp : chain.getPckCert with
  | none =>
    have hv := verify_pck_absent self chain rootCaCrl intermediateCrl rootCa expirationDate
      r i hr hi hp
    unfold PckCertVerifier.verifyTraced
    rw [hr]
    simp only [hi, hp, deref, Option.isNone, Bool.false_eq_true, if_false,
      Bool.not_eq_true', if_true]
    by_cases d1 : BaseVerifier.commonNameContains r.getSubject
        constants.SGX_ROOT_CA_CN_PHRASE = false
    · rw [if_pos d1]; exact ⟨_, by rw [hv.trans (if_pos d1)]⟩
    rw [if_neg d1]
    have hv := hv.trans (if_neg d1)
    by_cases d2 : BaseVerifier.commonNameContains i.getSubject
        constants.SGX_INTERMEDIATE_CN_PHRASE = false
    · rw [if_pos d2]; exact ⟨_, by rw [hv.trans (if_pos d2)]⟩
    · rw [if_neg d2]; exact ⟨_, by rw [hv.trans (if_neg d2)]⟩
  | some p =>
    have v0 := verify_of_slots self chain rootCaCrl intermediateCrl rootCa expirationDate
      r i p hr hi hp
    unfold PckCertVerifier.verifyTraced
    rw [hr]
    simp only [hi, hp, deref, Option.isNone, Bool.false_eq_true, if_false,
      Bool.not_eq_true']
    rw [verifyPCKCertTraced_status]
    by_cases d1 : BaseVerifier.commonNameContains r.getSubject
        constants.SGX_ROOT_CA_CN_PHRASE = false
    · rw [if_pos d1]; exact ⟨_, by rw [v0.trans (if_pos d1)]⟩
    rw [if_neg d1]
    have v1 := v0.trans (if_neg d1)
    by_cases d2 : BaseVerifier.commonNameContains i.getSubject
        constants.SGX_INTERMEDIATE_CN_PHRASE = false
    · rw [if_pos d2]; exact ⟨_, by rw [v1.trans (if_pos d2)]⟩
    rw [if_neg d2]
    have v2 := v1.trans (if_neg d2)
    by_cases d3 : BaseVerifier.commonNameContains p.getSubject
        constants.SGX_PCK_CN_PHRASE = false
    · rw [if_pos d3]; exact ⟨_, by rw [v2.trans (if_pos d3)]⟩
    rw [if_neg d3]
    have v3 := v2.trans (if_neg d3)
    by_cases d4 : self._commonVerifier.verifyRootCACert r ≠ STATUS_OK
    · rw [if_pos d4]; exact ⟨_, by rw [v3.trans (if_pos d4)]⟩
    rw [if_neg d4]
    have v4 := v3.trans (if_neg d4)
    by_cases d5 : self._commonVerifier.verifyIntermediate i r ≠ STATUS_OK
    · rw [if_pos d5]; exact ⟨_, by rw [v4.trans (if_pos d5)]⟩
    rw [if_neg d5]
    have v5 := v4.trans (if_neg d5)
    by_cases d6 : self.verifyPCKCert p i ≠ STATUS_OK
    · rw [if_pos d6]; exact ⟨_, by rw [v5.trans (if_pos d6)]⟩
    rw [if_neg d6]
    have v6 := v5.trans (if_neg d6)
    by_cases d7 : rootCa.getSubject ≠ rootCa.getIssuer
    · rw [if_pos d7]; exact ⟨_, by rw [v6.trans (if_pos d7)]⟩
    rw [if_neg d7]
    have v7 := v6.trans (if_neg d7)
    by_cases d8 : r.getSignature.getRawDer ≠ rootCa.getSignature.getRawDer
    · rw [if_pos d8]; exact ⟨_, by rw [v7.trans (if_pos d8)]⟩
    rw [if_neg d8]
    have v8 := v7.trans (if_neg d8)
    by_cases d9 : self._crlVerifier.verify rootCaCrl r ≠ STATUS_OK
    · rw [if_pos d9]; exact ⟨_, by rw [v8.trans (if_pos d9)]⟩
    rw [if_neg d9]
    have v9 := v8.trans (if_neg d9)
    by_cases d10 : self._crlVerifier.verify intermediateCrl i ≠ STATUS_OK
    · rw [if_pos d10]; exact ⟨_, by rw [v9.trans (if_pos d10)]⟩
    rw [if_neg d10]
    have v10 := v9.trans (if_neg d10)
    by_cases d11 : rootCaCrl.isRevoked i = true
    · rw [if_pos d11]; exact ⟨_, by rw [v10.trans (if_pos d11)]⟩
    rw [if_neg d11]
    have v11 := v10.trans (if_neg d11)
    by_cases d12 : intermediateCrl.isRevoked p.toCertificate = true
    · rw [if_pos d12]; exact ⟨_, by rw [v11.trans (if_pos d12)]⟩
    rw [if_neg d12]
    have v12 := v11.trans (if_neg d12)
    by_cases d13 : expirationDate > r.getValidity.getNotAfterTime
    · rw [if_pos d13]; exact ⟨_, by rw [v12.trans (if_pos d13)]⟩
    rw [if_neg d13]
    have v13 := v12.trans (if_neg d13)
    by_cases d14 : expirationDate > i.getValidity.getNotAfterTime
    · rw [if_pos d14]; exact ⟨_, by rw [v13.trans (if_pos d14)]⟩
    rw [if_neg d14]
    have v14 := v13.trans (if_neg d14)
    by_cases d15 : expirationDate > p.getValidity.getNotAfterTime
    · rw [if_pos d15]; exact ⟨_, by rw [v14.trans (if_pos d15)]⟩
    rw [if_neg d15]
    have v15 := v14.trans (if_neg d15)
    by_cases d16 : rootCaCrl.expired expirationDate = true
    · rw [if_pos d16]; exact ⟨_, by rw [v15.trans (if_pos d16)]⟩
    rw [if_neg d16]
    have v16 := v15.trans (if_neg d16)
    by_cases d17 : intermediateCrl.expired expirationDate = true
    · rw [if_pos d17]; exact ⟨_, by rw [v16.trans (if_pos d17)]⟩
    · rw [if_neg d17]; exact ⟨_, by rw [v16.trans (if_neg d17)]⟩

/-- C21: when rules 1 to 8 hold, no certificate is expired and the root CRL is not
expired at `expirationDate`, an intermediate CRL that is expired gives
`STATUS_SGX_CRL_EXPIRED` with one log record, whose validity window is the root CRL's
`notBeforeTime` and `notAfterTime`; the window of the intermediate CRL occurs in neither
the record nor the status. -/
theorem pckCertVerifier_verify_intermediate_crl_log (self : PckCertVerifier)
    (chain : CertificateChain) (rootCaCrl intermediateCrl : CrlStore) (rootCa : Certificate)
    (expirationDate : time_t) (root intermediate : Certificate) (pck : PckCertificate)
    (h : PckChainRules.rules1to8 self chain rootCaCrl intermediateCrl rootCa root
      intermediate pck)
    (hcerts : expirationDate ≤ root.getValidity.getNotAfterTime ∧
      expirationDate ≤ intermediate.getValidity.getNotAfterTime ∧
      expirationDate ≤ pck.getValidity.getNotAfterTime)
    (hrootCrl : rootCaCrl.expired expirationDate = false)
    (hintermediateCrl : intermediateCrl.expired expirationDate = true) :
    self.verifyTraced chain rootCaCrl intermediateCrl rootCa expirationDate =
      some (STATUS_SGX_CRL_EXPIRED,
        [⟨"Intermediate CA CRL is expired. Expiration date: \x7b\x7d, validity date range - from: \x7b\x7d to: \x7b\x7d",
          [LogArg.time expirationDate, LogArg.time rootCaCrl.getValidity.notBeforeTime,
            LogArg.time rootCaCrl.getValidity.notAfterTime]⟩]) ∧
    self.verify chain rootCaCrl intermediateCrl rootCa expirationDate =
      STATUS_SGX_CRL_EXPIRED := by
  obtain ⟨n1, n2, n3⟩ := hcerts
  constructor
  · obtain ⟨⟨⟨⟨⟨hr, hi, hp, c1, c2, c3⟩, c4, c5, c6, c7⟩, c8⟩, c9, c10⟩, c11, c12⟩ := h
    unfold PckCertVerifier.verifyTraced
    rw [hr]
    simp only [hi, hp, deref, Option.isNone, Bool.false_eq_true, if_false,
      Bool.not_eq_true']
    rw [verifyPCKCertTraced_status, if_neg (by simp [c1]), if_neg (by simp [c2]),
      if_neg (by simp [c3]), if_neg (by simp [c4]), if_neg (by simp [c5]),
      if_neg (by simp [c6]), if_neg (by simp [c7]), if_neg (by simp [c8]),
      if_neg (by simp [c9]), if_neg (by simp [c10]), if_neg (by simp [c11]),
      if_neg (by simp [c12]), if_neg (not_lt.mpr n1), if_neg (not_lt.mpr n2),
      if_neg (not_lt.mpr n3), if_neg (by simp [hrootCrl]), if_pos hintermediateCrl]
  · rw [verify_after_rule8 self chain rootCaCrl intermediateCrl rootCa expirationDate root
      intermediate pck h, if_neg (not_lt.mpr n1), if_neg (not_lt.mpr n2),
      if_neg (not_lt.mpr n3), if_neg (by simp [hrootCrl]), if_pos hintermediateCrl]

/-- Witness for C21: the intermediate CRL valid from 2000 to 3000 is expired at 3500, and
the record logged carries 1000 and 4600, the window of the root CRL. -/
theorem pckCertVerifier_verify_intermediate_crl_log_witness :
    sample.intermediateCrlNarrow.getValidity = ⟨2000, 3000⟩ ∧
    sample.rootCaCrl.getValidity = ⟨1000, 4600⟩ ∧
    sample.pckCertVerifier.verifyTraced sample.pckChain sample.rootCaCrl
        sample.intermediateCrlNarrow sample.rootCert 3500 =
      some (STATUS_SGX_CRL_EXPIRED,
        [⟨"Intermediate CA CRL is expired. Expiration date: \x7b\x7d, validity date range - from: \x7b\x7d to: \x7b\x7d",
          [LogArg.time 3500, LogArg.time 1000, LogArg.time 4600]⟩]) :=
  ⟨rfl, rfl,
    (pckCertVerifier_verify_intermediate_crl_log sample.pckCertVerifier sample.pckChain
      sample.rootCaCrl sample.intermediateCrlNarrow sample.rootCert 3500 sample.rootCert
      sample.intermediateCert sample.pckCert (by decide) (by decide) (by decide)
      (by decide)).1⟩

end intel.sgx.dcap
